import Mathlib

/-!
Shallow embedding of the serial-flash tester experiment controller from
`SF-Tester-Design-MB-S7/Vitis-Sources/SF-Tester-Design-App-S7/src/Experiment.c`
(plus the enumerations from `Experiment.h`).

C `uint8_t` values are `Nat` with arithmetic taken `% 256`; `uint32_t`
values are `Nat` with arithmetic taken `% 2^32`.  The flash device and its
driver calls (`SF3_FlashWriteEnable`, `SF3_SectorErase`, `SF3_FlashWrite`,
`SF3_FlashRead`) are not part of the repository sources; they are modelled
from the spec's collaborator contracts (§6) and the fault-free flash model
of §8: the flash is a byte store `Nat → Nat`, a page read returns exactly
the bytes last programmed at that address, and each call may fail, in
which case it has no device effect and the controller logs a console line.
-/

namespace SFT

/-! ### Constants, from Experiment.c lines 71-101 -/

def SWTCH0_MASK : Nat := 0x01
def SWTCH1_MASK : Nat := 0x02
def SWTCH2_MASK : Nat := 0x04
def SWTCH3_MASK : Nat := 0x08
def BTN0_MASK : Nat := 0x01
def BTN1_MASK : Nat := 0x02
def BTN2_MASK : Nat := 0x04
def BTN3_MASK : Nat := 0x08

def sf3_test_pattern_startval_a : Nat := 0x00
def sf3_test_pattern_incrval_a : Nat := 0x01
def sf3_test_pattern_startval_b : Nat := 0x08
def sf3_test_pattern_incrval_b : Nat := 0x07
def sf3_test_pattern_startval_c : Nat := 0x10
def sf3_test_pattern_incrval_c : Nat := 0x0F
def sf3_test_pattern_startval_d : Nat := 0x18
def sf3_test_pattern_incrval_d : Nat := 0x17
def max_possible_byte_count : Nat := 33554432
def total_iteration_count : Nat := 32
def per_iteration_byte_count : Nat := max_possible_byte_count / total_iteration_count
def last_starting_byte_addr : Nat := per_iteration_byte_count * (total_iteration_count - 1)
def sf3_subsector_addr_incr : Nat := 4096
def sf3_page_addr_incr : Nat := 256
def experi_subsector_cnt_per_iter : Nat := 8192 / total_iteration_count
def experi_page_cnt_per_iter : Nat := 131072 / total_iteration_count
def cnt_t_max : Nat := 100 * 3

/-- Modelled from the spec: `SF3_PAGE_SIZE` comes from the Pmod SF3 driver
header, which is not under the repository sources.  The page is the
smallest programmable/readable unit; the code's fixed constants
(`experi_page_cnt_per_iter * total_iteration_count` pages covering
`max_possible_byte_count` bytes, page address stride 256) give 256 bytes. -/
def SF3_PAGE_SIZE : Nat := 256

/-- Modelled from the spec: `SF3_WRITE_EXTRA_BYTES` comes from the Pmod SF3
driver header, not under the repository sources; it is the number of
protocol header bytes (command plus 3 address bytes) preceding page data
in the write buffer (spec §3: buffers are "sized to page length plus fixed
protocol header bytes"). -/
def SF3_WRITE_EXTRA_BYTES : Nat := 4

/-- Modelled from the spec: `SF3_READ_MIN_EXTRA_BYTES` comes from the Pmod
SF3 driver header, not under the repository sources; it is the number of
protocol header bytes preceding page data in the read buffer. -/
def SF3_READ_MIN_EXTRA_BYTES : Nat := 4

/-- Modulus of C `uint32_t` arithmetic. -/
def U32 : Nat := 2 ^ 32

/-- Modulus of C `uint8_t` arithmetic. -/
def U8 : Nat := 256

/-! ### Enumerations, from Experiment.h -/

/-- Operating-mode enumeration `OPERATING_MODE_TAG` of Experiment.h. -/
inductive OperatingMode where
  | ST_WAIT_BUTTON_DEP
  | ST_WAIT_BUTTON_REL
  | ST_SET_PATTERN
  | ST_SET_START_ADDR
  | ST_SET_START_WAIT
  | ST_CMD_ERASE_START
  | ST_CMD_ERASE_DONE
  | ST_CMD_PAGE_START
  | ST_CMD_PAGE_DONE
  | ST_CMD_READ_START
  | ST_CMD_READ_DONE
  | ST_DISPLAY_FINAL
  | OPERATING_MODE_NONE
  deriving DecidableEq, Repr

/-- Test-pattern enumeration `TEST_PATTERN_TAG` of Experiment.h. -/
inductive TestPattern where
  | TEST_PATTERN_A
  | TEST_PATTERN_B
  | TEST_PATTERN_C
  | TEST_PATTERN_D
  | TEST_PATTERN_NONE
  deriving DecidableEq, Repr

/-- A console line sent on the print queue.  The C code formats the line
into `comString` with `snprintf` and enqueues it; we record the message
kind and the formatted address value instead of the rendered characters. -/
inductive ConsoleMsg where
  | wenFail
  | ersFail (addr : Nat)
  | proFail (addr : Nat)
  | rdFail (addr : Nat)
  deriving DecidableEq, Repr

open OperatingMode TestPattern

/-! ### State: `t_experiment_data` (the fields the FSM reads or writes).

`axGpio`, `ledUpdate` and `comString` are omitted: the GPIO handle and the
LED palette cache are only relays to the sinks, and `comString` is a
scratch buffer whose content is always the console message just emitted
(our step function returns those messages directly).  The flash device's
byte store is carried alongside the controller state. -/

structure ExperimentData where
  operatingMode : OperatingMode
  operatingModePrev : OperatingMode
  sf3_start_at_zero : Bool
  sf3_addr_start_val : Nat
  sf3_test_pattern_selected : TestPattern
  sf3_pattern_start_val : Nat
  sf3_pattern_incr_val : Nat
  sf3_pattern_track_val : Nat
  sf3_test_pass : Bool
  sf3_test_done : Bool
  sf3_err_count_val : Nat
  switchesRead : Nat
  buttonsRead : Nat
  cnt_t : Nat
  cnt_t_freerun : Nat
  sf3_i_val : Nat
  sf3_address_of_cmd : Nat
  WriteBuffer : Nat → Nat
  ReadBuffer : Nat → Nat
  flash : Nat → Nat

/-- Inputs a single scheduler tick consumes: the sampled GPIO values and
the outcome of this tick's device calls (`wenFail` for
`SF3_FlashWriteEnable`, `opFail` for the erase/program/read call). -/
structure TickInput where
  buttons : Nat
  switches : Nat
  wenFail : Bool
  opFail : Bool

/-! ### Device model (spec §6 / §8) and buffer loops -/

/-- Pointwise byte-store update, used for the C array assignments. -/
def updB (f : Nat → Nat) (k v : Nat) : Nat → Nat :=
  fun a => if a = k then v else f a

/-- Modelled from the spec: `eraseSector(addr)` of the flash driver (not
under the repository sources) erases the subsector at `addr` — the
smallest erasable unit, `sf3_subsector_addr_incr` bytes — to the NOR
erased value 0xFF. -/
def SF3_SectorErase (flash : Nat → Nat) (addr : Nat) : Nat → Nat :=
  fun a => if addr ≤ a ∧ a < addr + sf3_subsector_addr_incr then 0xFF else flash a

/-- Modelled from the spec: `programPage(addr, len, buf)` of the flash
driver (not under the repository sources) programs `SF3_PAGE_SIZE` bytes
into the flash at `addr`, taking the data from the write buffer after its
`SF3_WRITE_EXTRA_BYTES` protocol header bytes. -/
def SF3_FlashWrite (flash : Nat → Nat) (addr : Nat) (buf : Nat → Nat) : Nat → Nat :=
  fun a =>
    if addr ≤ a ∧ a < addr + SF3_PAGE_SIZE then buf (SF3_WRITE_EXTRA_BYTES + (a - addr))
    else flash a

/-- Modelled from the spec: `readPage(addr, len, buf)` of the flash driver
(not under the repository sources) returns exactly the bytes last stored
at that address (§8 fault-free model), depositing them in the read buffer
after its `SF3_READ_MIN_EXTRA_BYTES` protocol header positions. -/
def SF3_FlashRead (flash : Nat → Nat) (addr : Nat) (buf : Nat → Nat) : Nat → Nat :=
  fun idx =>
    if SF3_READ_MIN_EXTRA_BYTES ≤ idx ∧ idx < SF3_READ_MIN_EXTRA_BYTES + SF3_PAGE_SIZE then
      flash (addr + (idx - SF3_READ_MIN_EXTRA_BYTES))
    else buf idx

/-- The `ST_CMD_PAGE_START` buffer-fill loop (Experiment.c lines 587-591):
`cnt` remaining iterations, writing `WriteBuffer[idx + SF3_WRITE_EXTRA_BYTES]
= track` and stepping `track` by `incrv` in `uint8_t` arithmetic.
Returns the updated buffer and the final `sf3_pattern_track_val`. -/
def fillWB (incrv : Nat) : Nat → Nat → (Nat → Nat) → Nat → (Nat → Nat) × Nat
  | _, 0, buf, track => (buf, track)
  | idx, c + 1, buf, track =>
      fillWB incrv (idx + 1) c (updB buf (idx + SF3_WRITE_EXTRA_BYTES) track)
        ((track + incrv) % U8)

/-- The `ST_CMD_READ_START` buffer-clearing loop (Experiment.c lines
624-627): `cnt` remaining iterations, writing
`ReadBuffer[idx + SF3_READ_MIN_EXTRA_BYTES] = 0`. -/
def clearRB : Nat → Nat → (Nat → Nat) → Nat → Nat
  | _, 0, buf => buf
  | idx, c + 1, buf => clearRB (idx + 1) c (updB buf (idx + SF3_READ_MIN_EXTRA_BYTES) 0)

/-- The `ST_CMD_READ_START` byte-compare loop (Experiment.c lines 638-642):
`err += (ReadBuffer[idx + SF3_READ_MIN_EXTRA_BYTES] == track) ? 0 : 1` in
`uint32_t` arithmetic, `track += incr` in `uint8_t` arithmetic.
Returns the final error count and track value. -/
def cmpLoop (incrv : Nat) (buf : Nat → Nat) : Nat → Nat → Nat → Nat → Nat × Nat
  | _, 0, err, track => (err, track)
  | idx, c + 1, err, track =>
      cmpLoop incrv buf (idx + 1) c
        ((err + if buf (idx + SF3_READ_MIN_EXTRA_BYTES) = track then 0 else 1) % U32)
        ((track + incrv) % U8)

/-! ### FSM iteration bodies -/

/-- One iteration of the `for (j = 0; j < 32; ++j)` body of
`ST_CMD_PAGE_START` (Experiment.c lines 577-606). -/
def pageIter (inp : TickInput) (s : ExperimentData) : ExperimentData × List ConsoleMsg :=
  let addrCmd := (s.sf3_addr_start_val + s.sf3_i_val * sf3_page_addr_incr) % U32
  let wenMsgs : List ConsoleMsg := if inp.wenFail then [ConsoleMsg.wenFail] else []
  let fill := fillWB s.sf3_pattern_incr_val 0 SF3_PAGE_SIZE s.WriteBuffer s.sf3_pattern_track_val
  let flashNew := if inp.opFail then s.flash else SF3_FlashWrite s.flash addrCmd fill.1
  let proMsgs : List ConsoleMsg := if inp.opFail then [ConsoleMsg.proFail addrCmd] else []
  let iNew := (s.sf3_i_val + 1) % U32
  ({ s with
      sf3_address_of_cmd := addrCmd
      WriteBuffer := fill.1
      sf3_pattern_track_val := s.sf3_pattern_start_val
      flash := flashNew
      sf3_i_val := iNew
      operatingMode :=
        if iNew < experi_page_cnt_per_iter then ST_CMD_PAGE_START else ST_CMD_PAGE_DONE },
    wenMsgs ++ proMsgs)

/-- One iteration of the `for (j = 0; j < 32; ++j)` body of
`ST_CMD_READ_START` (Experiment.c lines 621-650). -/
def readIter (inp : TickInput) (s : ExperimentData) : ExperimentData × List ConsoleMsg :=
  let addrCmd := (s.sf3_addr_start_val + s.sf3_i_val * sf3_page_addr_incr) % U32
  let cleared := clearRB 0 (SF3_PAGE_SIZE + SF3_READ_MIN_EXTRA_BYTES) s.ReadBuffer
  let bufNew := if inp.opFail then cleared else SF3_FlashRead s.flash addrCmd cleared
  let rdMsgs : List ConsoleMsg := if inp.opFail then [ConsoleMsg.rdFail addrCmd] else []
  let cmp := cmpLoop s.sf3_pattern_incr_val bufNew 0 SF3_PAGE_SIZE
    s.sf3_err_count_val s.sf3_pattern_start_val
  let iNew := (s.sf3_i_val + 1) % U32
  ({ s with
      sf3_address_of_cmd := addrCmd
      ReadBuffer := bufNew
      sf3_err_count_val := cmp.1
      sf3_pattern_track_val := s.sf3_pattern_start_val
      sf3_i_val := iNew
      operatingMode :=
        if iNew < experi_page_cnt_per_iter then ST_CMD_READ_START else ST_CMD_READ_DONE },
    rdMsgs)

/-- Runs `n` iterations of a per-page body (the `for (j = 0; j < 32; ++j)`
loops run with `n = 32`), concatenating the console messages. -/
def batch (iter : TickInput → ExperimentData → ExperimentData × List ConsoleMsg)
    (inp : TickInput) : Nat → ExperimentData → ExperimentData × List ConsoleMsg
  | 0, s => (s, [])
  | n + 1, s =>
      let r1 := iter inp s
      let r2 := batch iter inp n r1.1
      (r2.1, r1.2 ++ r2.2)

/-- The body of `ST_CMD_ERASE_START` (Experiment.c lines 541-563). -/
def eraseStep (inp : TickInput) (s : ExperimentData) : ExperimentData × List ConsoleMsg :=
  let addrCmd := (s.sf3_addr_start_val + s.sf3_i_val * sf3_subsector_addr_incr) % U32
  let wenMsgs : List ConsoleMsg := if inp.wenFail then [ConsoleMsg.wenFail] else []
  let flashNew := if inp.opFail then s.flash else SF3_SectorErase s.flash addrCmd
  let ersMsgs : List ConsoleMsg := if inp.opFail then [ConsoleMsg.ersFail addrCmd] else []
  let iNew := (s.sf3_i_val + 1) % U32
  ({ s with
      sf3_address_of_cmd := addrCmd
      flash := flashNew
      sf3_i_val := iNew
      operatingMode :=
        if iNew < experi_subsector_cnt_per_iter then ST_CMD_ERASE_START
        else ST_CMD_ERASE_DONE },
    wenMsgs ++ ersMsgs)

/-! ### The FSM step, tick, and run -/

/-- `Experiment_operateFSM` (Experiment.c lines 455-675), one call.
Device-call outcomes come from `inp`; GPIO values were already latched
into `buttonsRead` / `switchesRead` by `Experiment_readUserInputs`. -/
def Experiment_operateFSM (inp : TickInput) (s : ExperimentData) :
    ExperimentData × List ConsoleMsg :=
  match s.operatingMode with
  | ST_WAIT_BUTTON_DEP =>
      if s.sf3_addr_start_val < last_starting_byte_addr then
        let s := { s with sf3_test_done := false }
        if s.buttonsRead = BTN0_MASK ∨ s.switchesRead = SWTCH0_MASK then
          ({ s with operatingMode := ST_WAIT_BUTTON_REL
                    sf3_test_pattern_selected := TEST_PATTERN_A }, [])
        else if s.buttonsRead = BTN1_MASK ∨ s.switchesRead = SWTCH1_MASK then
          ({ s with operatingMode := ST_WAIT_BUTTON_REL
                    sf3_test_pattern_selected := TEST_PATTERN_B }, [])
        else if s.buttonsRead = BTN2_MASK ∨ s.switchesRead = SWTCH2_MASK then
          ({ s with operatingMode := ST_WAIT_BUTTON_REL
                    sf3_test_pattern_selected := TEST_PATTERN_C }, [])
        else if s.buttonsRead = BTN3_MASK ∨ s.switchesRead = SWTCH3_MASK then
          ({ s with operatingMode := ST_WAIT_BUTTON_REL
                    sf3_test_pattern_selected := TEST_PATTERN_D }, [])
        else (s, [])
      else
        ({ s with sf3_test_done := true }, [])
  | ST_WAIT_BUTTON_REL =>
      if s.buttonsRead = 0 then ({ s with operatingMode := ST_SET_PATTERN }, [])
      else (s, [])
  | ST_SET_PATTERN =>
      let s :=
        match s.sf3_test_pattern_selected with
        | TEST_PATTERN_A =>
            { s with sf3_pattern_start_val := sf3_test_pattern_startval_a
                     sf3_pattern_incr_val := sf3_test_pattern_incrval_a }
        | TEST_PATTERN_B =>
            { s with sf3_pattern_start_val := sf3_test_pattern_startval_b
                     sf3_pattern_incr_val := sf3_test_pattern_incrval_b }
        | TEST_PATTERN_C =>
            { s with sf3_pattern_start_val := sf3_test_pattern_startval_c
                     sf3_pattern_incr_val := sf3_test_pattern_incrval_c }
        | TEST_PATTERN_D =>
            { s with sf3_pattern_start_val := sf3_test_pattern_startval_d
                     sf3_pattern_incr_val := sf3_test_pattern_incrval_d }
        | TEST_PATTERN_NONE => s
      ({ s with operatingMode := ST_SET_START_ADDR }, [])
  | ST_SET_START_ADDR =>
      let s :=
        if s.sf3_start_at_zero then
          { s with sf3_addr_start_val := 0
                   sf3_test_done := false
                   operatingMode := ST_SET_START_WAIT }
        else if s.sf3_addr_start_val < last_starting_byte_addr then
          { s with sf3_addr_start_val := (s.sf3_addr_start_val + per_iteration_byte_count) % U32
                   sf3_test_done := false
                   operatingMode := ST_SET_START_WAIT }
        else
          { s with sf3_test_done := true
                   operatingMode := ST_WAIT_BUTTON_DEP }
      ({ s with sf3_start_at_zero := false, sf3_i_val := 0 }, [])
  | ST_SET_START_WAIT =>
      if s.cnt_t = cnt_t_max / 2 then ({ s with operatingMode := ST_CMD_ERASE_START }, [])
      else (s, [])
  | ST_CMD_ERASE_START => eraseStep inp s
  | ST_CMD_ERASE_DONE =>
      let s := { s with sf3_pattern_track_val := s.sf3_pattern_start_val, sf3_i_val := 0 }
      if s.cnt_t ≥ cnt_t_max - 1 then ({ s with operatingMode := ST_CMD_PAGE_START }, [])
      else ({ s with operatingMode := ST_CMD_ERASE_DONE }, [])
  | ST_CMD_PAGE_START => batch pageIter inp 32 s
  | ST_CMD_PAGE_DONE =>
      let s := { s with sf3_pattern_track_val := s.sf3_pattern_start_val, sf3_i_val := 0 }
      if s.cnt_t ≥ cnt_t_max - 1 then ({ s with operatingMode := ST_CMD_READ_START }, [])
      else ({ s with operatingMode := ST_CMD_PAGE_DONE }, [])
  | ST_CMD_READ_START => batch readIter inp 32 s
  | ST_CMD_READ_DONE =>
      let s := { s with sf3_pattern_track_val := s.sf3_pattern_start_val, sf3_i_val := 0 }
      if s.cnt_t ≥ cnt_t_max - 1 then ({ s with operatingMode := ST_DISPLAY_FINAL }, [])
      else ({ s with operatingMode := ST_CMD_READ_DONE }, [])
  | ST_DISPLAY_FINAL =>
      let s := { s with sf3_test_pass := s.sf3_err_count_val = 0 }
      if s.cnt_t = cnt_t_max - 1 then ({ s with operatingMode := ST_WAIT_BUTTON_DEP }, [])
      else (s, [])
  | OPERATING_MODE_NONE => ({ s with operatingMode := ST_WAIT_BUTTON_DEP }, [])

/-- `Experiment_readUserInputs` (Experiment.c lines 449-452). -/
def Experiment_readUserInputs (inp : TickInput) (s : ExperimentData) : ExperimentData :=
  { s with switchesRead := inp.switches, buttonsRead := inp.buttons }

/-- `Experiment_iterationTimer` (Experiment.c lines 678-690). -/
def Experiment_iterationTimer (s : ExperimentData) : ExperimentData :=
  { s with
      cnt_t := if s.operatingMode ≠ s.operatingModePrev then 0 else (s.cnt_t + 1) % cnt_t_max
      cnt_t_freerun := (s.cnt_t_freerun + 1) % cnt_t_max
      operatingModePrev := s.operatingMode }

/-- One scheduler-loop iteration of `Experiment_prvSf3Task` restricted to
the state-changing steps: sample inputs, run one FSM step, advance the
timers (the LED/display renderings earlier in the loop do not mutate
the FSM state). -/
def tick (inp : TickInput) (s : ExperimentData) : ExperimentData :=
  Experiment_iterationTimer (Experiment_operateFSM inp (Experiment_readUserInputs inp s)).1

/-- The console messages emitted by one tick's FSM step. -/
def tickMsgs (inp : TickInput) (s : ExperimentData) : List ConsoleMsg :=
  (Experiment_operateFSM inp (Experiment_readUserInputs inp s)).2

/-- `run f n s` advances `n` ticks from `s`; tick `k` consumes input `f k`. -/
def run (f : Nat → TickInput) : Nat → ExperimentData → ExperimentData
  | 0, s => s
  | n + 1, s => tick (f n) (run f n s)

/-! ### Initialisation -/

/-- The zero-initialised global `experiData` (C static storage), with the
flash device holding an arbitrary initial image `F0`. -/
def zeroData (F0 : Nat → Nat) : ExperimentData where
  operatingMode := ST_WAIT_BUTTON_DEP
  operatingModePrev := ST_WAIT_BUTTON_DEP
  sf3_start_at_zero := false
  sf3_addr_start_val := 0
  sf3_test_pattern_selected := TEST_PATTERN_A
  sf3_pattern_start_val := 0
  sf3_pattern_incr_val := 0
  sf3_pattern_track_val := 0
  sf3_test_pass := false
  sf3_test_done := false
  sf3_err_count_val := 0
  switchesRead := 0
  buttonsRead := 0
  cnt_t := 0
  cnt_t_freerun := 0
  sf3_i_val := 0
  sf3_address_of_cmd := 0
  WriteBuffer := fun _ => 0
  ReadBuffer := fun _ => 0
  flash := F0

/-- `Experiment_InitData` (Experiment.c lines 227-248). -/
def Experiment_InitData (s : ExperimentData) : ExperimentData :=
  { s with
      operatingMode := ST_WAIT_BUTTON_DEP
      operatingModePrev := ST_WAIT_BUTTON_DEP
      sf3_start_at_zero := true
      sf3_addr_start_val := 0
      sf3_test_pattern_selected := TEST_PATTERN_NONE
      sf3_pattern_start_val := sf3_test_pattern_startval_a
      sf3_pattern_incr_val := sf3_test_pattern_incrval_a
      sf3_test_pass := false
      sf3_test_done := false
      sf3_err_count_val := 0
      switchesRead := 0
      buttonsRead := 0
      cnt_t := 0
      cnt_t_freerun := 0 }

/-- The task-start state: the zeroed global after `Experiment_InitData`. -/
def initState (F0 : Nat → Nat) : ExperimentData :=
  Experiment_InitData (zeroData F0)

/-! ### Display/console projection (Experiment.c lines 352-446) -/

/-- `Experiment_generateTextLine1`: the pattern character and the region
start offset rendered on line 1. -/
def Experiment_generateTextLine1 (s : ExperimentData) : Char × Nat :=
  (match s.sf3_test_pattern_selected with
    | TEST_PATTERN_A => 'A'
    | TEST_PATTERN_B => 'B'
    | TEST_PATTERN_C => 'C'
    | TEST_PATTERN_D => 'D'
    | TEST_PATTERN_NONE => '*',
   s.sf3_addr_start_val)

/-- `Experiment_generateTextLine2`: the three-letter phase tag and the
error count rendered on line 2. -/
def Experiment_generateTextLine2 (s : ExperimentData) : String × Nat :=
  (match s.operatingMode with
    | ST_WAIT_BUTTON_REL | ST_SET_PATTERN | ST_SET_START_ADDR | ST_SET_START_WAIT => "GO "
    | ST_CMD_ERASE_START | ST_CMD_ERASE_DONE => "ERS"
    | ST_CMD_PAGE_START | ST_CMD_PAGE_DONE => "PRO"
    | ST_CMD_READ_START | ST_CMD_READ_DONE => "TST"
    | ST_DISPLAY_FINAL => "END"
    | ST_WAIT_BUTTON_DEP | OPERATING_MODE_NONE => "GO ",
   s.sf3_err_count_val)

/-- `Experiment_updateClsDisplayAndTerminal` (lines 425-446): returns the
display events and console events attempted this tick (each a non-waiting
enqueue in the C code).  Nothing is emitted unless
`cnt_t_freerun % (cnt_t_max / 15) == 0`. -/
def Experiment_updateClsDisplayAndTerminal (s : ExperimentData) :
    List ((Char × Nat) × (String × Nat)) × List ((Char × Nat) × (String × Nat)) :=
  if s.cnt_t_freerun % (cnt_t_max / 15) ≠ 0 then ([], [])
  else
    ([(Experiment_generateTextLine1 s, Experiment_generateTextLine2 s)],
     [(Experiment_generateTextLine1 s, Experiment_generateTextLine2 s)])

/-! ### Spec-side definitions used to state the claims -/

/-- The spec's pattern rule: value at position `i` for seed
`(startByte, strideByte)` is `(startByte + i*strideByte) mod 256`. -/
def patternByte (startv incrv i : Nat) : Nat :=
  (startv + i * incrv) % U8

/-- Number of byte positions of one page at which `g` disagrees with the
pattern defined by `(startv, incrv)`. -/
def mismatchCount (g : Nat → Nat) (startv incrv : Nat) : Nat :=
  ((List.range SF3_PAGE_SIZE).filter (fun j => g j ≠ patternByte startv incrv j)).length

/-- Pattern input `p` is active on this tick's sampled GPIO values: the
button word or the switch word equals that pattern's mask (the form of
the `ST_WAIT_BUTTON_DEP` conditions). -/
def patternInputActive (inp : TickInput) (p : TestPattern) : Prop :=
  match p with
  | TEST_PATTERN_A => inp.buttons = BTN0_MASK ∨ inp.switches = SWTCH0_MASK
  | TEST_PATTERN_B => inp.buttons = BTN1_MASK ∨ inp.switches = SWTCH1_MASK
  | TEST_PATTERN_C => inp.buttons = BTN2_MASK ∨ inp.switches = SWTCH2_MASK
  | TEST_PATTERN_D => inp.buttons = BTN3_MASK ∨ inp.switches = SWTCH3_MASK
  | TEST_PATTERN_NONE => False

instance (inp : TickInput) (p : TestPattern) : Decidable (patternInputActive inp p) := by
  unfold patternInputActive
  cases p <;> infer_instance

/-- The claim's tie-break rule, written from the spec's words: the first
active input in the fixed scan order A, then B, then C, then D. -/
def firstActivePattern (inp : TickInput) : TestPattern :=
  if patternInputActive inp TEST_PATTERN_A then TEST_PATTERN_A
  else if patternInputActive inp TEST_PATTERN_B then TEST_PATTERN_B
  else if patternInputActive inp TEST_PATTERN_C then TEST_PATTERN_C
  else if patternInputActive inp TEST_PATTERN_D then TEST_PATTERN_D
  else TEST_PATTERN_NONE

/-- The pattern-seed start value latched by `ST_SET_PATTERN`. -/
def patternStartvalOf : TestPattern → Nat
  | TEST_PATTERN_A => sf3_test_pattern_startval_a
  | TEST_PATTERN_B => sf3_test_pattern_startval_b
  | TEST_PATTERN_C => sf3_test_pattern_startval_c
  | TEST_PATTERN_D => sf3_test_pattern_startval_d
  | TEST_PATTERN_NONE => sf3_test_pattern_startval_a

/-- The pattern-seed increment value latched by `ST_SET_PATTERN`. -/
def patternIncrvalOf : TestPattern → Nat
  | TEST_PATTERN_A => sf3_test_pattern_incrval_a
  | TEST_PATTERN_B => sf3_test_pattern_incrval_b
  | TEST_PATTERN_C => sf3_test_pattern_incrval_c
  | TEST_PATTERN_D => sf3_test_pattern_incrval_d
  | TEST_PATTERN_NONE => sf3_test_pattern_incrval_a

/-- The control fields of `ExperimentData`: everything except the
free-running display throttle, the GPIO latches (rewritten from the input
every tick), the transient buffers, the scratch command address, and the
flash store.  Phase lemmas are stated as equalities of this projection. -/
structure Ctrl where
  operatingMode : OperatingMode
  operatingModePrev : OperatingMode
  sf3_start_at_zero : Bool
  sf3_addr_start_val : Nat
  sf3_test_pattern_selected : TestPattern
  sf3_pattern_start_val : Nat
  sf3_pattern_incr_val : Nat
  sf3_pattern_track_val : Nat
  sf3_test_pass : Bool
  sf3_test_done : Bool
  sf3_err_count_val : Nat
  cnt_t : Nat
  sf3_i_val : Nat
  deriving DecidableEq, Repr

/-- Projection of the control fields. -/
def ctrl (s : ExperimentData) : Ctrl where
  operatingMode := s.operatingMode
  operatingModePrev := s.operatingModePrev
  sf3_start_at_zero := s.sf3_start_at_zero
  sf3_addr_start_val := s.sf3_addr_start_val
  sf3_test_pattern_selected := s.sf3_test_pattern_selected
  sf3_pattern_start_val := s.sf3_pattern_start_val
  sf3_pattern_incr_val := s.sf3_pattern_incr_val
  sf3_pattern_track_val := s.sf3_pattern_track_val
  sf3_test_pass := s.sf3_test_pass
  sf3_test_done := s.sf3_test_done
  sf3_err_count_val := s.sf3_err_count_val
  cnt_t := s.cnt_t
  sf3_i_val := s.sf3_i_val

/-- Successor of each dwell state (the `DONE` states' exit targets). -/
def nextDone : OperatingMode → OperatingMode
  | ST_CMD_ERASE_DONE => ST_CMD_PAGE_START
  | ST_CMD_PAGE_DONE => ST_CMD_READ_START
  | ST_CMD_READ_DONE => ST_DISPLAY_FINAL
  | _ => ST_WAIT_BUTTON_DEP

/-- Mismatch counter mirroring the byte-compare loop: for `cnt` positions
starting at page offset `off`, counts the positions where `g` differs from
the running pattern value started at `track`.  `misCountG g incrv 0
SF3_PAGE_SIZE startv` is the per-page error contribution of a page whose
read-back data is `g`. -/
def misCountG (g : Nat → Nat) (incrv : Nat) : Nat → Nat → Nat → Nat
  | _, 0, _ => 0
  | off, c + 1, track =>
      (if g off = track then 0 else 1) + misCountG g incrv (off + 1) c ((track + incrv) % U8)

/-- Invariant of claim C7: the region start offset is always a multiple of
the per-region byte span and never exceeds the last valid region start. -/
def addrInv (s : ExperimentData) : Prop :=
  s.sf3_addr_start_val % per_iteration_byte_count = 0 ∧
  s.sf3_addr_start_val ≤ last_starting_byte_addr

instance (s : ExperimentData) : Decidable (addrInv s) := by
  unfold addrInv
  infer_instance

/-- Invariant of claim C8: the sub-operation index is within the
per-region sub-operation count of the current phase at every tick
boundary (255 max before the erase step of a tick, and a multiple of 32
below 4096 before a program/read batch). -/
def subOpInv (s : ExperimentData) : Prop :=
  (s.operatingMode = ST_SET_START_WAIT → s.sf3_i_val = 0) ∧
  (s.operatingMode = ST_CMD_ERASE_START → s.sf3_i_val < experi_subsector_cnt_per_iter) ∧
  ((s.operatingMode = ST_CMD_PAGE_START ∨ s.operatingMode = ST_CMD_READ_START) →
    s.sf3_i_val < experi_page_cnt_per_iter ∧ s.sf3_i_val % 32 = 0)

instance (s : ExperimentData) : Decidable (subOpInv s) := by
  unfold subOpInv
  infer_instance

/-- Claim C3's bounds property of the `ST_CMD_READ_START` buffer-clearing
loop: every written index `iByte + SF3_READ_MIN_EXTRA_BYTES`, for `iByte`
below the loop bound `SF3_PAGE_SIZE + SF3_READ_MIN_EXTRA_BYTES`, stays
below the declared length `SF3_PAGE_SIZE + SF3_READ_MIN_EXTRA_BYTES` of
`ReadBuffer`. -/
def clearLoopWritesInBounds : Prop :=
  ∀ iByte < SF3_PAGE_SIZE + SF3_READ_MIN_EXTRA_BYTES,
    iByte + SF3_READ_MIN_EXTRA_BYTES < SF3_PAGE_SIZE + SF3_READ_MIN_EXTRA_BYTES

instance : Decidable clearLoopWritesInBounds := by
  unfold clearLoopWritesInBounds
  infer_instance

/-- An input schedule that drives a full pattern-A pass whose read phase
fails on every page (the device reads return nothing, so every compared
byte is 0), then starts a second pass: the pattern-A button is pressed
at ticks 0 and 1867, the flash-device calls fail exactly during the
first pass's read phase (ticks 1139-1266), and all other inputs are
idle. -/
def c2Input : Nat → TickInput := fun t =>
  { buttons := if t = 0 ∨ t = 1867 then BTN0_MASK else 0
    switches := 0
    wenFail := false
    opFail := decide (1139 ≤ t ∧ t ≤ 1266) }

/-! ### Arithmetic and constant facts -/

theorem per_iteration_byte_count_eq : per_iteration_byte_count = 1048576 := rfl

theorem last_starting_byte_addr_eq : last_starting_byte_addr = 32505856 := rfl

theorem experi_subsector_cnt_eq : experi_subsector_cnt_per_iter = 256 := rfl

theorem experi_page_cnt_eq : experi_page_cnt_per_iter = 4096 := rfl

theorem cnt_t_max_eq : cnt_t_max = 300 := rfl

theorem U32_eq : U32 = 4294967296 := rfl

theorem U8_eq : U8 = 256 := rfl

theorem mod_U32_add_mod (a b : Nat) : (a % U32 + b) % U32 = (a + b) % U32 :=
  Nat.mod_add_mod a U32 b

theorem mod_U8_add_mod (a b : Nat) : (a % U8 + b) % U8 = (a + b) % U8 :=
  Nat.mod_add_mod a U8 b

theorem mod_U32_of_lt {a : Nat} (h : a < U32) : a % U32 = a := Nat.mod_eq_of_lt h

/-! ### run plumbing -/

theorem run_zero (f : Nat → TickInput) (s : ExperimentData) : run f 0 s = s := rfl

theorem run_succ (f : Nat → TickInput) (n : Nat) (s : ExperimentData) :
    run f (n + 1) s = tick (f n) (run f n s) := rfl

theorem run_add (f : Nat → TickInput) (m n : Nat) (s : ExperimentData) :
    run f (m + n) s = run (fun k => f (m + k)) n (run f m s) := by
  induction n with
  | zero => rfl
  | succ n ih =>
      calc run f (m + (n + 1)) s = tick (f (m + n)) (run f (m + n) s) := rfl
        _ = tick (f (m + n)) (run (fun k => f (m + k)) n (run f m s)) := by rw [ih]
        _ = run (fun k => f (m + k)) (n + 1) (run f m s) := rfl

/-- After any tick, the latched previous mode equals the current mode
(the timer runs after the FSM step and copies the mode). -/
theorem tick_prev_eq (inp : TickInput) (s : ExperimentData) :
    (tick inp s).operatingModePrev = (tick inp s).operatingMode := rfl

/-! ### Buffer-loop closed forms -/

theorem updB_same (f : Nat → Nat) (k v : Nat) : updB f k v k = v := by
  simp [updB]

theorem updB_other (f : Nat → Nat) {k a : Nat} (v : Nat) (h : a ≠ k) : updB f k v a = f a := by
  simp [updB, h]

theorem fillWB_frame (incrv : Nat) :
    ∀ (cnt idx : Nat) (buf : Nat → Nat) (track a : Nat),
      a < idx + SF3_WRITE_EXTRA_BYTES ∨ idx + cnt + SF3_WRITE_EXTRA_BYTES ≤ a →
      (fillWB incrv idx cnt buf track).1 a = buf a := by
  intro cnt
  induction cnt with
  | zero => intro idx buf track a _; rfl
  | succ c ih =>
      intro idx buf track a ha
      show (fillWB incrv (idx + 1) c _ _).1 a = buf a
      rw [ih (idx + 1) _ _ a (by omega)]
      exact updB_other buf _ (by omega)

theorem fillWB_get (incrv : Nat) :
    ∀ (cnt idx : Nat) (buf : Nat → Nat) (track : Nat), track < U8 →
      ∀ k < cnt,
        (fillWB incrv idx cnt buf track).1 (idx + k + SF3_WRITE_EXTRA_BYTES) =
          (track + k * incrv) % U8 := by
  intro cnt
  induction cnt with
  | zero => intro idx buf track _ k hk; omega
  | succ c ih =>
      intro idx buf track htrack k hk
      show (fillWB incrv (idx + 1) c _ _).1 _ = _
      rcases Nat.eq_zero_or_pos k with hk0 | hkpos
      · subst hk0
        rw [fillWB_frame incrv c (idx + 1) _ _ _ (by omega)]
        simp only [Nat.add_zero]
        rw [updB_same]
        simp [Nat.mod_eq_of_lt htrack]
      · obtain ⟨k', rfl⟩ : ∃ k', k = k' + 1 := ⟨k - 1, by omega⟩
        have h1 : idx + (k' + 1) + SF3_WRITE_EXTRA_BYTES =
            (idx + 1) + k' + SF3_WRITE_EXTRA_BYTES := by omega
        rw [h1, ih (idx + 1) _ _ (Nat.mod_lt _ (by norm_num [U8])) k' (by omega)]
        rw [mod_U8_add_mod]
        congr 1
        ring

theorem clearRB_frame :
    ∀ (cnt idx : Nat) (buf : Nat → Nat) (a : Nat),
      a < idx + SF3_READ_MIN_EXTRA_BYTES ∨ idx + cnt + SF3_READ_MIN_EXTRA_BYTES ≤ a →
      clearRB idx cnt buf a = buf a := by
  intro cnt
  induction cnt with
  | zero => intro idx buf a _; rfl
  | succ c ih =>
      intro idx buf a ha
      show clearRB (idx + 1) c _ a = buf a
      rw [ih (idx + 1) _ a (by omega)]
      exact updB_other buf _ (by omega)

theorem clearRB_get :
    ∀ (cnt idx : Nat) (buf : Nat → Nat), ∀ k < cnt,
      clearRB idx cnt buf (idx + k + SF3_READ_MIN_EXTRA_BYTES) = 0 := by
  intro cnt
  induction cnt with
  | zero => intro idx buf k hk; omega
  | succ c ih =>
      intro idx buf k hk
      show clearRB (idx + 1) c _ _ = 0
      rcases Nat.eq_zero_or_pos k with hk0 | hkpos
      · subst hk0
        rw [clearRB_frame c (idx + 1) _ _ (by omega)]
        exact updB_same buf _ 0
      · obtain ⟨k', rfl⟩ : ∃ k', k = k' + 1 := ⟨k - 1, by omega⟩
        have h1 : idx + (k' + 1) + SF3_READ_MIN_EXTRA_BYTES =
            (idx + 1) + k' + SF3_READ_MIN_EXTRA_BYTES := by omega
        rw [h1]
        exact ih (idx + 1) _ k' (by omega)

theorem U32_pos : 0 < U32 := by norm_num [U32]

theorem cmpLoop_fst (incrv : Nat) (buf : Nat → Nat) :
    ∀ (cnt idx err track : Nat), err < U32 →
      (cmpLoop incrv buf idx cnt err track).1 =
        (err + misCountG (fun j => buf (j + SF3_READ_MIN_EXTRA_BYTES)) incrv idx cnt track) % U32 := by
  intro cnt
  induction cnt with
  | zero =>
      intro idx err track herr
      show err = (err + misCountG _ incrv idx 0 track) % U32
      simp only [misCountG, Nat.add_zero]
      exact (Nat.mod_eq_of_lt herr).symm
  | succ c ih =>
      intro idx err track herr
      have step : cmpLoop incrv buf idx (c + 1) err track =
          cmpLoop incrv buf (idx + 1) c
            ((err + if buf (idx + SF3_READ_MIN_EXTRA_BYTES) = track then 0 else 1) % U32)
            ((track + incrv) % U8) := rfl
      have mstep : misCountG (fun j => buf (j + SF3_READ_MIN_EXTRA_BYTES)) incrv idx (c + 1) track =
          (if buf (idx + SF3_READ_MIN_EXTRA_BYTES) = track then 0 else 1) +
            misCountG (fun j => buf (j + SF3_READ_MIN_EXTRA_BYTES)) incrv (idx + 1) c
              ((track + incrv) % U8) := rfl
      rw [step, ih (idx + 1) _ _ (Nat.mod_lt _ U32_pos), mod_U32_add_mod, mstep]
      congr 1
      ring

theorem misCountG_zero (g : Nat → Nat) (incrv : Nat) :
    ∀ (cnt off track : Nat), track < U8 →
      (∀ j < cnt, g (off + j) = (track + j * incrv) % U8) →
      misCountG g incrv off cnt track = 0 := by
  intro cnt
  induction cnt with
  | zero => intro off track _ _; rfl
  | succ c ih =>
      intro off track htrack hg
      show (if g off = track then 0 else 1) + misCountG g incrv (off + 1) c _ = 0
      have h0 : g off = track := by
        have := hg 0 (by omega)
        simpa [Nat.mod_eq_of_lt htrack] using this
      rw [if_pos h0, ih (off + 1) _ (Nat.mod_lt _ (by norm_num [U8]))]
      intro j hj
      have := hg (j + 1) (by omega)
      rw [mod_U8_add_mod]
      have h1 : off + 1 + j = off + (j + 1) := by omega
      rw [h1, this]
      congr 1
      ring

theorem misCountG_le (g : Nat → Nat) (incrv : Nat) :
    ∀ (cnt off track : Nat), misCountG g incrv off cnt track ≤ cnt := by
  intro cnt
  induction cnt with
  | zero => intro off track; exact Nat.le_refl 0
  | succ c ih =>
      intro off track
      show (if g off = track then 0 else 1) + misCountG g incrv (off + 1) c _ ≤ c + 1
      have := ih (off + 1) ((track + incrv) % U8)
      split <;> omega

theorem misCountG_zero_iff (g : Nat → Nat) (incrv : Nat) :
    ∀ (cnt off track : Nat), track < U8 →
      (misCountG g incrv off cnt track = 0 ↔ ∀ j < cnt, g (off + j) = (track + j * incrv) % U8) := by
  intro cnt
  induction cnt with
  | zero =>
      intro off track _
      constructor
      · intro _ j hj; omega
      · intro _; rfl
  | succ c ih =>
      intro off track htrack
      constructor
      · intro h j hj
        have hsplit : (if g off = track then 0 else 1) = 0 ∧
            misCountG g incrv (off + 1) c ((track + incrv) % U8) = 0 := by
          have : (if g off = track then 0 else 1) +
              misCountG g incrv (off + 1) c ((track + incrv) % U8) = 0 := h
          omega
        have h0 : g off = track := by
          by_contra hne
          simp [hne] at hsplit
        rcases Nat.eq_zero_or_pos j with hj0 | hjpos
        · subst hj0; simpa [Nat.mod_eq_of_lt htrack] using h0
        · obtain ⟨j', rfl⟩ : ∃ j', j = j' + 1 := ⟨j - 1, by omega⟩
          have := (ih (off + 1) _ (Nat.mod_lt _ (by norm_num [U8]))).1 hsplit.2 j' (by omega)
          have h1 : off + (j' + 1) = off + 1 + j' := by omega
          rw [h1, this, mod_U8_add_mod]
          congr 1
          ring
      · intro h
        exact misCountG_zero g incrv (c + 1) off track htrack h

/-! ### Single-iteration control lemmas -/

theorem cmpLoop_lt (incrv : Nat) (buf : Nat → Nat) :
    ∀ (cnt idx err track : Nat), err < U32 ∨ cnt ≠ 0 →
      (cmpLoop incrv buf idx cnt err track).1 < U32 := by
  intro cnt
  induction cnt with
  | zero =>
      intro idx err track h
      rcases h with h | h
      · exact h
      · omega
  | succ c ih =>
      intro idx err track _
      exact ih (idx + 1) _ _ (Or.inl (Nat.mod_lt _ U32_pos))

theorem pageIter_ctrl (inp : TickInput) (s : ExperimentData) (hi : s.sf3_i_val + 1 < U32) :
    ctrl (pageIter inp s).1 =
      { ctrl s with
          sf3_i_val := s.sf3_i_val + 1
          sf3_pattern_track_val := s.sf3_pattern_start_val
          operatingMode :=
            if s.sf3_i_val + 1 < experi_page_cnt_per_iter then ST_CMD_PAGE_START
            else ST_CMD_PAGE_DONE } := by
  simp [pageIter, ctrl, Nat.mod_eq_of_lt hi]

theorem pageIter_flash_preserved (inp : TickInput) (s : ExperimentData) (hop : inp.opFail = true) :
    (pageIter inp s).1.flash = s.flash := by
  simp [pageIter, hop]

theorem readIter_flash (inp : TickInput) (s : ExperimentData) :
    (readIter inp s).1.flash = s.flash := rfl

theorem readIter_ctrl (inp : TickInput) (s : ExperimentData) (hi : s.sf3_i_val + 1 < U32) :
    ∃ e, e < U32 ∧
      ctrl (readIter inp s).1 =
        { ctrl s with
            sf3_i_val := s.sf3_i_val + 1
            sf3_pattern_track_val := s.sf3_pattern_start_val
            sf3_err_count_val := e
            operatingMode :=
              if s.sf3_i_val + 1 < experi_page_cnt_per_iter then ST_CMD_READ_START
              else ST_CMD_READ_DONE } := by
  refine ⟨(cmpLoop s.sf3_pattern_incr_val
      (if inp.opFail then clearRB 0 (SF3_PAGE_SIZE + SF3_READ_MIN_EXTRA_BYTES) s.ReadBuffer
       else SF3_FlashRead s.flash
         ((s.sf3_addr_start_val + s.sf3_i_val * sf3_page_addr_incr) % U32)
         (clearRB 0 (SF3_PAGE_SIZE + SF3_READ_MIN_EXTRA_BYTES) s.ReadBuffer)) 0 SF3_PAGE_SIZE
      s.sf3_err_count_val s.sf3_pattern_start_val).1, ?_, ?_⟩
  · exact cmpLoop_lt _ _ _ _ _ _ (Or.inr (by norm_num [SF3_PAGE_SIZE]))
  · simp [readIter, ctrl, Nat.mod_eq_of_lt hi]

theorem eraseStep_ctrl (inp : TickInput) (s : ExperimentData) (hi : s.sf3_i_val + 1 < U32) :
    ctrl (eraseStep inp s).1 =
      { ctrl s with
          sf3_i_val := s.sf3_i_val + 1
          operatingMode :=
            if s.sf3_i_val + 1 < experi_subsector_cnt_per_iter then ST_CMD_ERASE_START
            else ST_CMD_ERASE_DONE } := by
  simp [eraseStep, ctrl, Nat.mod_eq_of_lt hi]

/-! ### Batch control lemmas -/

theorem batch_fst_succ (iter : TickInput → ExperimentData → ExperimentData × List ConsoleMsg)
    (inp : TickInput) (n : Nat) (s : ExperimentData) :
    (batch iter inp (n + 1) s).1 = (batch iter inp n (iter inp s).1).1 := rfl

theorem batch_readIter_flash (inp : TickInput) :
    ∀ (n : Nat) (s : ExperimentData), (batch readIter inp n s).1.flash = s.flash := by
  intro n
  induction n with
  | zero => intro s; rfl
  | succ n ih =>
      intro s
      rw [batch_fst_succ, ih, readIter_flash]

theorem batch_pageIter_ctrl (inp : TickInput) :
    ∀ (n : Nat) (s : ExperimentData), s.sf3_i_val + n ≤ experi_page_cnt_per_iter →
      ctrl (batch pageIter inp n s).1 =
        { ctrl s with
            sf3_i_val := s.sf3_i_val + n
            sf3_pattern_track_val :=
              if n = 0 then s.sf3_pattern_track_val else s.sf3_pattern_start_val
            operatingMode :=
              if n = 0 then s.operatingMode
              else if s.sf3_i_val + n < experi_page_cnt_per_iter then ST_CMD_PAGE_START
              else ST_CMD_PAGE_DONE } := by
  intro n
  induction n with
  | zero =>
      intro s _
      simp [batch, ctrl]
  | succ n ih =>
      intro s h
      have hcnt : experi_page_cnt_per_iter = 4096 := rfl
      have hiU : s.sf3_i_val + 1 < U32 := by
        rw [hcnt] at h; norm_num [U32]; omega
      have hs1i : (pageIter inp s).1.sf3_i_val = s.sf3_i_val + 1 := by
        have := congrArg Ctrl.sf3_i_val (pageIter_ctrl inp s hiU)
        exact this
      rw [batch_fst_succ, ih _ (by rw [hs1i]; omega), pageIter_ctrl inp s hiU]
      have hstartv : (pageIter inp s).1.sf3_pattern_start_val = s.sf3_pattern_start_val := rfl
      have hm1 : (pageIter inp s).1.operatingMode =
          (if s.sf3_i_val + 1 < experi_page_cnt_per_iter then ST_CMD_PAGE_START
           else ST_CMD_PAGE_DONE) :=
        congrArg Ctrl.operatingMode (pageIter_ctrl inp s hiU)
      have htr1 : (pageIter inp s).1.sf3_pattern_track_val = s.sf3_pattern_start_val := rfl
      rw [hs1i, hstartv, hm1, htr1]
      rcases Nat.eq_zero_or_pos n with hn | hn
      · subst hn
        simp [Ctrl.mk.injEq, ctrl]
      · have h1 : s.sf3_i_val + 1 + n = s.sf3_i_val + (n + 1) := by omega
        simp [Ctrl.mk.injEq, ctrl, Nat.pos_iff_ne_zero.mp hn, h1]

theorem batch_readIter_ctrl (inp : TickInput) :
    ∀ (n : Nat) (s : ExperimentData), s.sf3_i_val + n ≤ experi_page_cnt_per_iter →
      ∃ e,
      ctrl (batch readIter inp n s).1 =
        { ctrl s with
            sf3_i_val := s.sf3_i_val + n
            sf3_pattern_track_val :=
              if n = 0 then s.sf3_pattern_track_val else s.sf3_pattern_start_val
            sf3_err_count_val := e
            operatingMode :=
              if n = 0 then s.operatingMode
              else if s.sf3_i_val + n < experi_page_cnt_per_iter then ST_CMD_READ_START
              else ST_CMD_READ_DONE } := by
  intro n
  induction n with
  | zero =>
      intro s _
      refine ⟨s.sf3_err_count_val, ?_⟩
      simp [batch, ctrl]
  | succ n ih =>
      intro s h
      have hcnt : experi_page_cnt_per_iter = 4096 := rfl
      have hiU : s.sf3_i_val + 1 < U32 := by
        rw [hcnt] at h; norm_num [U32]; omega
      obtain ⟨e1, _, heq1⟩ := readIter_ctrl inp s hiU
      have hs1i : (readIter inp s).1.sf3_i_val = s.sf3_i_val + 1 :=
        congrArg Ctrl.sf3_i_val heq1
      obtain ⟨e, he⟩ := ih (readIter inp s).1 (by rw [hs1i]; omega)
      refine ⟨e, ?_⟩
      rw [batch_fst_succ, he, heq1]
      have hstartv : (readIter inp s).1.sf3_pattern_start_val = s.sf3_pattern_start_val := rfl
      have hm1 : (readIter inp s).1.operatingMode =
          (if s.sf3_i_val + 1 < experi_page_cnt_per_iter then ST_CMD_READ_START
           else ST_CMD_READ_DONE) :=
        congrArg Ctrl.operatingMode heq1
      have htr1 : (readIter inp s).1.sf3_pattern_track_val = s.sf3_pattern_start_val := rfl
      rw [hs1i, hstartv, hm1, htr1]
      rcases Nat.eq_zero_or_pos n with hn | hn
      · subst hn
        simp [Ctrl.mk.injEq, ctrl]
      · have h1 : s.sf3_i_val + 1 + n = s.sf3_i_val + (n + 1) := by omega
        simp [Ctrl.mk.injEq, ctrl, Nat.pos_iff_ne_zero.mp hn, h1]

/-! ### Data-path lemmas: programmed flash contents and error counts -/

theorem misCountG_congr (g1 g2 : Nat → Nat) (incrv : Nat) :
    ∀ (cnt off track : Nat), (∀ j, off ≤ j → j < off + cnt → g1 j = g2 j) →
      misCountG g1 incrv off cnt track = misCountG g2 incrv off cnt track := by
  intro cnt
  induction cnt with
  | zero => intro off track _; rfl
  | succ c ih =>
      intro off track h
      show (if g1 off = track then 0 else 1) + _ =
        (if g2 off = track then 0 else 1) + _
      rw [h off (Nat.le_refl off) (by omega), ih (off + 1) _ (fun j h1 h2 => h j (by omega) (by omega))]

theorem pageIter_flash (inp : TickInput) (s : ExperimentData)
    (hop : inp.opFail = false)
    (hik : s.sf3_i_val < 4096)
    (haddr : s.sf3_addr_start_val + 1048576 ≤ U32)
    (htrack : s.sf3_pattern_track_val = s.sf3_pattern_start_val)
    (hstart : s.sf3_pattern_start_val < U8) :
    ∀ a, (pageIter inp s).1.flash a =
      if s.sf3_addr_start_val + s.sf3_i_val * 256 ≤ a ∧
         a < s.sf3_addr_start_val + s.sf3_i_val * 256 + 256 then
        patternByte s.sf3_pattern_start_val s.sf3_pattern_incr_val
          ((a - s.sf3_addr_start_val) % 256)
      else s.flash a := by
  have hmod : (s.sf3_addr_start_val + s.sf3_i_val * sf3_page_addr_incr) % U32 =
      s.sf3_addr_start_val + s.sf3_i_val * 256 := by
    rw [show sf3_page_addr_incr = 256 from rfl]
    apply Nat.mod_eq_of_lt
    omega
  have hflash : (pageIter inp s).1.flash =
      SF3_FlashWrite s.flash (s.sf3_addr_start_val + s.sf3_i_val * 256)
        (fillWB s.sf3_pattern_incr_val 0 SF3_PAGE_SIZE s.WriteBuffer s.sf3_pattern_track_val).1 := by
    simp [pageIter, hop, hmod]
  intro a
  rw [hflash]
  show (if s.sf3_addr_start_val + s.sf3_i_val * 256 ≤ a ∧
      a < s.sf3_addr_start_val + s.sf3_i_val * 256 + SF3_PAGE_SIZE then
      (fillWB s.sf3_pattern_incr_val 0 SF3_PAGE_SIZE s.WriteBuffer s.sf3_pattern_track_val).1
        (SF3_WRITE_EXTRA_BYTES + (a - (s.sf3_addr_start_val + s.sf3_i_val * 256)))
    else s.flash a) = _
  have hps : SF3_PAGE_SIZE = 256 := rfl
  by_cases hin : s.sf3_addr_start_val + s.sf3_i_val * 256 ≤ a ∧
      a < s.sf3_addr_start_val + s.sf3_i_val * 256 + 256
  · rw [if_pos (by rw [hps]; exact hin), if_pos hin]
    have hk : a - (s.sf3_addr_start_val + s.sf3_i_val * 256) < 256 := by omega
    have hpos : SF3_WRITE_EXTRA_BYTES + (a - (s.sf3_addr_start_val + s.sf3_i_val * 256)) =
        0 + (a - (s.sf3_addr_start_val + s.sf3_i_val * 256)) + SF3_WRITE_EXTRA_BYTES := by
      omega
    rw [hpos, fillWB_get s.sf3_pattern_incr_val SF3_PAGE_SIZE 0 s.WriteBuffer
      s.sf3_pattern_track_val (htrack ▸ hstart) _ (by rw [hps]; exact hk)]
    rw [htrack]
    have hmodk : (a - s.sf3_addr_start_val) % 256 =
        a - (s.sf3_addr_start_val + s.sf3_i_val * 256) := by
      omega
    rw [patternByte, hmodk, U8_eq]
  · rw [if_neg (by rw [hps]; exact hin), if_neg hin]

theorem batch_pageIter_flash (inp : TickInput) (hop : inp.opFail = false) :
    ∀ (n : Nat) (s : ExperimentData),
      s.sf3_i_val + n ≤ 4096 →
      s.sf3_addr_start_val + 1048576 ≤ U32 →
      s.sf3_pattern_track_val = s.sf3_pattern_start_val →
      s.sf3_pattern_start_val < U8 →
      ∀ a, (batch pageIter inp n s).1.flash a =
        if s.sf3_addr_start_val + s.sf3_i_val * 256 ≤ a ∧
           a < s.sf3_addr_start_val + (s.sf3_i_val + n) * 256 then
          patternByte s.sf3_pattern_start_val s.sf3_pattern_incr_val
            ((a - s.sf3_addr_start_val) % 256)
        else s.flash a := by
  intro n
  induction n with
  | zero =>
      intro s _ _ _ _ a
      rw [if_neg (by omega)]
      rfl
  | succ n ih =>
      intro s hi haddr htrack hstart a
      have hiU : s.sf3_i_val + 1 < U32 := by
        rw [U32_eq]; omega
      have hs1i : (pageIter inp s).1.sf3_i_val = s.sf3_i_val + 1 :=
        congrArg Ctrl.sf3_i_val (pageIter_ctrl inp s hiU)
      have hs1addr : (pageIter inp s).1.sf3_addr_start_val = s.sf3_addr_start_val := rfl
      have hs1track : (pageIter inp s).1.sf3_pattern_track_val = s.sf3_pattern_start_val := rfl
      have hs1start : (pageIter inp s).1.sf3_pattern_start_val = s.sf3_pattern_start_val := rfl
      have hs1incr : (pageIter inp s).1.sf3_pattern_incr_val = s.sf3_pattern_incr_val := rfl
      rw [batch_fst_succ]
      rw [ih (pageIter inp s).1 (by rw [hs1i]; omega) (by rw [hs1addr]; omega)
        (by rw [hs1track, hs1start]) (by rw [hs1start]; exact hstart)]
      rw [hs1i, hs1addr, hs1start, hs1incr]
      rw [pageIter_flash inp s hop (by omega) haddr htrack hstart a]
      by_cases h1 : s.sf3_addr_start_val + (s.sf3_i_val + 1) * 256 ≤ a ∧
          a < s.sf3_addr_start_val + (s.sf3_i_val + 1 + n) * 256
      · rw [if_pos h1, if_pos (by omega)]
      · rw [if_neg h1]
        by_cases h2 : s.sf3_addr_start_val + s.sf3_i_val * 256 ≤ a ∧
            a < s.sf3_addr_start_val + s.sf3_i_val * 256 + 256
        · rw [if_pos h2, if_pos (by omega)]
        · rw [if_neg h2, if_neg (by omega)]

theorem readIter_data (inp : TickInput) (s : ExperimentData) (g : Nat → Nat)
    (hik : s.sf3_i_val < 4096)
    (haddr : s.sf3_addr_start_val + 1048576 ≤ U32)
    (herr : s.sf3_err_count_val < U32)
    (hdata : ∀ j < 256,
      (if inp.opFail then 0 else s.flash (s.sf3_addr_start_val + s.sf3_i_val * 256 + j)) = g j) :
    ctrl (readIter inp s).1 =
      { ctrl s with
          sf3_i_val := s.sf3_i_val + 1
          sf3_pattern_track_val := s.sf3_pattern_start_val
          sf3_err_count_val :=
            (s.sf3_err_count_val +
              misCountG g s.sf3_pattern_incr_val 0 SF3_PAGE_SIZE s.sf3_pattern_start_val) % U32
          operatingMode :=
            if s.sf3_i_val + 1 < experi_page_cnt_per_iter then ST_CMD_READ_START
            else ST_CMD_READ_DONE } := by
  have hiU : s.sf3_i_val + 1 < U32 := by rw [U32_eq]; omega
  have hmod : (s.sf3_addr_start_val + s.sf3_i_val * sf3_page_addr_incr) % U32 =
      s.sf3_addr_start_val + s.sf3_i_val * 256 := by
    rw [show sf3_page_addr_incr = 256 from rfl]
    apply Nat.mod_eq_of_lt
    omega
  have hps : SF3_PAGE_SIZE = 256 := rfl
  have hclr : ∀ j < 256,
      clearRB 0 (SF3_PAGE_SIZE + SF3_READ_MIN_EXTRA_BYTES) s.ReadBuffer
        (j + SF3_READ_MIN_EXTRA_BYTES) = 0 := by
    intro j hj
    have hpos : j + SF3_READ_MIN_EXTRA_BYTES = 0 + j + SF3_READ_MIN_EXTRA_BYTES := by omega
    rw [hpos]
    exact clearRB_get (SF3_PAGE_SIZE + SF3_READ_MIN_EXTRA_BYTES) 0 s.ReadBuffer j (by omega)
  have hbuf : ∀ j < 256,
      (if inp.opFail then clearRB 0 (SF3_PAGE_SIZE + SF3_READ_MIN_EXTRA_BYTES) s.ReadBuffer
       else SF3_FlashRead s.flash
         ((s.sf3_addr_start_val + s.sf3_i_val * sf3_page_addr_incr) % U32)
         (clearRB 0 (SF3_PAGE_SIZE + SF3_READ_MIN_EXTRA_BYTES) s.ReadBuffer))
        (j + SF3_READ_MIN_EXTRA_BYTES) = g j := by
    intro j hj
    have hthis := hdata j hj
    rcases Bool.eq_false_or_eq_true inp.opFail with hop | hop
    · rw [hop] at hthis ⊢
      rw [if_pos rfl] at hthis ⊢
      rw [hclr j hj]
      exact hthis
    · rw [hop] at hthis ⊢
      rw [if_neg Bool.false_ne_true] at hthis ⊢
      have hcond : SF3_READ_MIN_EXTRA_BYTES ≤ j + SF3_READ_MIN_EXTRA_BYTES ∧
          j + SF3_READ_MIN_EXTRA_BYTES < SF3_READ_MIN_EXTRA_BYTES + SF3_PAGE_SIZE := by
        omega
      simp only [SF3_FlashRead]
      rw [if_pos hcond]
      have hsub : j + SF3_READ_MIN_EXTRA_BYTES - SF3_READ_MIN_EXTRA_BYTES = j := by omega
      rw [hsub, hmod]
      exact hthis
  have herre : (readIter inp s).1.sf3_err_count_val =
      (s.sf3_err_count_val +
        misCountG g s.sf3_pattern_incr_val 0 SF3_PAGE_SIZE s.sf3_pattern_start_val) % U32 := by
    simp only [readIter]
    rw [cmpLoop_fst _ _ SF3_PAGE_SIZE 0 _ _ herr]
    exact congrArg (fun z => (s.sf3_err_count_val + z) % U32)
      (misCountG_congr _ g s.sf3_pattern_incr_val SF3_PAGE_SIZE 0 s.sf3_pattern_start_val
        (fun j _ hj2 => hbuf j (by omega)))
  obtain ⟨e, _, hctrl⟩ := readIter_ctrl inp s hiU
  have he : e = (s.sf3_err_count_val +
      misCountG g s.sf3_pattern_incr_val 0 SF3_PAGE_SIZE s.sf3_pattern_start_val) % U32 := by
    have h1 : (readIter inp s).1.sf3_err_count_val = e := congrArg Ctrl.sf3_err_count_val hctrl
    rw [← h1, herre]
  rw [hctrl, he]

theorem batch_readIter_data (inp : TickInput) (g : Nat → Nat) :
    ∀ (n : Nat) (s : ExperimentData),
      s.sf3_i_val + n ≤ 4096 →
      s.sf3_addr_start_val + 1048576 ≤ U32 →
      s.sf3_err_count_val < U32 →
      s.sf3_pattern_track_val = s.sf3_pattern_start_val →
      (∀ k, s.sf3_i_val ≤ k → k < s.sf3_i_val + n → ∀ j < 256,
        (if inp.opFail then 0 else s.flash (s.sf3_addr_start_val + k * 256 + j)) = g j) →
      ctrl (batch readIter inp n s).1 =
        { ctrl s with
            sf3_i_val := s.sf3_i_val + n
            sf3_pattern_track_val := s.sf3_pattern_start_val
            sf3_err_count_val :=
              (s.sf3_err_count_val +
                n * misCountG g s.sf3_pattern_incr_val 0 SF3_PAGE_SIZE
                  s.sf3_pattern_start_val) % U32
            operatingMode :=
              if n = 0 then s.operatingMode
              else if s.sf3_i_val + n < experi_page_cnt_per_iter then ST_CMD_READ_START
              else ST_CMD_READ_DONE } := by
  intro n
  induction n with
  | zero =>
      intro s _ _ herr htrack _
      simp [batch, ctrl, Nat.mod_eq_of_lt herr, htrack]
  | succ n ih =>
      intro s hi haddr herr htrack hdata
      have hd1 := readIter_data inp s g (by omega) haddr herr
        (fun j hj => hdata s.sf3_i_val (Nat.le_refl _) (by omega) j hj)
      have hs1i : (readIter inp s).1.sf3_i_val = s.sf3_i_val + 1 :=
        congrArg Ctrl.sf3_i_val hd1
      have hs1addr : (readIter inp s).1.sf3_addr_start_val = s.sf3_addr_start_val := rfl
      have hs1track : (readIter inp s).1.sf3_pattern_track_val = s.sf3_pattern_start_val := rfl
      have hs1start : (readIter inp s).1.sf3_pattern_start_val = s.sf3_pattern_start_val := rfl
      have hs1incr : (readIter inp s).1.sf3_pattern_incr_val = s.sf3_pattern_incr_val := rfl
      have hs1err : (readIter inp s).1.sf3_err_count_val =
          (s.sf3_err_count_val +
            misCountG g s.sf3_pattern_incr_val 0 SF3_PAGE_SIZE s.sf3_pattern_start_val) % U32 :=
        congrArg Ctrl.sf3_err_count_val hd1
      have hs1flash : (readIter inp s).1.flash = s.flash := rfl
      have hs1mode : (readIter inp s).1.operatingMode =
          (if s.sf3_i_val + 1 < experi_page_cnt_per_iter then ST_CMD_READ_START
           else ST_CMD_READ_DONE) := congrArg Ctrl.operatingMode hd1
      rw [batch_fst_succ]
      rw [ih (readIter inp s).1 (by rw [hs1i]; omega) (by rw [hs1addr]; omega)
        (by rw [hs1err]; exact Nat.mod_lt _ U32_pos) (by rw [hs1track, hs1start])
        (by
          intro k hk1 hk2 j hj
          rw [hs1flash, hs1addr]
          exact hdata k (by rw [hs1i] at hk1; omega) (by rw [hs1i] at hk2; omega) j hj)]
      rw [hd1, hs1i, hs1start, hs1incr, hs1err, hs1mode]
      generalize misCountG g s.sf3_pattern_incr_val 0 SF3_PAGE_SIZE s.sf3_pattern_start_val = M
      have harith : s.sf3_i_val + 1 + n = s.sf3_i_val + (n + 1) := by omega
      have herrf : ((s.sf3_err_count_val + M) % U32 + n * M) % U32 =
          (s.sf3_err_count_val + (n + 1) * M) % U32 := by
        rw [mod_U32_add_mod]
        congr 1
        ring
      rcases Nat.eq_zero_or_pos n with hn | hn
      · subst hn
        simp [Ctrl.mk.injEq, ctrl, herrf]
      · simp [Ctrl.mk.injEq, ctrl, Nat.pos_iff_ne_zero.mp hn, harith, herrf]

theorem ctrl_iterationTimer (x : ExperimentData) :
    ctrl (Experiment_iterationTimer x) =
      { ctrl x with
          cnt_t := if x.operatingMode ≠ x.operatingModePrev then 0 else (x.cnt_t + 1) % cnt_t_max
          operatingModePrev := x.operatingMode } := rfl

theorem ctrl_tick_of (inp : TickInput) (s : ExperimentData) (C : Ctrl)
    (h : ctrl (Experiment_operateFSM inp (Experiment_readUserInputs inp s)).1 = C) :
    ctrl (tick inp s) =
      { C with
          cnt_t :=
            if C.operatingMode ≠ C.operatingModePrev then 0 else (C.cnt_t + 1) % cnt_t_max
          operatingModePrev := C.operatingMode } := by
  have h1 : (Experiment_operateFSM inp (Experiment_readUserInputs inp s)).1.operatingMode =
      C.operatingMode := congrArg Ctrl.operatingMode h
  have h2 : (Experiment_operateFSM inp (Experiment_readUserInputs inp s)).1.operatingModePrev =
      C.operatingModePrev := congrArg Ctrl.operatingModePrev h
  have h3 : (Experiment_operateFSM inp (Experiment_readUserInputs inp s)).1.cnt_t =
      C.cnt_t := congrArg Ctrl.cnt_t h
  show ctrl (Experiment_iterationTimer _) = _
  rw [ctrl_iterationTimer, h, h1, h2, h3]

theorem tick_eraseStart (inp : TickInput) (s : ExperimentData)
    (hm : s.operatingMode = ST_CMD_ERASE_START)
    (hprev : s.operatingModePrev = ST_CMD_ERASE_START)
    (hiU : s.sf3_i_val + 1 < U32) :
    ctrl (tick inp s) =
      { ctrl s with
          sf3_i_val := s.sf3_i_val + 1
          operatingMode :=
            if s.sf3_i_val + 1 < experi_subsector_cnt_per_iter then ST_CMD_ERASE_START
            else ST_CMD_ERASE_DONE
          operatingModePrev :=
            if s.sf3_i_val + 1 < experi_subsector_cnt_per_iter then ST_CMD_ERASE_START
            else ST_CMD_ERASE_DONE
          cnt_t :=
            if s.sf3_i_val + 1 < experi_subsector_cnt_per_iter then (s.cnt_t + 1) % cnt_t_max
            else 0 } := by
  have hfsm : ctrl (Experiment_operateFSM inp (Experiment_readUserInputs inp s)).1 =
      { ctrl s with
          sf3_i_val := s.sf3_i_val + 1
          operatingMode :=
            if s.sf3_i_val + 1 < experi_subsector_cnt_per_iter then ST_CMD_ERASE_START
            else ST_CMD_ERASE_DONE } := by
    simp [Experiment_operateFSM, Experiment_readUserInputs, hm, eraseStep, ctrl,
      Nat.mod_eq_of_lt hiU]
  rw [ctrl_tick_of inp s _ hfsm]
  by_cases h : s.sf3_i_val + 1 < experi_subsector_cnt_per_iter <;>
    simp [h, hprev, ctrl]

theorem tick_waitDep_selectA (inp : TickInput) (s : ExperimentData)
    (hm : s.operatingMode = ST_WAIT_BUTTON_DEP)
    (hprev : s.operatingModePrev = ST_WAIT_BUTTON_DEP)
    (haddr : s.sf3_addr_start_val < last_starting_byte_addr)
    (hbtn : inp.buttons = BTN0_MASK) :
    ctrl (tick inp s) =
      { ctrl s with
          operatingMode := ST_WAIT_BUTTON_REL
          operatingModePrev := ST_WAIT_BUTTON_REL
          sf3_test_done := false
          sf3_test_pattern_selected := TEST_PATTERN_A
          cnt_t := 0 } := by
  have hfsm : ctrl (Experiment_operateFSM inp (Experiment_readUserInputs inp s)).1 =
      { ctrl s with
          operatingMode := ST_WAIT_BUTTON_REL
          sf3_test_done := false
          sf3_test_pattern_selected := TEST_PATTERN_A } := by
    simp [Experiment_operateFSM, Experiment_readUserInputs, hm, haddr, hbtn, ctrl]
  rw [ctrl_tick_of inp s _ hfsm]
  simp [ctrl, hprev]

theorem tick_waitRel_release (inp : TickInput) (s : ExperimentData)
    (hm : s.operatingMode = ST_WAIT_BUTTON_REL)
    (hprev : s.operatingModePrev = ST_WAIT_BUTTON_REL)
    (hbtn : inp.buttons = 0) :
    ctrl (tick inp s) =
      { ctrl s with
          operatingMode := ST_SET_PATTERN
          operatingModePrev := ST_SET_PATTERN
          cnt_t := 0 } := by
  have hfsm : ctrl (Experiment_operateFSM inp (Experiment_readUserInputs inp s)).1 =
      { ctrl s with operatingMode := ST_SET_PATTERN } := by
    simp [Experiment_operateFSM, Experiment_readUserInputs, hm, hbtn, ctrl]
  rw [ctrl_tick_of inp s _ hfsm]
  simp [ctrl, hprev]

theorem tick_setPattern (inp : TickInput) (s : ExperimentData) (p : TestPattern)
    (hm : s.operatingMode = ST_SET_PATTERN)
    (hprev : s.operatingModePrev = ST_SET_PATTERN)
    (hsel : s.sf3_test_pattern_selected = p)
    (hp : p ≠ TEST_PATTERN_NONE) :
    ctrl (tick inp s) =
      { ctrl s with
          operatingMode := ST_SET_START_ADDR
          operatingModePrev := ST_SET_START_ADDR
          sf3_pattern_start_val := patternStartvalOf p
          sf3_pattern_incr_val := patternIncrvalOf p
          cnt_t := 0 } := by
  have hfsm : ctrl (Experiment_operateFSM inp (Experiment_readUserInputs inp s)).1 =
      { ctrl s with
          operatingMode := ST_SET_START_ADDR
          sf3_pattern_start_val := patternStartvalOf p
          sf3_pattern_incr_val := patternIncrvalOf p } := by
    rcases p with _ | _ | _ | _ | _
    · simp [Experiment_operateFSM, Experiment_readUserInputs, hm, hsel, ctrl, patternStartvalOf,
        patternIncrvalOf]
    · simp [Experiment_operateFSM, Experiment_readUserInputs, hm, hsel, ctrl, patternStartvalOf,
        patternIncrvalOf]
    · simp [Experiment_operateFSM, Experiment_readUserInputs, hm, hsel, ctrl, patternStartvalOf,
        patternIncrvalOf]
    · simp [Experiment_operateFSM, Experiment_readUserInputs, hm, hsel, ctrl, patternStartvalOf,
        patternIncrvalOf]
    · exact absurd rfl hp
  rw [ctrl_tick_of inp s _ hfsm]
  simp [ctrl, hprev]

theorem tick_setStartAddr_zero (inp : TickInput) (s : ExperimentData)
    (hm : s.operatingMode = ST_SET_START_ADDR)
    (hprev : s.operatingModePrev = ST_SET_START_ADDR)
    (hsaz : s.sf3_start_at_zero = true) :
    ctrl (tick inp s) =
      { ctrl s with
          operatingMode := ST_SET_START_WAIT
          operatingModePrev := ST_SET_START_WAIT
          sf3_addr_start_val := 0
          sf3_test_done := false
          sf3_start_at_zero := false
          sf3_i_val := 0
          cnt_t := 0 } := by
  have hfsm : ctrl (Experiment_operateFSM inp (Experiment_readUserInputs inp s)).1 =
      { ctrl s with
          operatingMode := ST_SET_START_WAIT
          sf3_addr_start_val := 0
          sf3_test_done := false
          sf3_start_at_zero := false
          sf3_i_val := 0 } := by
    simp [Experiment_operateFSM, Experiment_readUserInputs, hm, hsaz, ctrl]
  rw [ctrl_tick_of inp s _ hfsm]
  simp [ctrl, hprev]

theorem tick_setStartAddr_advance (inp : TickInput) (s : ExperimentData)
    (hm : s.operatingMode = ST_SET_START_ADDR)
    (hprev : s.operatingModePrev = ST_SET_START_ADDR)
    (hsaz : s.sf3_start_at_zero = false)
    (haddr : s.sf3_addr_start_val < last_starting_byte_addr) :
    ctrl (tick inp s) =
      { ctrl s with
          operatingMode := ST_SET_START_WAIT
          operatingModePrev := ST_SET_START_WAIT
          sf3_addr_start_val := s.sf3_addr_start_val + per_iteration_byte_count
          sf3_test_done := false
          sf3_i_val := 0
          cnt_t := 0 } := by
  have hmod : (s.sf3_addr_start_val + per_iteration_byte_count) % U32 =
      s.sf3_addr_start_val + per_iteration_byte_count := by
    apply Nat.mod_eq_of_lt
    rw [last_starting_byte_addr_eq] at haddr
    rw [per_iteration_byte_count_eq, U32_eq]
    omega
  have hfsm : ctrl (Experiment_operateFSM inp (Experiment_readUserInputs inp s)).1 =
      { ctrl s with
          operatingMode := ST_SET_START_WAIT
          sf3_addr_start_val := s.sf3_addr_start_val + per_iteration_byte_count
          sf3_test_done := false
          sf3_start_at_zero := false
          sf3_i_val := 0 } := by
    simp [Experiment_operateFSM, Experiment_readUserInputs, hm, hsaz, haddr, ctrl, hmod]
  rw [ctrl_tick_of inp s _ hfsm]
  simp [ctrl, hprev, hsaz]

theorem tick_startWait_stay (inp : TickInput) (s : ExperimentData)
    (hm : s.operatingMode = ST_SET_START_WAIT)
    (hprev : s.operatingModePrev = ST_SET_START_WAIT)
    (hcnt : s.cnt_t ≠ cnt_t_max / 2) :
    ctrl (tick inp s) = { ctrl s with cnt_t := (s.cnt_t + 1) % cnt_t_max } := by
  have hfsm : ctrl (Experiment_operateFSM inp (Experiment_readUserInputs inp s)).1 = ctrl s := by
    simp [Experiment_operateFSM, Experiment_readUserInputs, hm, hcnt, ctrl]
  rw [ctrl_tick_of inp s _ hfsm]
  simp [ctrl, hm, hprev]

theorem tick_startWait_go (inp : TickInput) (s : ExperimentData)
    (hm : s.operatingMode = ST_SET_START_WAIT)
    (hprev : s.operatingModePrev = ST_SET_START_WAIT)
    (hcnt : s.cnt_t = cnt_t_max / 2) :
    ctrl (tick inp s) =
      { ctrl s with
          operatingMode := ST_CMD_ERASE_START
          operatingModePrev := ST_CMD_ERASE_START
          cnt_t := 0 } := by
  have hfsm : ctrl (Experiment_operateFSM inp (Experiment_readUserInputs inp s)).1 =
      { ctrl s with operatingMode := ST_CMD_ERASE_START } := by
    simp [Experiment_operateFSM, Experiment_readUserInputs, hm, hcnt, ctrl]
  rw [ctrl_tick_of inp s _ hfsm]
  simp [ctrl, hprev]

theorem tick_dwell_stay (inp : TickInput) (s : ExperimentData)
    (hm : s.operatingMode = ST_CMD_ERASE_DONE ∨ s.operatingMode = ST_CMD_PAGE_DONE ∨
      s.operatingMode = ST_CMD_READ_DONE)
    (hprev : s.operatingModePrev = s.operatingMode)
    (hcnt : ¬ s.cnt_t ≥ cnt_t_max - 1) :
    ctrl (tick inp s) =
      { ctrl s with
          sf3_i_val := 0
          sf3_pattern_track_val := s.sf3_pattern_start_val
          cnt_t := (s.cnt_t + 1) % cnt_t_max } := by
  rcases hm with hm | hm | hm <;>
  · have hfsm : ctrl (Experiment_operateFSM inp (Experiment_readUserInputs inp s)).1 =
        { ctrl s with
            sf3_i_val := 0
            sf3_pattern_track_val := s.sf3_pattern_start_val } := by
      simp [Experiment_operateFSM, Experiment_readUserInputs, hm, hcnt, ctrl]
    rw [ctrl_tick_of inp s _ hfsm]
    simp [ctrl, hprev, hm]

theorem tick_dwell_go (inp : TickInput) (s : ExperimentData)
    (hm : s.operatingMode = ST_CMD_ERASE_DONE ∨ s.operatingMode = ST_CMD_PAGE_DONE ∨
      s.operatingMode = ST_CMD_READ_DONE)
    (hprev : s.operatingModePrev = s.operatingMode)
    (hcnt : s.cnt_t ≥ cnt_t_max - 1) :
    ctrl (tick inp s) =
      { ctrl s with
          operatingMode := nextDone s.operatingMode
          operatingModePrev := nextDone s.operatingMode
          sf3_i_val := 0
          sf3_pattern_track_val := s.sf3_pattern_start_val
          cnt_t := 0 } := by
  rcases hm with hm | hm | hm <;>
  · have hfsm : ctrl (Experiment_operateFSM inp (Experiment_readUserInputs inp s)).1 =
        { ctrl s with
            operatingMode := nextDone s.operatingMode
            sf3_i_val := 0
            sf3_pattern_track_val := s.sf3_pattern_start_val } := by
      simp [Experiment_operateFSM, Experiment_readUserInputs, hm, hcnt, ctrl, nextDone]
    rw [ctrl_tick_of inp s _ hfsm]
    simp [ctrl, hprev, hm, nextDone]

theorem tick_pageStart (inp : TickInput) (s : ExperimentData)
    (hm : s.operatingMode = ST_CMD_PAGE_START)
    (hprev : s.operatingModePrev = ST_CMD_PAGE_START)
    (hi : s.sf3_i_val + 32 ≤ experi_page_cnt_per_iter) :
    ctrl (tick inp s) =
      { ctrl s with
          sf3_i_val := s.sf3_i_val + 32
          sf3_pattern_track_val := s.sf3_pattern_start_val
          operatingMode :=
            if s.sf3_i_val + 32 < experi_page_cnt_per_iter then ST_CMD_PAGE_START
            else ST_CMD_PAGE_DONE
          operatingModePrev :=
            if s.sf3_i_val + 32 < experi_page_cnt_per_iter then ST_CMD_PAGE_START
            else ST_CMD_PAGE_DONE
          cnt_t :=
            if s.sf3_i_val + 32 < experi_page_cnt_per_iter then (s.cnt_t + 1) % cnt_t_max
            else 0 } := by
  have hb := batch_pageIter_ctrl inp 32 (Experiment_readUserInputs inp s) hi
  have hfsm : ctrl (Experiment_operateFSM inp (Experiment_readUserInputs inp s)).1 =
      { ctrl s with
          sf3_i_val := s.sf3_i_val + 32
          sf3_pattern_track_val := s.sf3_pattern_start_val
          operatingMode :=
            if s.sf3_i_val + 32 < experi_page_cnt_per_iter then ST_CMD_PAGE_START
            else ST_CMD_PAGE_DONE } := by
    have hr : (Experiment_operateFSM inp (Experiment_readUserInputs inp s)).1 =
        (batch pageIter inp 32 (Experiment_readUserInputs inp s)).1 := by
      simp [Experiment_operateFSM, Experiment_readUserInputs, hm]
    rw [hr, hb]
    simp [ctrl, Experiment_readUserInputs]
  rw [ctrl_tick_of inp s _ hfsm]
  by_cases h : s.sf3_i_val + 32 < experi_page_cnt_per_iter <;> simp [h, hprev, ctrl]

theorem tick_readStart_ex (inp : TickInput) (s : ExperimentData)
    (hm : s.operatingMode = ST_CMD_READ_START)
    (hprev : s.operatingModePrev = ST_CMD_READ_START)
    (hi : s.sf3_i_val + 32 ≤ experi_page_cnt_per_iter) :
    ∃ e, ctrl (tick inp s) =
      { ctrl s with
          sf3_i_val := s.sf3_i_val + 32
          sf3_pattern_track_val := s.sf3_pattern_start_val
          sf3_err_count_val := e
          operatingMode :=
            if s.sf3_i_val + 32 < experi_page_cnt_per_iter then ST_CMD_READ_START
            else ST_CMD_READ_DONE
          operatingModePrev :=
            if s.sf3_i_val + 32 < experi_page_cnt_per_iter then ST_CMD_READ_START
            else ST_CMD_READ_DONE
          cnt_t :=
            if s.sf3_i_val + 32 < experi_page_cnt_per_iter then (s.cnt_t + 1) % cnt_t_max
            else 0 } := by
  obtain ⟨e, hb⟩ := batch_readIter_ctrl inp 32 (Experiment_readUserInputs inp s) hi
  refine ⟨e, ?_⟩
  have hfsm : ctrl (Experiment_operateFSM inp (Experiment_readUserInputs inp s)).1 =
      { ctrl s with
          sf3_i_val := s.sf3_i_val + 32
          sf3_pattern_track_val := s.sf3_pattern_start_val
          sf3_err_count_val := e
          operatingMode :=
            if s.sf3_i_val + 32 < experi_page_cnt_per_iter then ST_CMD_READ_START
            else ST_CMD_READ_DONE } := by
    have hr : (Experiment_operateFSM inp (Experiment_readUserInputs inp s)).1 =
        (batch readIter inp 32 (Experiment_readUserInputs inp s)).1 := by
      simp [Experiment_operateFSM, Experiment_readUserInputs, hm]
    rw [hr, hb]
    simp [ctrl, Experiment_readUserInputs]
  rw [ctrl_tick_of inp s _ hfsm]
  by_cases h : s.sf3_i_val + 32 < experi_page_cnt_per_iter <;> simp [h, hprev, ctrl]

theorem tick_displayFinal_stay (inp : TickInput) (s : ExperimentData)
    (hm : s.operatingMode = ST_DISPLAY_FINAL)
    (hprev : s.operatingModePrev = ST_DISPLAY_FINAL)
    (hcnt : s.cnt_t ≠ cnt_t_max - 1) :
    ctrl (tick inp s) =
      { ctrl s with
          sf3_test_pass := decide (s.sf3_err_count_val = 0)
          cnt_t := (s.cnt_t + 1) % cnt_t_max } := by
  have hfsm : ctrl (Experiment_operateFSM inp (Experiment_readUserInputs inp s)).1 =
      { ctrl s with sf3_test_pass := decide (s.sf3_err_count_val = 0) } := by
    simp [Experiment_operateFSM, Experiment_readUserInputs, hm, hcnt, ctrl]
  rw [ctrl_tick_of inp s _ hfsm]
  simp [ctrl, hprev, hm]

theorem tick_displayFinal_go (inp : TickInput) (s : ExperimentData)
    (hm : s.operatingMode = ST_DISPLAY_FINAL)
    (hprev : s.operatingModePrev = ST_DISPLAY_FINAL)
    (hcnt : s.cnt_t = cnt_t_max - 1) :
    ctrl (tick inp s) =
      { ctrl s with
          operatingMode := ST_WAIT_BUTTON_DEP
          operatingModePrev := ST_WAIT_BUTTON_DEP
          sf3_test_pass := decide (s.sf3_err_count_val = 0)
          cnt_t := 0 } := by
  have hfsm : ctrl (Experiment_operateFSM inp (Experiment_readUserInputs inp s)).1 =
      { ctrl s with
          operatingMode := ST_WAIT_BUTTON_DEP
          sf3_test_pass := decide (s.sf3_err_count_val = 0) } := by
    simp [Experiment_operateFSM, Experiment_readUserInputs, hm, hcnt, ctrl]
  rw [ctrl_tick_of inp s _ hfsm]
  simp [ctrl, hprev]

theorem tick_waitDep_done (inp : TickInput) (s : ExperimentData)
    (hm : s.operatingMode = ST_WAIT_BUTTON_DEP)
    (haddr : ¬ s.sf3_addr_start_val < last_starting_byte_addr) :
    ctrl (tick inp s) =
      { ctrl s with
          sf3_test_done := true
          operatingModePrev := ST_WAIT_BUTTON_DEP
          cnt_t :=
            if s.operatingModePrev = ST_WAIT_BUTTON_DEP then (s.cnt_t + 1) % cnt_t_max
            else 0 } := by
  have hfsm : ctrl (Experiment_operateFSM inp (Experiment_readUserInputs inp s)).1 =
      { ctrl s with sf3_test_done := true } := by
    simp [Experiment_operateFSM, Experiment_readUserInputs, hm, haddr, ctrl]
  rw [ctrl_tick_of inp s _ hfsm]
  by_cases h : s.operatingModePrev = ST_WAIT_BUTTON_DEP
  · simp [ctrl, hm, h]
  · have h' : ¬ ST_WAIT_BUTTON_DEP = s.operatingModePrev := fun hh => h hh.symm
    simp [ctrl, hm, h, h']

/-! ### Field extraction helpers -/

theorem ctrl_mode (s : ExperimentData) : (ctrl s).operatingMode = s.operatingMode := rfl

theorem ctrl_prev (s : ExperimentData) : (ctrl s).operatingModePrev = s.operatingModePrev := rfl

theorem ctrl_saz (s : ExperimentData) : (ctrl s).sf3_start_at_zero = s.sf3_start_at_zero := rfl

theorem ctrl_addr (s : ExperimentData) : (ctrl s).sf3_addr_start_val = s.sf3_addr_start_val := rfl

theorem ctrl_sel (s : ExperimentData) :
    (ctrl s).sf3_test_pattern_selected = s.sf3_test_pattern_selected := rfl

theorem ctrl_startv (s : ExperimentData) :
    (ctrl s).sf3_pattern_start_val = s.sf3_pattern_start_val := rfl

theorem ctrl_incrv (s : ExperimentData) :
    (ctrl s).sf3_pattern_incr_val = s.sf3_pattern_incr_val := rfl

theorem ctrl_track (s : ExperimentData) :
    (ctrl s).sf3_pattern_track_val = s.sf3_pattern_track_val := rfl

theorem ctrl_pass (s : ExperimentData) : (ctrl s).sf3_test_pass = s.sf3_test_pass := rfl

theorem ctrl_done (s : ExperimentData) : (ctrl s).sf3_test_done = s.sf3_test_done := rfl

theorem ctrl_err (s : ExperimentData) : (ctrl s).sf3_err_count_val = s.sf3_err_count_val := rfl

theorem ctrl_cnt (s : ExperimentData) : (ctrl s).cnt_t = s.cnt_t := rfl

theorem ctrl_i (s : ExperimentData) : (ctrl s).sf3_i_val = s.sf3_i_val := rfl

/-! ### Phase lemmas -/

theorem erase_phase (f : Nat → TickInput) (s : ExperimentData)
    (hm : s.operatingMode = ST_CMD_ERASE_START)
    (hprev : s.operatingModePrev = ST_CMD_ERASE_START)
    (hcnt : s.cnt_t = 0)
    (hi : s.sf3_i_val = 0) :
    ∀ k, k ≤ 256 →
      ctrl (run f k s) =
        { ctrl s with
            sf3_i_val := k
            operatingMode :=
              if k < 256 then ST_CMD_ERASE_START else ST_CMD_ERASE_DONE
            operatingModePrev :=
              if k < 256 then ST_CMD_ERASE_START else ST_CMD_ERASE_DONE
            cnt_t := if k < 256 then k else 0 } := by
  intro k
  induction k with
  | zero =>
      intro _
      simp [run, Ctrl.mk.injEq, ctrl, hm, hprev, hcnt, hi]
  | succ k ih =>
      intro hk1
      have hk : k < 256 := by omega
      have hctrl_k := ih (by omega)
      have h1 := congrArg Ctrl.operatingMode hctrl_k
      simp only [ctrl_mode] at h1
      rw [if_pos hk] at h1
      have h2 := congrArg Ctrl.operatingModePrev hctrl_k
      simp only [ctrl_prev] at h2
      rw [if_pos hk] at h2
      have h3 := congrArg Ctrl.sf3_i_val hctrl_k
      simp only [ctrl_i] at h3
      have h4 := congrArg Ctrl.cnt_t hctrl_k
      simp only [ctrl_cnt] at h4
      rw [if_pos hk] at h4
      have hiU : (run f k s).sf3_i_val + 1 < U32 := by
        rw [h3, U32_eq]; omega
      rw [run_succ, tick_eraseStart (f k) (run f k s) h1 h2 hiU, hctrl_k, h3, h4]
      have hsub : experi_subsector_cnt_per_iter = 256 := rfl
      have hmodc : (k + 1) % cnt_t_max = k + 1 := by
        rw [cnt_t_max_eq]; omega
      by_cases hk2 : k + 1 < 256
      · simp [Ctrl.mk.injEq, ctrl, hsub, hk2, hmodc]
      · simp [Ctrl.mk.injEq, ctrl, hsub, hk2, hmodc]

theorem tick_flash (inp : TickInput) (s : ExperimentData) :
    (tick inp s).flash = (Experiment_operateFSM inp (Experiment_readUserInputs inp s)).1.flash :=
  rfl

theorem tick_pageStart_flash (inp : TickInput) (s : ExperimentData)
    (hm : s.operatingMode = ST_CMD_PAGE_START)
    (hop : inp.opFail = false)
    (hi : s.sf3_i_val + 32 ≤ 4096)
    (haddr : s.sf3_addr_start_val + 1048576 ≤ U32)
    (htrack : s.sf3_pattern_track_val = s.sf3_pattern_start_val)
    (hstart : s.sf3_pattern_start_val < U8) :
    ∀ a, (tick inp s).flash a =
      if s.sf3_addr_start_val + s.sf3_i_val * 256 ≤ a ∧
         a < s.sf3_addr_start_val + (s.sf3_i_val + 32) * 256 then
        patternByte s.sf3_pattern_start_val s.sf3_pattern_incr_val
          ((a - s.sf3_addr_start_val) % 256)
      else s.flash a := by
  intro a
  rw [tick_flash]
  have hr : (Experiment_operateFSM inp (Experiment_readUserInputs inp s)).1 =
      (batch pageIter inp 32 (Experiment_readUserInputs inp s)).1 := by
    simp [Experiment_operateFSM, Experiment_readUserInputs, hm]
  rw [hr]
  exact batch_pageIter_flash inp hop 32 (Experiment_readUserInputs inp s) hi haddr htrack hstart a

theorem tick_readStart_flash (inp : TickInput) (s : ExperimentData)
    (hm : s.operatingMode = ST_CMD_READ_START) :
    (tick inp s).flash = s.flash := by
  rw [tick_flash]
  have hr : (Experiment_operateFSM inp (Experiment_readUserInputs inp s)).1 =
      (batch readIter inp 32 (Experiment_readUserInputs inp s)).1 := by
    simp [Experiment_operateFSM, Experiment_readUserInputs, hm]
  rw [hr]
  exact batch_readIter_flash inp 32 (Experiment_readUserInputs inp s)

theorem tick_readStart_data (inp : TickInput) (s : ExperimentData) (g : Nat → Nat)
    (hm : s.operatingMode = ST_CMD_READ_START)
    (hprev : s.operatingModePrev = ST_CMD_READ_START)
    (hi : s.sf3_i_val + 32 ≤ 4096)
    (haddr : s.sf3_addr_start_val + 1048576 ≤ U32)
    (herr : s.sf3_err_count_val < U32)
    (htrack : s.sf3_pattern_track_val = s.sf3_pattern_start_val)
    (hdata : ∀ k, s.sf3_i_val ≤ k → k < s.sf3_i_val + 32 → ∀ j < 256,
      (if inp.opFail then 0 else s.flash (s.sf3_addr_start_val + k * 256 + j)) = g j) :
    ctrl (tick inp s) =
      { ctrl s with
          sf3_i_val := s.sf3_i_val + 32
          sf3_pattern_track_val := s.sf3_pattern_start_val
          sf3_err_count_val :=
            (s.sf3_err_count_val +
              32 * misCountG g s.sf3_pattern_incr_val 0 SF3_PAGE_SIZE
                s.sf3_pattern_start_val) % U32
          operatingMode :=
            if s.sf3_i_val + 32 < experi_page_cnt_per_iter then ST_CMD_READ_START
            else ST_CMD_READ_DONE
          operatingModePrev :=
            if s.sf3_i_val + 32 < experi_page_cnt_per_iter then ST_CMD_READ_START
            else ST_CMD_READ_DONE
          cnt_t :=
            if s.sf3_i_val + 32 < experi_page_cnt_per_iter then (s.cnt_t + 1) % cnt_t_max
            else 0 } := by
  have hb := batch_readIter_data inp g 32 (Experiment_readUserInputs inp s) hi haddr herr
    htrack hdata
  have hfsm : ctrl (Experiment_operateFSM inp (Experiment_readUserInputs inp s)).1 =
      { ctrl s with
          sf3_i_val := s.sf3_i_val + 32
          sf3_pattern_track_val := s.sf3_pattern_start_val
          sf3_err_count_val :=
            (s.sf3_err_count_val +
              32 * misCountG g s.sf3_pattern_incr_val 0 SF3_PAGE_SIZE
                s.sf3_pattern_start_val) % U32
          operatingMode :=
            if s.sf3_i_val + 32 < experi_page_cnt_per_iter then ST_CMD_READ_START
            else ST_CMD_READ_DONE } := by
    have hr : (Experiment_operateFSM inp (Experiment_readUserInputs inp s)).1 =
        (batch readIter inp 32 (Experiment_readUserInputs inp s)).1 := by
      simp [Experiment_operateFSM, Experiment_readUserInputs, hm]
    rw [hr, hb]
    simp [ctrl, Experiment_readUserInputs, Nat.mul_comm]
  rw [ctrl_tick_of inp s _ hfsm]
  by_cases h : s.sf3_i_val + 32 < experi_page_cnt_per_iter <;> simp [h, hprev, ctrl]

theorem dwell_phase_aux :
    ∀ (d : Nat) (f : Nat → TickInput) (s : ExperimentData),
      (s.operatingMode = ST_CMD_ERASE_DONE ∨ s.operatingMode = ST_CMD_PAGE_DONE ∨
        s.operatingMode = ST_CMD_READ_DONE) →
      s.operatingModePrev = s.operatingMode →
      d ≤ 299 → s.cnt_t = 299 - d →
      ctrl (run f (d + 1) s) =
        { ctrl s with
            operatingMode := nextDone s.operatingMode
            operatingModePrev := nextDone s.operatingMode
            sf3_i_val := 0
            sf3_pattern_track_val := s.sf3_pattern_start_val
            cnt_t := 0 } ∧
      (run f (d + 1) s).flash = s.flash := by
  intro d
  induction d with
  | zero =>
      intro f s hm3 hprev _ hcnt
      have hge : s.cnt_t ≥ cnt_t_max - 1 := by
        rw [cnt_t_max_eq]; omega
      constructor
      · show ctrl (tick (f 0) (run f 0 s)) = _
        rw [run_zero]
        exact tick_dwell_go (f 0) s hm3 hprev hge
      · show (tick (f 0) (run f 0 s)).flash = s.flash
        rw [run_zero, tick_flash]
        rcases hm3 with hm | hm | hm <;>
          (simp only [Experiment_operateFSM, Experiment_readUserInputs, hm]; split <;> rfl)
  | succ d ih =>
      intro f s hm3 hprev hd hcnt
      have hlt : ¬ s.cnt_t ≥ cnt_t_max - 1 := by
        rw [cnt_t_max_eq]; omega
      have hstay := tick_dwell_stay (f 0) s hm3 hprev hlt
      have hs1m : (tick (f 0) s).operatingMode = s.operatingMode := by
        have := congrArg Ctrl.operatingMode hstay
        simp only [ctrl_mode] at this
        exact this
      have hs1p : (tick (f 0) s).operatingModePrev = s.operatingMode := by
        have := congrArg Ctrl.operatingModePrev hstay
        simp only [ctrl_prev] at this
        rw [this, hprev]
      have hs1c : (tick (f 0) s).cnt_t = 299 - d := by
        have := congrArg Ctrl.cnt_t hstay
        simp only [ctrl_cnt] at this
        rw [this, hcnt, cnt_t_max_eq]
        omega
      have hs1start : (tick (f 0) s).sf3_pattern_start_val = s.sf3_pattern_start_val := by
        have := congrArg Ctrl.sf3_pattern_start_val hstay
        simp only [ctrl_startv] at this
        exact this
      have hs1flash : (tick (f 0) s).flash = s.flash := by
        rw [tick_flash]
        rcases hm3 with hm | hm | hm <;>
          (simp only [Experiment_operateFSM, Experiment_readUserInputs, hm]; split <;> rfl)
      have hrun : run f (d + 1 + 1) s =
          run (fun t => f (1 + t)) (d + 1) (tick (f 0) s) := by
        have h0 : d + 1 + 1 = 1 + (d + 1) := by omega
        rw [h0, run_add]
        rfl
      obtain ⟨ihc, ihf⟩ := ih (fun t => f (1 + t)) (tick (f 0) s)
        (by rw [hs1m]; exact hm3)
        (by rw [hs1p, hs1m])
        (by omega) (by rw [hs1c])
      constructor
      · rw [hrun, ihc, hstay, hs1m, hs1start]
      · rw [hrun, ihf, hs1flash]

theorem dwell_phase (f : Nat → TickInput) (s : ExperimentData)
    (hm3 : s.operatingMode = ST_CMD_ERASE_DONE ∨ s.operatingMode = ST_CMD_PAGE_DONE ∨
      s.operatingMode = ST_CMD_READ_DONE)
    (hprev : s.operatingModePrev = s.operatingMode)
    (hcnt : s.cnt_t = 0) :
    ctrl (run f 300 s) =
      { ctrl s with
          operatingMode := nextDone s.operatingMode
          operatingModePrev := nextDone s.operatingMode
          sf3_i_val := 0
          sf3_pattern_track_val := s.sf3_pattern_start_val
          cnt_t := 0 } ∧
    (run f 300 s).flash = s.flash := by
  have := dwell_phase_aux 299 f s hm3 hprev (Nat.le_refl _) (by omega)
  exact this

theorem wait_phase_aux :
    ∀ (d : Nat) (f : Nat → TickInput) (s : ExperimentData),
      s.operatingMode = ST_SET_START_WAIT →
      s.operatingModePrev = ST_SET_START_WAIT →
      d ≤ 150 → s.cnt_t = 150 - d →
      ctrl (run f (d + 1) s) =
        { ctrl s with
            operatingMode := ST_CMD_ERASE_START
            operatingModePrev := ST_CMD_ERASE_START
            cnt_t := 0 } := by
  intro d
  induction d with
  | zero =>
      intro f s hm hprev _ hcnt
      have heq : s.cnt_t = cnt_t_max / 2 := by
        rw [cnt_t_max_eq]; omega
      show ctrl (tick (f 0) (run f 0 s)) = _
      rw [run_zero]
      exact tick_startWait_go (f 0) s hm hprev heq
  | succ d ih =>
      intro f s hm hprev hd hcnt
      have hne : s.cnt_t ≠ cnt_t_max / 2 := by
        rw [cnt_t_max_eq]; omega
      have hstay := tick_startWait_stay (f 0) s hm hprev hne
      have hs1m : (tick (f 0) s).operatingMode = ST_SET_START_WAIT := by
        have := congrArg Ctrl.operatingMode hstay
        simp only [ctrl_mode] at this
        rw [this, hm]
      have hs1p : (tick (f 0) s).operatingModePrev = ST_SET_START_WAIT := by
        have := congrArg Ctrl.operatingModePrev hstay
        simp only [ctrl_prev] at this
        rw [this, hprev]
      have hs1c : (tick (f 0) s).cnt_t = 150 - d := by
        have := congrArg Ctrl.cnt_t hstay
        simp only [ctrl_cnt] at this
        rw [this, hcnt, cnt_t_max_eq]
        omega
      have hrun : run f (d + 1 + 1) s =
          run (fun t => f (1 + t)) (d + 1) (tick (f 0) s) := by
        have h0 : d + 1 + 1 = 1 + (d + 1) := by omega
        rw [h0, run_add]
        rfl
      rw [hrun, ih (fun t => f (1 + t)) (tick (f 0) s) hs1m hs1p (by omega) hs1c, hstay]

theorem wait_phase (f : Nat → TickInput) (s : ExperimentData)
    (hm : s.operatingMode = ST_SET_START_WAIT)
    (hprev : s.operatingModePrev = ST_SET_START_WAIT)
    (hcnt : s.cnt_t = 0) :
    ctrl (run f 151 s) =
      { ctrl s with
          operatingMode := ST_CMD_ERASE_START
          operatingModePrev := ST_CMD_ERASE_START
          cnt_t := 0 } :=
  wait_phase_aux 150 f s hm hprev (Nat.le_refl _) (by omega)

theorem final_phase_aux :
    ∀ (d : Nat) (f : Nat → TickInput) (s : ExperimentData),
      s.operatingMode = ST_DISPLAY_FINAL →
      s.operatingModePrev = ST_DISPLAY_FINAL →
      d ≤ 299 → s.cnt_t = 299 - d →
      ctrl (run f (d + 1) s) =
        { ctrl s with
            operatingMode := ST_WAIT_BUTTON_DEP
            operatingModePrev := ST_WAIT_BUTTON_DEP
            sf3_test_pass := decide (s.sf3_err_count_val = 0)
            cnt_t := 0 } := by
  intro d
  induction d with
  | zero =>
      intro f s hm hprev _ hcnt
      have heq : s.cnt_t = cnt_t_max - 1 := by
        rw [cnt_t_max_eq]; omega
      show ctrl (tick (f 0) (run f 0 s)) = _
      rw [run_zero]
      exact tick_displayFinal_go (f 0) s hm hprev heq
  | succ d ih =>
      intro f s hm hprev hd hcnt
      have hne : s.cnt_t ≠ cnt_t_max - 1 := by
        rw [cnt_t_max_eq]; omega
      have hstay := tick_displayFinal_stay (f 0) s hm hprev hne
      have hs1m : (tick (f 0) s).operatingMode = ST_DISPLAY_FINAL := by
        have := congrArg Ctrl.operatingMode hstay
        simp only [ctrl_mode] at this
        rw [this, hm]
      have hs1p : (tick (f 0) s).operatingModePrev = ST_DISPLAY_FINAL := by
        have := congrArg Ctrl.operatingModePrev hstay
        simp only [ctrl_prev] at this
        rw [this, hprev]
      have hs1c : (tick (f 0) s).cnt_t = 299 - d := by
        have := congrArg Ctrl.cnt_t hstay
        simp only [ctrl_cnt] at this
        rw [this, hcnt, cnt_t_max_eq]
        omega
      have hs1e : (tick (f 0) s).sf3_err_count_val = s.sf3_err_count_val := by
        have := congrArg Ctrl.sf3_err_count_val hstay
        simp only [ctrl_err] at this
        exact this
      have hrun : run f (d + 1 + 1) s =
          run (fun t => f (1 + t)) (d + 1) (tick (f 0) s) := by
        have h0 : d + 1 + 1 = 1 + (d + 1) := by omega
        rw [h0, run_add]
        rfl
      rw [hrun, ih (fun t => f (1 + t)) (tick (f 0) s) hs1m hs1p (by omega) hs1c, hstay, hs1e]

theorem final_phase (f : Nat → TickInput) (s : ExperimentData)
    (hm : s.operatingMode = ST_DISPLAY_FINAL)
    (hprev : s.operatingModePrev = ST_DISPLAY_FINAL)
    (hcnt : s.cnt_t = 0) :
    ctrl (run f 300 s) =
      { ctrl s with
          operatingMode := ST_WAIT_BUTTON_DEP
          operatingModePrev := ST_WAIT_BUTTON_DEP
          sf3_test_pass := decide (s.sf3_err_count_val = 0)
          cnt_t := 0 } :=
  final_phase_aux 299 f s hm hprev (Nat.le_refl _) (by omega)

theorem page_phase (f : Nat → TickInput) (s : ExperimentData)
    (hm : s.operatingMode = ST_CMD_PAGE_START)
    (hprev : s.operatingModePrev = ST_CMD_PAGE_START)
    (hcnt : s.cnt_t = 0)
    (hi : s.sf3_i_val = 0)
    (htrack : s.sf3_pattern_track_val = s.sf3_pattern_start_val)
    (hstart : s.sf3_pattern_start_val < U8)
    (haddr : s.sf3_addr_start_val + 1048576 ≤ U32)
    (hop : ∀ t, t < 128 → (f t).opFail = false) :
    ∀ b, b ≤ 128 →
      (ctrl (run f b s) =
        { ctrl s with
            sf3_i_val := 32 * b
            sf3_pattern_track_val := s.sf3_pattern_start_val
            operatingMode := if b < 128 then ST_CMD_PAGE_START else ST_CMD_PAGE_DONE
            operatingModePrev := if b < 128 then ST_CMD_PAGE_START else ST_CMD_PAGE_DONE
            cnt_t := if b < 128 then b else 0 }) ∧
      ∀ a, (run f b s).flash a =
        if s.sf3_addr_start_val ≤ a ∧ a < s.sf3_addr_start_val + 32 * b * 256 then
          patternByte s.sf3_pattern_start_val s.sf3_pattern_incr_val
            ((a - s.sf3_addr_start_val) % 256)
        else s.flash a := by
  intro b
  induction b with
  | zero =>
      intro _
      constructor
      · simp [run, Ctrl.mk.injEq, ctrl, hm, hprev, hcnt, hi, htrack]
      · intro a
        rw [if_neg (by omega)]
        rfl
  | succ b ih =>
      intro hb1
      have hb : b < 128 := by omega
      obtain ⟨ihc, ihf⟩ := ih (by omega)
      have h1 := congrArg Ctrl.operatingMode ihc
      simp only [ctrl_mode] at h1
      rw [if_pos hb] at h1
      have h2 := congrArg Ctrl.operatingModePrev ihc
      simp only [ctrl_prev] at h2
      rw [if_pos hb] at h2
      have h3 := congrArg Ctrl.sf3_i_val ihc
      simp only [ctrl_i] at h3
      have h4 := congrArg Ctrl.cnt_t ihc
      simp only [ctrl_cnt] at h4
      rw [if_pos hb] at h4
      have h5 := congrArg Ctrl.sf3_pattern_track_val ihc
      simp only [ctrl_track] at h5
      have h6 := congrArg Ctrl.sf3_pattern_start_val ihc
      simp only [ctrl_startv] at h6
      have h7 := congrArg Ctrl.sf3_addr_start_val ihc
      simp only [ctrl_addr] at h7
      have h8 := congrArg Ctrl.sf3_pattern_incr_val ihc
      simp only [ctrl_incrv] at h8
      have hi32 : (run f b s).sf3_i_val + 32 ≤ experi_page_cnt_per_iter := by
        rw [h3, experi_page_cnt_eq]; omega
      constructor
      · rw [run_succ, tick_pageStart (f b) (run f b s) h1 h2 hi32, ihc, h3, h4]
        have heq : (32 * b + 32 < experi_page_cnt_per_iter) ↔ (b + 1 < 128) := by
          rw [experi_page_cnt_eq]
          omega
        have hmodc : (b + 1) % cnt_t_max = b + 1 := by
          rw [cnt_t_max_eq]; omega
        by_cases hb2 : b + 1 < 128
        · simp [Ctrl.mk.injEq, ctrl, heq, hb2, hmodc, h6, Nat.mul_add, Nat.mul_one]
        · simp [Ctrl.mk.injEq, ctrl, heq, hb2, hmodc, h6, Nat.mul_add, Nat.mul_one]
      · intro a
        rw [run_succ]
        rw [tick_pageStart_flash (f b) (run f b s) h1 (hop b hb)
          (by rw [h3]; omega) (by rw [h7]; omega) (by rw [h5, h6]) (by rw [h6]; exact hstart) a]
        rw [h3, h6, h7, h8, ihf a]
        by_cases hc1 : s.sf3_addr_start_val + 32 * b * 256 ≤ a ∧
            a < s.sf3_addr_start_val + (32 * b + 32) * 256
        · rw [if_pos hc1, if_pos (by omega)]
        · rw [if_neg hc1]
          by_cases hc2 : s.sf3_addr_start_val ≤ a ∧ a < s.sf3_addr_start_val + 32 * b * 256
          · rw [if_pos hc2, if_pos (by omega)]
          · rw [if_neg hc2, if_neg (by omega)]

theorem read_phase (f : Nat → TickInput) (s : ExperimentData) (g : Nat → Nat) (o : Bool)
    (hm : s.operatingMode = ST_CMD_READ_START)
    (hprev : s.operatingModePrev = ST_CMD_READ_START)
    (hcnt : s.cnt_t = 0)
    (hi : s.sf3_i_val = 0)
    (htrack : s.sf3_pattern_track_val = s.sf3_pattern_start_val)
    (herr : s.sf3_err_count_val < U32)
    (haddr : s.sf3_addr_start_val + 1048576 ≤ U32)
    (ho : ∀ t, t < 128 → (f t).opFail = o)
    (hflash : ∀ k, k < 4096 → ∀ j, j < 256 →
      (if o then 0 else s.flash (s.sf3_addr_start_val + k * 256 + j)) = g j) :
    ∀ b, b ≤ 128 →
      (ctrl (run f b s) =
        { ctrl s with
            sf3_i_val := 32 * b
            sf3_pattern_track_val := s.sf3_pattern_start_val
            sf3_err_count_val :=
              (s.sf3_err_count_val +
                32 * b * misCountG g s.sf3_pattern_incr_val 0 SF3_PAGE_SIZE
                  s.sf3_pattern_start_val) % U32
            operatingMode := if b < 128 then ST_CMD_READ_START else ST_CMD_READ_DONE
            operatingModePrev := if b < 128 then ST_CMD_READ_START else ST_CMD_READ_DONE
            cnt_t := if b < 128 then b else 0 }) ∧
      (run f b s).flash = s.flash := by
  intro b
  induction b with
  | zero =>
      intro _
      constructor
      · simp [run, Ctrl.mk.injEq, ctrl, hm, hprev, hcnt, hi, htrack, Nat.mod_eq_of_lt herr]
      · rfl
  | succ b ih =>
      intro hb1
      have hb : b < 128 := by omega
      obtain ⟨ihc, ihf⟩ := ih (by omega)
      have h1 := congrArg Ctrl.operatingMode ihc
      simp only [ctrl_mode] at h1
      rw [if_pos hb] at h1
      have h2 := congrArg Ctrl.operatingModePrev ihc
      simp only [ctrl_prev] at h2
      rw [if_pos hb] at h2
      have h3 := congrArg Ctrl.sf3_i_val ihc
      simp only [ctrl_i] at h3
      have h4 := congrArg Ctrl.cnt_t ihc
      simp only [ctrl_cnt] at h4
      rw [if_pos hb] at h4
      have h5 := congrArg Ctrl.sf3_pattern_track_val ihc
      simp only [ctrl_track] at h5
      have h6 := congrArg Ctrl.sf3_pattern_start_val ihc
      simp only [ctrl_startv] at h6
      have h7 := congrArg Ctrl.sf3_addr_start_val ihc
      simp only [ctrl_addr] at h7
      have h8 := congrArg Ctrl.sf3_pattern_incr_val ihc
      simp only [ctrl_incrv] at h8
      have h9 := congrArg Ctrl.sf3_err_count_val ihc
      simp only [ctrl_err] at h9
      have hdata_b : ∀ k, (run f b s).sf3_i_val ≤ k → k < (run f b s).sf3_i_val + 32 →
          ∀ j, j < 256 →
          (if (f b).opFail then 0
           else (run f b s).flash ((run f b s).sf3_addr_start_val + k * 256 + j)) = g j := by
        intro k hk1 hk2 j hj
        rw [ho b hb, ihf, h7]
        rw [h3] at hk1 hk2
        exact hflash k (by omega) j hj
      constructor
      · rw [run_succ, tick_readStart_data (f b) (run f b s) g h1 h2
          (by rw [h3]; omega) (by rw [h7]; omega) (by rw [h9]; exact Nat.mod_lt _ U32_pos)
          (by rw [h5, h6]) hdata_b, ihc, h3, h4, h9]
        rw [h6, h8]
        generalize misCountG g s.sf3_pattern_incr_val 0 SF3_PAGE_SIZE s.sf3_pattern_start_val = M
        have heq : (32 * b + 32 < experi_page_cnt_per_iter) ↔ (b + 1 < 128) := by
          rw [experi_page_cnt_eq]
          omega
        have hmodc : (b + 1) % cnt_t_max = b + 1 := by
          rw [cnt_t_max_eq]; omega
        have herrf : ((s.sf3_err_count_val + 32 * b * M) % U32 + 32 * M) % U32 =
            (s.sf3_err_count_val + 32 * (b + 1) * M) % U32 := by
          rw [mod_U32_add_mod]
          congr 1
          ring
        by_cases hb2 : b + 1 < 128
        · simp [Ctrl.mk.injEq, ctrl, heq, hb2, hmodc, herrf, Nat.mul_add, Nat.mul_one]
        · simp [Ctrl.mk.injEq, ctrl, heq, hb2, hmodc, herrf, Nat.mul_add, Nat.mul_one]
      · rw [run_succ, tick_readStart_flash (f b) (run f b s) h1, ihf]

/-! ### Full-pass composition -/

theorem pass_composition (f : Nat → TickInput) (s : ExperimentData)
    (hm : s.operatingMode = ST_CMD_ERASE_START)
    (hprev : s.operatingModePrev = ST_CMD_ERASE_START)
    (hcnt : s.cnt_t = 0)
    (hi : s.sf3_i_val = 0)
    (hsv : s.sf3_pattern_start_val < U8)
    (haddr : s.sf3_addr_start_val ≤ last_starting_byte_addr)
    (herr0 : s.sf3_err_count_val < U32)
    (hok : ∀ t, (f t).opFail = false) :
    ctrl (run f 1412 s) =
      { ctrl s with
          operatingMode := ST_DISPLAY_FINAL
          operatingModePrev := ST_DISPLAY_FINAL
          sf3_i_val := 0
          sf3_pattern_track_val := s.sf3_pattern_start_val
          cnt_t := 0 } := by
  have haddrU : s.sf3_addr_start_val + 1048576 ≤ U32 := by
    rw [last_starting_byte_addr_eq] at haddr
    rw [U32_eq]
    omega
  -- erase phase: 256 ticks
  have hA : ctrl (run f 256 s) =
      { ctrl s with
          sf3_i_val := 256
          operatingMode := ST_CMD_ERASE_DONE
          operatingModePrev := ST_CMD_ERASE_DONE
          cnt_t := 0 } := by
    have := erase_phase f s hm hprev hcnt hi 256 (Nat.le_refl _)
    simpa using this
  have hAm : (run f 256 s).operatingMode = ST_CMD_ERASE_DONE := by
    have hh := congrArg Ctrl.operatingMode hA
    simp only [ctrl_mode, ctrl_prev, ctrl_saz, ctrl_addr, ctrl_sel, ctrl_startv, ctrl_incrv, ctrl_track, ctrl_pass, ctrl_done, ctrl_err, ctrl_cnt, ctrl_i] at hh
    exact hh
  have hAp : (run f 256 s).operatingModePrev = ST_CMD_ERASE_DONE := by
    have hh := congrArg Ctrl.operatingModePrev hA
    simp only [ctrl_mode, ctrl_prev, ctrl_saz, ctrl_addr, ctrl_sel, ctrl_startv, ctrl_incrv, ctrl_track, ctrl_pass, ctrl_done, ctrl_err, ctrl_cnt, ctrl_i] at hh
    exact hh
  have hAc : (run f 256 s).cnt_t = 0 := by
    have hh := congrArg Ctrl.cnt_t hA
    simp only [ctrl_mode, ctrl_prev, ctrl_saz, ctrl_addr, ctrl_sel, ctrl_startv, ctrl_incrv, ctrl_track, ctrl_pass, ctrl_done, ctrl_err, ctrl_cnt, ctrl_i] at hh
    exact hh
  have hAstartv : (run f 256 s).sf3_pattern_start_val = s.sf3_pattern_start_val := by
    have hh := congrArg Ctrl.sf3_pattern_start_val hA
    simp only [ctrl_mode, ctrl_prev, ctrl_saz, ctrl_addr, ctrl_sel, ctrl_startv, ctrl_incrv, ctrl_track, ctrl_pass, ctrl_done, ctrl_err, ctrl_cnt, ctrl_i] at hh
    exact hh
  -- erase-done dwell: 300 ticks
  have e1 : run f 1412 s = run (fun k => f (256 + k)) 1156 (run f 256 s) := by
    have h0 : (1412 : Nat) = 256 + 1156 := by norm_num
    rw [h0, run_add]
  obtain ⟨hB0, _⟩ := dwell_phase (fun k => f (256 + k)) (run f 256 s)
    (Or.inl hAm) (by rw [hAp, hAm]) hAc
  have hB : ctrl (run (fun k => f (256 + k)) 300 (run f 256 s)) =
      { ctrl s with
          operatingMode := ST_CMD_PAGE_START
          operatingModePrev := ST_CMD_PAGE_START
          sf3_i_val := 0
          sf3_pattern_track_val := s.sf3_pattern_start_val
          cnt_t := 0 } := by
    rw [hB0, hAm, hA, hAstartv]
    rfl
  have hBm : (run (fun k => f (256 + k)) 300 (run f 256 s)).operatingMode =
      ST_CMD_PAGE_START := by
    have hh := congrArg Ctrl.operatingMode hB
    simp only [ctrl_mode, ctrl_prev, ctrl_saz, ctrl_addr, ctrl_sel, ctrl_startv, ctrl_incrv, ctrl_track, ctrl_pass, ctrl_done, ctrl_err, ctrl_cnt, ctrl_i] at hh
    exact hh
  have hBp : (run (fun k => f (256 + k)) 300 (run f 256 s)).operatingModePrev =
      ST_CMD_PAGE_START := by
    have hh := congrArg Ctrl.operatingModePrev hB
    simp only [ctrl_mode, ctrl_prev, ctrl_saz, ctrl_addr, ctrl_sel, ctrl_startv, ctrl_incrv, ctrl_track, ctrl_pass, ctrl_done, ctrl_err, ctrl_cnt, ctrl_i] at hh
    exact hh
  have hBc : (run (fun k => f (256 + k)) 300 (run f 256 s)).cnt_t = 0 := by
    have hh := congrArg Ctrl.cnt_t hB
    simp only [ctrl_mode, ctrl_prev, ctrl_saz, ctrl_addr, ctrl_sel, ctrl_startv, ctrl_incrv, ctrl_track, ctrl_pass, ctrl_done, ctrl_err, ctrl_cnt, ctrl_i] at hh
    exact hh
  have hBi : (run (fun k => f (256 + k)) 300 (run f 256 s)).sf3_i_val = 0 := by
    have hh := congrArg Ctrl.sf3_i_val hB
    simp only [ctrl_mode, ctrl_prev, ctrl_saz, ctrl_addr, ctrl_sel, ctrl_startv, ctrl_incrv, ctrl_track, ctrl_pass, ctrl_done, ctrl_err, ctrl_cnt, ctrl_i] at hh
    exact hh
  have hBstartv : (run (fun k => f (256 + k)) 300 (run f 256 s)).sf3_pattern_start_val =
      s.sf3_pattern_start_val := by
    have hh := congrArg Ctrl.sf3_pattern_start_val hB
    simp only [ctrl_mode, ctrl_prev, ctrl_saz, ctrl_addr, ctrl_sel, ctrl_startv, ctrl_incrv, ctrl_track, ctrl_pass, ctrl_done, ctrl_err, ctrl_cnt, ctrl_i] at hh
    exact hh
  have hBincrv : (run (fun k => f (256 + k)) 300 (run f 256 s)).sf3_pattern_incr_val =
      s.sf3_pattern_incr_val := by
    have hh := congrArg Ctrl.sf3_pattern_incr_val hB
    simp only [ctrl_mode, ctrl_prev, ctrl_saz, ctrl_addr, ctrl_sel, ctrl_startv, ctrl_incrv, ctrl_track, ctrl_pass, ctrl_done, ctrl_err, ctrl_cnt, ctrl_i] at hh
    exact hh
  have hBtrack : (run (fun k => f (256 + k)) 300 (run f 256 s)).sf3_pattern_track_val =
      s.sf3_pattern_start_val := by
    have hh := congrArg Ctrl.sf3_pattern_track_val hB
    simp only [ctrl_mode, ctrl_prev, ctrl_saz, ctrl_addr, ctrl_sel, ctrl_startv, ctrl_incrv, ctrl_track, ctrl_pass, ctrl_done, ctrl_err, ctrl_cnt, ctrl_i] at hh
    exact hh
  have hBaddr : (run (fun k => f (256 + k)) 300 (run f 256 s)).sf3_addr_start_val =
      s.sf3_addr_start_val := by
    have hh := congrArg Ctrl.sf3_addr_start_val hB
    simp only [ctrl_mode, ctrl_prev, ctrl_saz, ctrl_addr, ctrl_sel, ctrl_startv, ctrl_incrv, ctrl_track, ctrl_pass, ctrl_done, ctrl_err, ctrl_cnt, ctrl_i] at hh
    exact hh
  have hBerr : (run (fun k => f (256 + k)) 300 (run f 256 s)).sf3_err_count_val =
      s.sf3_err_count_val := by
    have hh := congrArg Ctrl.sf3_err_count_val hB
    simp only [ctrl_mode, ctrl_prev, ctrl_saz, ctrl_addr, ctrl_sel, ctrl_startv, ctrl_incrv, ctrl_track, ctrl_pass, ctrl_done, ctrl_err, ctrl_cnt, ctrl_i] at hh
    exact hh
  have e2 : run (fun k => f (256 + k)) 1156 (run f 256 s) =
      run (fun k => f (256 + (300 + k))) 856
        (run (fun k => f (256 + k)) 300 (run f 256 s)) := by
    have h0 : (1156 : Nat) = 300 + 856 := by norm_num
    rw [h0, run_add]
  -- program phase: 128 ticks
  obtain ⟨hC0, hCf0⟩ := page_phase (fun k => f (256 + (300 + k)))
    (run (fun k => f (256 + k)) 300 (run f 256 s)) hBm hBp hBc hBi
    (by rw [hBtrack, hBstartv]) (by rw [hBstartv]; exact hsv) (by rw [hBaddr]; exact haddrU)
    (fun t _ => hok _) 128 (Nat.le_refl _)
  have hC : ctrl (run (fun k => f (256 + (300 + k))) 128
      (run (fun k => f (256 + k)) 300 (run f 256 s))) =
      { ctrl s with
          operatingMode := ST_CMD_PAGE_DONE
          operatingModePrev := ST_CMD_PAGE_DONE
          sf3_i_val := 4096
          sf3_pattern_track_val := s.sf3_pattern_start_val
          cnt_t := 0 } := by
    rw [hC0, hB, hBstartv]
    norm_num
  have hCf : ∀ a, (run (fun k => f (256 + (300 + k))) 128
      (run (fun k => f (256 + k)) 300 (run f 256 s))).flash a =
      if s.sf3_addr_start_val ≤ a ∧ a < s.sf3_addr_start_val + 1048576 then
        patternByte s.sf3_pattern_start_val s.sf3_pattern_incr_val
          ((a - s.sf3_addr_start_val) % 256)
      else (run (fun k => f (256 + k)) 300 (run f 256 s)).flash a := by
    intro a
    have := hCf0 a
    rw [hBaddr, hBstartv, hBincrv] at this
    norm_num at this
    exact this
  have hCm : (run (fun k => f (256 + (300 + k))) 128
      (run (fun k => f (256 + k)) 300 (run f 256 s))).operatingMode = ST_CMD_PAGE_DONE := by
    have hh := congrArg Ctrl.operatingMode hC
    simp only [ctrl_mode, ctrl_prev, ctrl_saz, ctrl_addr, ctrl_sel, ctrl_startv, ctrl_incrv, ctrl_track, ctrl_pass, ctrl_done, ctrl_err, ctrl_cnt, ctrl_i] at hh
    exact hh
  have hCp : (run (fun k => f (256 + (300 + k))) 128
      (run (fun k => f (256 + k)) 300 (run f 256 s))).operatingModePrev = ST_CMD_PAGE_DONE := by
    have hh := congrArg Ctrl.operatingModePrev hC
    simp only [ctrl_mode, ctrl_prev, ctrl_saz, ctrl_addr, ctrl_sel, ctrl_startv, ctrl_incrv, ctrl_track, ctrl_pass, ctrl_done, ctrl_err, ctrl_cnt, ctrl_i] at hh
    exact hh
  have hCc : (run (fun k => f (256 + (300 + k))) 128
      (run (fun k => f (256 + k)) 300 (run f 256 s))).cnt_t = 0 := by
    have hh := congrArg Ctrl.cnt_t hC
    simp only [ctrl_mode, ctrl_prev, ctrl_saz, ctrl_addr, ctrl_sel, ctrl_startv, ctrl_incrv, ctrl_track, ctrl_pass, ctrl_done, ctrl_err, ctrl_cnt, ctrl_i] at hh
    exact hh
  have hCstartv : (run (fun k => f (256 + (300 + k))) 128
      (run (fun k => f (256 + k)) 300 (run f 256 s))).sf3_pattern_start_val =
      s.sf3_pattern_start_val := by
    have hh := congrArg Ctrl.sf3_pattern_start_val hC
    simp only [ctrl_mode, ctrl_prev, ctrl_saz, ctrl_addr, ctrl_sel, ctrl_startv, ctrl_incrv, ctrl_track, ctrl_pass, ctrl_done, ctrl_err, ctrl_cnt, ctrl_i] at hh
    exact hh
  have e3 : run (fun k => f (256 + (300 + k))) 856
      (run (fun k => f (256 + k)) 300 (run f 256 s)) =
      run (fun k => f (256 + (300 + (128 + k)))) 728
        (run (fun k => f (256 + (300 + k))) 128
          (run (fun k => f (256 + k)) 300 (run f 256 s))) := by
    have h0 : (856 : Nat) = 128 + 728 := by norm_num
    rw [h0, run_add]
  -- page-done dwell: 300 ticks
  obtain ⟨hD0, hDf0⟩ := dwell_phase (fun k => f (256 + (300 + (128 + k))))
    (run (fun k => f (256 + (300 + k))) 128
      (run (fun k => f (256 + k)) 300 (run f 256 s)))
    (Or.inr (Or.inl hCm)) (by rw [hCp, hCm]) hCc
  have hD : ctrl (run (fun k => f (256 + (300 + (128 + k)))) 300
      (run (fun k => f (256 + (300 + k))) 128
        (run (fun k => f (256 + k)) 300 (run f 256 s)))) =
      { ctrl s with
          operatingMode := ST_CMD_READ_START
          operatingModePrev := ST_CMD_READ_START
          sf3_i_val := 0
          sf3_pattern_track_val := s.sf3_pattern_start_val
          cnt_t := 0 } := by
    rw [hD0, hCm, hC, hCstartv]
    rfl
  have hDf : (run (fun k => f (256 + (300 + (128 + k)))) 300
      (run (fun k => f (256 + (300 + k))) 128
        (run (fun k => f (256 + k)) 300 (run f 256 s)))).flash =
      (run (fun k => f (256 + (300 + k))) 128
        (run (fun k => f (256 + k)) 300 (run f 256 s))).flash := hDf0
  have hDm : (run (fun k => f (256 + (300 + (128 + k)))) 300
      (run (fun k => f (256 + (300 + k))) 128
        (run (fun k => f (256 + k)) 300 (run f 256 s)))).operatingMode =
      ST_CMD_READ_START := by
    have hh := congrArg Ctrl.operatingMode hD
    simp only [ctrl_mode, ctrl_prev, ctrl_saz, ctrl_addr, ctrl_sel, ctrl_startv, ctrl_incrv, ctrl_track, ctrl_pass, ctrl_done, ctrl_err, ctrl_cnt, ctrl_i] at hh
    exact hh
  have hDp : (run (fun k => f (256 + (300 + (128 + k)))) 300
      (run (fun k => f (256 + (300 + k))) 128
        (run (fun k => f (256 + k)) 300 (run f 256 s)))).operatingModePrev =
      ST_CMD_READ_START := by
    have hh := congrArg Ctrl.operatingModePrev hD
    simp only [ctrl_mode, ctrl_prev, ctrl_saz, ctrl_addr, ctrl_sel, ctrl_startv, ctrl_incrv, ctrl_track, ctrl_pass, ctrl_done, ctrl_err, ctrl_cnt, ctrl_i] at hh
    exact hh
  have hDc : (run (fun k => f (256 + (300 + (128 + k)))) 300
      (run (fun k => f (256 + (300 + k))) 128
        (run (fun k => f (256 + k)) 300 (run f 256 s)))).cnt_t = 0 := by
    have hh := congrArg Ctrl.cnt_t hD
    simp only [ctrl_mode, ctrl_prev, ctrl_saz, ctrl_addr, ctrl_sel, ctrl_startv, ctrl_incrv, ctrl_track, ctrl_pass, ctrl_done, ctrl_err, ctrl_cnt, ctrl_i] at hh
    exact hh
  have hDi : (run (fun k => f (256 + (300 + (128 + k)))) 300
      (run (fun k => f (256 + (300 + k))) 128
        (run (fun k => f (256 + k)) 300 (run f 256 s)))).sf3_i_val = 0 := by
    have hh := congrArg Ctrl.sf3_i_val hD
    simp only [ctrl_mode, ctrl_prev, ctrl_saz, ctrl_addr, ctrl_sel, ctrl_startv, ctrl_incrv, ctrl_track, ctrl_pass, ctrl_done, ctrl_err, ctrl_cnt, ctrl_i] at hh
    exact hh
  have hDtrack : (run (fun k => f (256 + (300 + (128 + k)))) 300
      (run (fun k => f (256 + (300 + k))) 128
        (run (fun k => f (256 + k)) 300 (run f 256 s)))).sf3_pattern_track_val =
      s.sf3_pattern_start_val := by
    have hh := congrArg Ctrl.sf3_pattern_track_val hD
    simp only [ctrl_mode, ctrl_prev, ctrl_saz, ctrl_addr, ctrl_sel, ctrl_startv, ctrl_incrv, ctrl_track, ctrl_pass, ctrl_done, ctrl_err, ctrl_cnt, ctrl_i] at hh
    exact hh
  have hDstartv : (run (fun k => f (256 + (300 + (128 + k)))) 300
      (run (fun k => f (256 + (300 + k))) 128
        (run (fun k => f (256 + k)) 300 (run f 256 s)))).sf3_pattern_start_val =
      s.sf3_pattern_start_val := by
    have hh := congrArg Ctrl.sf3_pattern_start_val hD
    simp only [ctrl_mode, ctrl_prev, ctrl_saz, ctrl_addr, ctrl_sel, ctrl_startv, ctrl_incrv, ctrl_track, ctrl_pass, ctrl_done, ctrl_err, ctrl_cnt, ctrl_i] at hh
    exact hh
  have hDincrv : (run (fun k => f (256 + (300 + (128 + k)))) 300
      (run (fun k => f (256 + (300 + k))) 128
        (run (fun k => f (256 + k)) 300 (run f 256 s)))).sf3_pattern_incr_val =
      s.sf3_pattern_incr_val := by
    have hh := congrArg Ctrl.sf3_pattern_incr_val hD
    simp only [ctrl_mode, ctrl_prev, ctrl_saz, ctrl_addr, ctrl_sel, ctrl_startv, ctrl_incrv, ctrl_track, ctrl_pass, ctrl_done, ctrl_err, ctrl_cnt, ctrl_i] at hh
    exact hh
  have hDaddr : (run (fun k => f (256 + (300 + (128 + k)))) 300
      (run (fun k => f (256 + (300 + k))) 128
        (run (fun k => f (256 + k)) 300 (run f 256 s)))).sf3_addr_start_val =
      s.sf3_addr_start_val := by
    have hh := congrArg Ctrl.sf3_addr_start_val hD
    simp only [ctrl_mode, ctrl_prev, ctrl_saz, ctrl_addr, ctrl_sel, ctrl_startv, ctrl_incrv, ctrl_track, ctrl_pass, ctrl_done, ctrl_err, ctrl_cnt, ctrl_i] at hh
    exact hh
  have hDerr : (run (fun k => f (256 + (300 + (128 + k)))) 300
      (run (fun k => f (256 + (300 + k))) 128
        (run (fun k => f (256 + k)) 300 (run f 256 s)))).sf3_err_count_val =
      s.sf3_err_count_val := by
    have hh := congrArg Ctrl.sf3_err_count_val hD
    simp only [ctrl_mode, ctrl_prev, ctrl_saz, ctrl_addr, ctrl_sel, ctrl_startv, ctrl_incrv, ctrl_track, ctrl_pass, ctrl_done, ctrl_err, ctrl_cnt, ctrl_i] at hh
    exact hh
  have e4 : run (fun k => f (256 + (300 + (128 + k)))) 728
      (run (fun k => f (256 + (300 + k))) 128
        (run (fun k => f (256 + k)) 300 (run f 256 s))) =
      run (fun k => f (256 + (300 + (128 + (300 + k))))) 428
        (run (fun k => f (256 + (300 + (128 + k)))) 300
          (run (fun k => f (256 + (300 + k))) 128
            (run (fun k => f (256 + k)) 300 (run f 256 s)))) := by
    have h0 : (728 : Nat) = 300 + 428 := by norm_num
    rw [h0, run_add]
  -- read phase: 128 ticks, fault-free, data matches the programmed pattern
  obtain ⟨hE0, hEf0⟩ := read_phase (fun k => f (256 + (300 + (128 + (300 + k)))))
    (run (fun k => f (256 + (300 + (128 + k)))) 300
      (run (fun k => f (256 + (300 + k))) 128
        (run (fun k => f (256 + k)) 300 (run f 256 s))))
    (fun j => patternByte s.sf3_pattern_start_val s.sf3_pattern_incr_val j) false
    hDm hDp hDc hDi (by rw [hDtrack, hDstartv]) (by rw [hDerr]; exact herr0)
    (by rw [hDaddr]; exact haddrU) (fun t _ => hok _)
    (by
      intro k hk j hj
      rw [hDf, hDaddr]
      have hin : s.sf3_addr_start_val ≤ s.sf3_addr_start_val + k * 256 + j ∧
          s.sf3_addr_start_val + k * 256 + j < s.sf3_addr_start_val + 1048576 := by
        omega
      rw [if_neg Bool.false_ne_true, hCf (s.sf3_addr_start_val + k * 256 + j), if_pos hin]
      have harg : (s.sf3_addr_start_val + k * 256 + j - s.sf3_addr_start_val) % 256 = j := by
        omega
      rw [harg])
    128 (Nat.le_refl _)
  have hM0 : misCountG
      (fun j => patternByte s.sf3_pattern_start_val s.sf3_pattern_incr_val j)
      s.sf3_pattern_incr_val 0 SF3_PAGE_SIZE s.sf3_pattern_start_val = 0 := by
    apply misCountG_zero _ _ SF3_PAGE_SIZE 0 s.sf3_pattern_start_val hsv
    intro j hj
    rw [Nat.zero_add]
    rfl
  have hE : ctrl (run (fun k => f (256 + (300 + (128 + (300 + k))))) 128
      (run (fun k => f (256 + (300 + (128 + k)))) 300
        (run (fun k => f (256 + (300 + k))) 128
          (run (fun k => f (256 + k)) 300 (run f 256 s))))) =
      { ctrl s with
          operatingMode := ST_CMD_READ_DONE
          operatingModePrev := ST_CMD_READ_DONE
          sf3_i_val := 4096
          sf3_pattern_track_val := s.sf3_pattern_start_val
          cnt_t := 0 } := by
    rw [hE0, hD, hDstartv, hDincrv, hDerr, hM0]
    have hz : (s.sf3_err_count_val + 32 * 128 * 0) % U32 = s.sf3_err_count_val := by
      rw [Nat.mul_zero, Nat.add_zero]
      exact Nat.mod_eq_of_lt herr0
    rw [hz]
    norm_num
    rfl
  have hEm : (run (fun k => f (256 + (300 + (128 + (300 + k))))) 128
      (run (fun k => f (256 + (300 + (128 + k)))) 300
        (run (fun k => f (256 + (300 + k))) 128
          (run (fun k => f (256 + k)) 300 (run f 256 s))))).operatingMode =
      ST_CMD_READ_DONE := by
    have hh := congrArg Ctrl.operatingMode hE
    simp only [ctrl_mode, ctrl_prev, ctrl_saz, ctrl_addr, ctrl_sel, ctrl_startv, ctrl_incrv, ctrl_track, ctrl_pass, ctrl_done, ctrl_err, ctrl_cnt, ctrl_i] at hh
    exact hh
  have hEp : (run (fun k => f (256 + (300 + (128 + (300 + k))))) 128
      (run (fun k => f (256 + (300 + (128 + k)))) 300
        (run (fun k => f (256 + (300 + k))) 128
          (run (fun k => f (256 + k)) 300 (run f 256 s))))).operatingModePrev =
      ST_CMD_READ_DONE := by
    have hh := congrArg Ctrl.operatingModePrev hE
    simp only [ctrl_mode, ctrl_prev, ctrl_saz, ctrl_addr, ctrl_sel, ctrl_startv, ctrl_incrv, ctrl_track, ctrl_pass, ctrl_done, ctrl_err, ctrl_cnt, ctrl_i] at hh
    exact hh
  have hEc : (run (fun k => f (256 + (300 + (128 + (300 + k))))) 128
      (run (fun k => f (256 + (300 + (128 + k)))) 300
        (run (fun k => f (256 + (300 + k))) 128
          (run (fun k => f (256 + k)) 300 (run f 256 s))))).cnt_t = 0 := by
    have hh := congrArg Ctrl.cnt_t hE
    simp only [ctrl_mode, ctrl_prev, ctrl_saz, ctrl_addr, ctrl_sel, ctrl_startv, ctrl_incrv, ctrl_track, ctrl_pass, ctrl_done, ctrl_err, ctrl_cnt, ctrl_i] at hh
    exact hh
  have hEstartv : (run (fun k => f (256 + (300 + (128 + (300 + k))))) 128
      (run (fun k => f (256 + (300 + (128 + k)))) 300
        (run (fun k => f (256 + (300 + k))) 128
          (run (fun k => f (256 + k)) 300 (run f 256 s))))).sf3_pattern_start_val =
      s.sf3_pattern_start_val := by
    have hh := congrArg Ctrl.sf3_pattern_start_val hE
    simp only [ctrl_mode, ctrl_prev, ctrl_saz, ctrl_addr, ctrl_sel, ctrl_startv, ctrl_incrv, ctrl_track, ctrl_pass, ctrl_done, ctrl_err, ctrl_cnt, ctrl_i] at hh
    exact hh
  have e5 : run (fun k => f (256 + (300 + (128 + (300 + k))))) 428
      (run (fun k => f (256 + (300 + (128 + k)))) 300
        (run (fun k => f (256 + (300 + k))) 128
          (run (fun k => f (256 + k)) 300 (run f 256 s)))) =
      run (fun k => f (256 + (300 + (128 + (300 + (128 + k)))))) 300
        (run (fun k => f (256 + (300 + (128 + (300 + k))))) 128
          (run (fun k => f (256 + (300 + (128 + k)))) 300
            (run (fun k => f (256 + (300 + k))) 128
              (run (fun k => f (256 + k)) 300 (run f 256 s))))) := by
    have h0 : (428 : Nat) = 128 + 300 := by norm_num
    rw [h0, run_add]
  -- read-done dwell: 300 ticks
  obtain ⟨hF0, _⟩ := dwell_phase (fun k => f (256 + (300 + (128 + (300 + (128 + k))))))
    (run (fun k => f (256 + (300 + (128 + (300 + k))))) 128
      (run (fun k => f (256 + (300 + (128 + k)))) 300
        (run (fun k => f (256 + (300 + k))) 128
          (run (fun k => f (256 + k)) 300 (run f 256 s)))))
    (Or.inr (Or.inr hEm)) (by rw [hEp, hEm]) hEc
  rw [e1, e2, e3, e4, e5, hF0, hEm, hE, hEstartv]
  rfl

/-- C1: for every region start offset and every one of the four patterns,
running one full pass of the FSM (erase phase, program phase, read phase)
against a fault-free flash model in which a page read returns exactly the
bytes last programmed at that address yields `errorCount == 0` at entry to
`ST_DISPLAY_FINAL` (reached after exactly 1412 ticks from the erase-phase
entry), and `ST_DISPLAY_FINAL` latches `passed == true` on its first tick. -/
theorem C1_full_pass_fault_free (f : Nat → TickInput) (s : ExperimentData) (p : TestPattern)
    (hp : p ≠ TEST_PATTERN_NONE)
    (hstartv : s.sf3_pattern_start_val = patternStartvalOf p)
    (hincrv : s.sf3_pattern_incr_val = patternIncrvalOf p)
    (hm : s.operatingMode = ST_CMD_ERASE_START)
    (hprev : s.operatingModePrev = ST_CMD_ERASE_START)
    (hcnt : s.cnt_t = 0)
    (hi : s.sf3_i_val = 0)
    (herr : s.sf3_err_count_val = 0)
    (haddr : s.sf3_addr_start_val ≤ last_starting_byte_addr)
    (hok : ∀ t, (f t).opFail = false) :
    (run f 1412 s).operatingMode = ST_DISPLAY_FINAL ∧
    (run f 1412 s).sf3_err_count_val = 0 ∧
    (run f 1413 s).sf3_test_pass = true := by
  have hsv : s.sf3_pattern_start_val < U8 := by
    rw [hstartv]
    rcases p <;> decide
  have herrU : s.sf3_err_count_val < U32 := by
    rw [herr]
    exact U32_pos
  have hP := pass_composition f s hm hprev hcnt hi hsv haddr herrU hok
  have hFm : (run f 1412 s).operatingMode = ST_DISPLAY_FINAL := by
    have hh := congrArg Ctrl.operatingMode hP
    simp only [ctrl_mode] at hh
    exact hh
  have hFp : (run f 1412 s).operatingModePrev = ST_DISPLAY_FINAL := by
    have hh := congrArg Ctrl.operatingModePrev hP
    simp only [ctrl_prev] at hh
    exact hh
  have hFc : (run f 1412 s).cnt_t = 0 := by
    have hh := congrArg Ctrl.cnt_t hP
    simp only [ctrl_cnt] at hh
    exact hh
  have hFe : (run f 1412 s).sf3_err_count_val = 0 := by
    have hh := congrArg Ctrl.sf3_err_count_val hP
    simp only [ctrl_err] at hh
    rw [hh, herr]
  refine ⟨hFm, hFe, ?_⟩
  have h13 : (1413 : Nat) = 1412 + 1 := by norm_num
  rw [h13, run_succ]
  have hne : (run f 1412 s).cnt_t ≠ cnt_t_max - 1 := by
    rw [hFc, cnt_t_max_eq]
    omega
  have hT := tick_displayFinal_stay (f 1412) (run f 1412 s) hFm hFp hne
  have hh := congrArg Ctrl.sf3_test_pass hT
  simp only [ctrl_pass] at hh
  rw [hh, hFe]
  decide

/-- Closed witness for C1: the concrete state entering the erase phase at
region offset 0 with pattern A selected, all device calls succeeding. -/
theorem C1_full_pass_fault_free_witness :
    (run (fun _ => ⟨0, 0, false, false⟩) 1412
      { zeroData (fun _ => 0) with
          operatingMode := ST_CMD_ERASE_START
          operatingModePrev := ST_CMD_ERASE_START
          sf3_pattern_start_val := sf3_test_pattern_startval_a
          sf3_pattern_incr_val := sf3_test_pattern_incrval_a }).operatingMode =
      ST_DISPLAY_FINAL ∧
    (run (fun _ => ⟨0, 0, false, false⟩) 1412
      { zeroData (fun _ => 0) with
          operatingMode := ST_CMD_ERASE_START
          operatingModePrev := ST_CMD_ERASE_START
          sf3_pattern_start_val := sf3_test_pattern_startval_a
          sf3_pattern_incr_val := sf3_test_pattern_incrval_a }).sf3_err_count_val = 0 ∧
    (run (fun _ => ⟨0, 0, false, false⟩) 1413
      { zeroData (fun _ => 0) with
          operatingMode := ST_CMD_ERASE_START
          operatingModePrev := ST_CMD_ERASE_START
          sf3_pattern_start_val := sf3_test_pattern_startval_a
          sf3_pattern_incr_val := sf3_test_pattern_incrval_a }).sf3_test_pass = true :=
  C1_full_pass_fault_free (fun _ => ⟨0, 0, false, false⟩) _ TEST_PATTERN_A
    (by decide) rfl rfl rfl rfl rfl rfl rfl (by decide) (fun t => rfl)

/-- C3: refuted — the `ST_CMD_READ_START` buffer-clearing loop does not
stay within the declared bounds of `ReadBuffer`.  At loop index
`iByte = 256` (in range, since the loop bound is
`SF3_PAGE_SIZE + SF3_READ_MIN_EXTRA_BYTES = 260`) the written index
`iByte + SF3_READ_MIN_EXTRA_BYTES = 260` is not below the declared length
260, and the loop model does write position 260: the first out-of-bounds
cell of a fresh buffer is overwritten with 0. -/
theorem C3_read_clear_overruns_buffer :
    (256 < SF3_PAGE_SIZE + SF3_READ_MIN_EXTRA_BYTES ∧
      ¬ (256 + SF3_READ_MIN_EXTRA_BYTES < SF3_PAGE_SIZE + SF3_READ_MIN_EXTRA_BYTES)) ∧
    ¬ clearLoopWritesInBounds ∧
    clearRB 0 (SF3_PAGE_SIZE + SF3_READ_MIN_EXTRA_BYTES) (fun _ => 1)
      (SF3_PAGE_SIZE + SF3_READ_MIN_EXTRA_BYTES) = 0 := by
  refine ⟨by decide, fun hcl => ?_, ?_⟩
  · have := hcl 256 (by decide)
    exact absurd this (by decide)
  · have h := clearRB_get (SF3_PAGE_SIZE + SF3_READ_MIN_EXTRA_BYTES) 0 (fun _ => 1) 256
      (by decide)
    have he : 0 + 256 + SF3_READ_MIN_EXTRA_BYTES =
        SF3_PAGE_SIZE + SF3_READ_MIN_EXTRA_BYTES := by decide
    rw [he] at h
    exact h

/-- C5: in `ST_WAIT_BUTTON_DEP`, with regions remaining, if at least one of
the four pattern inputs is active (its button word or switch word equals
that pattern's mask), a single tick selects the pattern of the
lowest-ordered active input — scan order A, then B, then C, then D — and
transitions to `ST_WAIT_BUTTON_REL`. -/
theorem C5_input_priority (inp : TickInput) (s : ExperimentData)
    (hm : s.operatingMode = ST_WAIT_BUTTON_DEP)
    (haddr : s.sf3_addr_start_val < last_starting_byte_addr)
    (hactive : patternInputActive inp TEST_PATTERN_A ∨ patternInputActive inp TEST_PATTERN_B ∨
      patternInputActive inp TEST_PATTERN_C ∨ patternInputActive inp TEST_PATTERN_D) :
    (tick inp s).operatingMode = ST_WAIT_BUTTON_REL ∧
    (tick inp s).sf3_test_pattern_selected = firstActivePattern inp := by
  by_cases hA : patternInputActive inp TEST_PATTERN_A
  · have h' : inp.buttons = 1 ∨ inp.switches = 1 := hA
    constructor <;>
      (rcases h' with h | h <;>
        simp [tick, Experiment_operateFSM, Experiment_readUserInputs,
          Experiment_iterationTimer, hm, haddr, h, firstActivePattern, hA,
          BTN0_MASK, BTN1_MASK, BTN2_MASK, BTN3_MASK,
          SWTCH0_MASK, SWTCH1_MASK, SWTCH2_MASK, SWTCH3_MASK])
  · obtain ⟨hA1, hA2⟩ := not_or.mp
      (show ¬ (inp.buttons = 1 ∨ inp.switches = 1) from hA)
    by_cases hB : patternInputActive inp TEST_PATTERN_B
    · have h' : inp.buttons = 2 ∨ inp.switches = 2 := hB
      constructor <;>
        (rcases h' with h | h <;>
          simp [tick, Experiment_operateFSM, Experiment_readUserInputs,
            Experiment_iterationTimer, hm, haddr, hA1, hA2, h, firstActivePattern, hA, hB,
            BTN0_MASK, BTN1_MASK, BTN2_MASK, BTN3_MASK,
            SWTCH0_MASK, SWTCH1_MASK, SWTCH2_MASK, SWTCH3_MASK])
    · obtain ⟨hB1, hB2⟩ := not_or.mp
        (show ¬ (inp.buttons = 2 ∨ inp.switches = 2) from hB)
      by_cases hC : patternInputActive inp TEST_PATTERN_C
      · have h' : inp.buttons = 4 ∨ inp.switches = 4 := hC
        constructor <;>
          (rcases h' with h | h <;>
            simp [tick, Experiment_operateFSM, Experiment_readUserInputs,
              Experiment_iterationTimer, hm, haddr, hA1, hA2, hB1, hB2, h,
              firstActivePattern, hA, hB, hC,
              BTN0_MASK, BTN1_MASK, BTN2_MASK, BTN3_MASK,
              SWTCH0_MASK, SWTCH1_MASK, SWTCH2_MASK, SWTCH3_MASK])
      · obtain ⟨hC1, hC2⟩ := not_or.mp
          (show ¬ (inp.buttons = 4 ∨ inp.switches = 4) from hC)
        have hD : patternInputActive inp TEST_PATTERN_D := by
          rcases hactive with h | h | h | h
          · exact absurd h hA
          · exact absurd h hB
          · exact absurd h hC
          · exact h
        have h' : inp.buttons = 8 ∨ inp.switches = 8 := hD
        constructor <;>
          (rcases h' with h | h <;>
            simp [tick, Experiment_operateFSM, Experiment_readUserInputs,
              Experiment_iterationTimer, hm, haddr, hA1, hA2, hB1, hB2, hC1, hC2, h,
              firstActivePattern, hA, hB, hC, hD,
              BTN0_MASK, BTN1_MASK, BTN2_MASK, BTN3_MASK,
              SWTCH0_MASK, SWTCH1_MASK, SWTCH2_MASK, SWTCH3_MASK])

/-- Closed witness for C5: buttons hold the pattern-B mask while the
switches hold the pattern-A mask; the scan order makes A win. -/
theorem C5_input_priority_witness :
    (tick ⟨BTN1_MASK, SWTCH0_MASK, false, false⟩ (zeroData fun _ => 0)).operatingMode =
      ST_WAIT_BUTTON_REL ∧
    (tick ⟨BTN1_MASK, SWTCH0_MASK, false, false⟩ (zeroData fun _ => 0)).sf3_test_pattern_selected =
      firstActivePattern ⟨BTN1_MASK, SWTCH0_MASK, false, false⟩ :=
  C5_input_priority ⟨BTN1_MASK, SWTCH0_MASK, false, false⟩ (zeroData fun _ => 0)
    rfl (by decide) (Or.inl (Or.inr rfl))

/-- C6: once the controller idles at the last region start, it refuses
further passes: from any state in `ST_WAIT_BUTTON_DEP` whose region start
offset equals the last region start, every later tick — for every
possible sequence of button and switch inputs — leaves the mode at
`ST_WAIT_BUTTON_DEP` with `done` latched true. -/
theorem C6_done_refuses_further_passes (f : Nat → TickInput) (s : ExperimentData)
    (hm : s.operatingMode = ST_WAIT_BUTTON_DEP)
    (haddr : s.sf3_addr_start_val = last_starting_byte_addr) :
    ∀ n, 1 ≤ n →
      (run f n s).operatingMode = ST_WAIT_BUTTON_DEP ∧
      (run f n s).sf3_test_done = true := by
  have key : ∀ n, (run f n s).operatingMode = ST_WAIT_BUTTON_DEP ∧
      (run f n s).sf3_addr_start_val = last_starting_byte_addr ∧
      (1 ≤ n → (run f n s).sf3_test_done = true) := by
    intro n
    induction n with
    | zero => exact ⟨hm, haddr, by omega⟩
    | succ n ih =>
        obtain ⟨ihm, iha, _⟩ := ih
        have hlt : ¬ (run f n s).sf3_addr_start_val < last_starting_byte_addr := by
          rw [iha]
          omega
        have hT := tick_waitDep_done (f n) (run f n s) ihm hlt
        have h1 : (tick (f n) (run f n s)).operatingMode = ST_WAIT_BUTTON_DEP := by
          have hh := congrArg Ctrl.operatingMode hT
          simp only [ctrl_mode] at hh
          rw [hh, ihm]
        have h2 : (tick (f n) (run f n s)).sf3_addr_start_val = last_starting_byte_addr := by
          have hh := congrArg Ctrl.sf3_addr_start_val hT
          simp only [ctrl_addr] at hh
          rw [hh, iha]
        have h3 : (tick (f n) (run f n s)).sf3_test_done = true := by
          have hh := congrArg Ctrl.sf3_test_done hT
          simp only [ctrl_done] at hh
          exact hh
        exact ⟨by rw [run_succ]; exact h1, by rw [run_succ]; exact h2,
          fun _ => by rw [run_succ]; exact h3⟩
  intro n hn
  exact ⟨(key n).1, (key n).2.2 hn⟩

/-- Closed witness for C6: the idle state at the last region start; after
one tick the mode is still idle and `done` is latched. -/
theorem C6_done_refuses_further_passes_witness :
    (run (fun _ => ⟨BTN0_MASK, 0, false, false⟩) 1
      { zeroData (fun _ => 0) with
          sf3_addr_start_val := last_starting_byte_addr }).operatingMode =
      ST_WAIT_BUTTON_DEP ∧
    (run (fun _ => ⟨BTN0_MASK, 0, false, false⟩) 1
      { zeroData (fun _ => 0) with
          sf3_addr_start_val := last_starting_byte_addr }).sf3_test_done = true :=
  C6_done_refuses_further_passes (fun _ => ⟨BTN0_MASK, 0, false, false⟩)
    { zeroData (fun _ => 0) with sf3_addr_start_val := last_starting_byte_addr }
    rfl rfl 1 (Nat.le_refl 1)

/-! ### Per-mode address preservation (for the C7 invariant) -/

theorem batch_pageIter_addr (inp : TickInput) :
    ∀ (n : Nat) (s : ExperimentData),
      (batch pageIter inp n s).1.sf3_addr_start_val = s.sf3_addr_start_val := by
  intro n
  induction n with
  | zero => intro s; rfl
  | succ n ih =>
      intro s
      rw [batch_fst_succ, ih]
      rfl

theorem batch_readIter_addr (inp : TickInput) :
    ∀ (n : Nat) (s : ExperimentData),
      (batch readIter inp n s).1.sf3_addr_start_val = s.sf3_addr_start_val := by
  intro n
  induction n with
  | zero => intro s; rfl
  | succ n ih =>
      intro s
      rw [batch_fst_succ, ih]
      rfl

/-- C7: the region start offset is a multiple of the per-region byte span
and never exceeds the last valid region start: the property holds in the
initial state and is preserved by every FSM tick, hence it holds in every
reachable state. -/
theorem C7_region_offset_invariant (F0 : Nat → Nat) :
    addrInv (initState F0) ∧
    (∀ (inp : TickInput) (s : ExperimentData), addrInv s → addrInv (tick inp s)) ∧
    (∀ (f : Nat → TickInput) (n : Nat), addrInv (run f n (initState F0))) := by
  have hinit : addrInv (initState F0) := by
    have h0 : (initState F0).sf3_addr_start_val = 0 := rfl
    unfold addrInv
    rw [h0]
    exact ⟨Nat.zero_mod _, Nat.zero_le _⟩
  have hpres : ∀ (inp : TickInput) (s : ExperimentData), addrInv s → addrInv (tick inp s) := by
    intro inp s h
    obtain ⟨h1, h2⟩ := h
    cases hmode : s.operatingMode
    case ST_SET_START_ADDR =>
      rcases Bool.eq_false_or_eq_true s.sf3_start_at_zero with hz | hz
      · have he : (tick inp s).sf3_addr_start_val = 0 := by
          simp [tick, Experiment_operateFSM, Experiment_readUserInputs,
            Experiment_iterationTimer, hmode, hz]
        constructor
        · rw [he]
          simp
        · rw [he]
          exact Nat.zero_le _
      · by_cases hlt : s.sf3_addr_start_val < last_starting_byte_addr
        · have he : (tick inp s).sf3_addr_start_val =
              (s.sf3_addr_start_val + per_iteration_byte_count) % U32 := by
            simp [tick, Experiment_operateFSM, Experiment_readUserInputs,
              Experiment_iterationTimer, hmode, hz, hlt]
          have hmod : (s.sf3_addr_start_val + per_iteration_byte_count) % U32 =
              s.sf3_addr_start_val + per_iteration_byte_count := by
            apply Nat.mod_eq_of_lt
            rw [per_iteration_byte_count_eq, U32_eq]
            rw [last_starting_byte_addr_eq] at h2
            omega
          constructor
          · rw [he, hmod, per_iteration_byte_count_eq]
            rw [per_iteration_byte_count_eq] at h1
            omega
          · rw [he, hmod, last_starting_byte_addr_eq, per_iteration_byte_count_eq]
            rw [last_starting_byte_addr_eq] at hlt
            rw [per_iteration_byte_count_eq] at h1
            omega
        · have he : (tick inp s).sf3_addr_start_val = s.sf3_addr_start_val := by
            simp [tick, Experiment_operateFSM, Experiment_readUserInputs,
              Experiment_iterationTimer, hmode, hz, hlt]
          exact ⟨he ▸ h1, he ▸ h2⟩
    case ST_WAIT_BUTTON_DEP =>
      have he : (tick inp s).sf3_addr_start_val = s.sf3_addr_start_val := by
        simp only [tick, Experiment_operateFSM, Experiment_readUserInputs,
          Experiment_iterationTimer, hmode]
        split <;> (try split) <;> (try split) <;> (try split) <;> (try split) <;> rfl
      exact ⟨he ▸ h1, he ▸ h2⟩
    case ST_WAIT_BUTTON_REL =>
      have he : (tick inp s).sf3_addr_start_val = s.sf3_addr_start_val := by
        simp only [tick, Experiment_operateFSM, Experiment_readUserInputs,
          Experiment_iterationTimer, hmode]
        split <;> rfl
      exact ⟨he ▸ h1, he ▸ h2⟩
    case ST_SET_PATTERN =>
      have he : (tick inp s).sf3_addr_start_val = s.sf3_addr_start_val := by
        simp only [tick, Experiment_operateFSM, Experiment_readUserInputs,
          Experiment_iterationTimer, hmode]
        rcases s.sf3_test_pattern_selected <;> rfl
      exact ⟨he ▸ h1, he ▸ h2⟩
    case ST_SET_START_WAIT =>
      have he : (tick inp s).sf3_addr_start_val = s.sf3_addr_start_val := by
        simp only [tick, Experiment_operateFSM, Experiment_readUserInputs,
          Experiment_iterationTimer, hmode]
        split <;> rfl
      exact ⟨he ▸ h1, he ▸ h2⟩
    case ST_CMD_ERASE_START =>
      have he : (tick inp s).sf3_addr_start_val = s.sf3_addr_start_val := by
        simp only [tick, Experiment_operateFSM, Experiment_readUserInputs,
          Experiment_iterationTimer, eraseStep, hmode]
      exact ⟨he ▸ h1, he ▸ h2⟩
    case ST_CMD_ERASE_DONE =>
      have he : (tick inp s).sf3_addr_start_val = s.sf3_addr_start_val := by
        simp only [tick, Experiment_operateFSM, Experiment_readUserInputs,
          Experiment_iterationTimer, hmode]
        split <;> rfl
      exact ⟨he ▸ h1, he ▸ h2⟩
    case ST_CMD_PAGE_START =>
      have he : (tick inp s).sf3_addr_start_val = s.sf3_addr_start_val := by
        have hT : (tick inp s).sf3_addr_start_val =
            (Experiment_operateFSM inp (Experiment_readUserInputs inp s)).1.sf3_addr_start_val :=
          rfl
        have hr : (Experiment_operateFSM inp (Experiment_readUserInputs inp s)).1 =
            (batch pageIter inp 32 (Experiment_readUserInputs inp s)).1 := by
          simp [Experiment_operateFSM, Experiment_readUserInputs, hmode]
        rw [hT, hr, batch_pageIter_addr]
        rfl
      exact ⟨he ▸ h1, he ▸ h2⟩
    case ST_CMD_PAGE_DONE =>
      have he : (tick inp s).sf3_addr_start_val = s.sf3_addr_start_val := by
        simp only [tick, Experiment_operateFSM, Experiment_readUserInputs,
          Experiment_iterationTimer, hmode]
        split <;> rfl
      exact ⟨he ▸ h1, he ▸ h2⟩
    case ST_CMD_READ_START =>
      have he : (tick inp s).sf3_addr_start_val = s.sf3_addr_start_val := by
        have hT : (tick inp s).sf3_addr_start_val =
            (Experiment_operateFSM inp (Experiment_readUserInputs inp s)).1.sf3_addr_start_val :=
          rfl
        have hr : (Experiment_operateFSM inp (Experiment_readUserInputs inp s)).1 =
            (batch readIter inp 32 (Experiment_readUserInputs inp s)).1 := by
          simp [Experiment_operateFSM, Experiment_readUserInputs, hmode]
        rw [hT, hr, batch_readIter_addr]
        rfl
      exact ⟨he ▸ h1, he ▸ h2⟩
    case ST_CMD_READ_DONE =>
      have he : (tick inp s).sf3_addr_start_val = s.sf3_addr_start_val := by
        simp only [tick, Experiment_operateFSM, Experiment_readUserInputs,
          Experiment_iterationTimer, hmode]
        split <;> rfl
      exact ⟨he ▸ h1, he ▸ h2⟩
    case ST_DISPLAY_FINAL =>
      have he : (tick inp s).sf3_addr_start_val = s.sf3_addr_start_val := by
        simp only [tick, Experiment_operateFSM, Experiment_readUserInputs,
          Experiment_iterationTimer, hmode]
        split <;> rfl
      exact ⟨he ▸ h1, he ▸ h2⟩
    case OPERATING_MODE_NONE =>
      have he : (tick inp s).sf3_addr_start_val = s.sf3_addr_start_val := by
        simp only [tick, Experiment_operateFSM, Experiment_readUserInputs,
          Experiment_iterationTimer, hmode]
      exact ⟨he ▸ h1, he ▸ h2⟩
  refine ⟨hinit, hpres, ?_⟩
  intro f n
  induction n with
  | zero => exact hinit
  | succ n ih => exact hpres (f n) _ ih

/-- Closed witness for C7: the invariant is preserved across the first
tick from the initial state. -/
theorem C7_region_offset_invariant_witness :
    addrInv (initState fun _ => 0) ∧
    addrInv (tick ⟨0, 0, false, false⟩ (initState fun _ => 0)) ∧
    addrInv (run (fun _ => ⟨0, 0, false, false⟩) 2 (initState fun _ => 0)) := by
  obtain ⟨h1, h2, h3⟩ := C7_region_offset_invariant (fun _ => 0)
  exact ⟨h1, h2 ⟨0, 0, false, false⟩ _ h1, h3 (fun _ => ⟨0, 0, false, false⟩) 2⟩

/-- C10: display and console emission is rate-limited by the free-running
counter: the render function emits exactly one display event and one
console event when `cnt_t_freerun % (cnt_t_max / 15) = 0`, emits nothing
otherwise, never emits more than one of each per tick, and within one
timeout period (`cnt_t_freerun < cnt_t_max = 300`) the firing indices are
exactly `20 * k` for `k < 15`, i.e. `0, 20, 40, …, 280`. -/
theorem C10_display_rate_limit (s : ExperimentData) :
    (s.cnt_t_freerun % (cnt_t_max / 15) = 0 →
      (Experiment_updateClsDisplayAndTerminal s).1.length = 1 ∧
      (Experiment_updateClsDisplayAndTerminal s).2.length = 1) ∧
    (s.cnt_t_freerun % (cnt_t_max / 15) ≠ 0 →
      (Experiment_updateClsDisplayAndTerminal s).1 = [] ∧
      (Experiment_updateClsDisplayAndTerminal s).2 = []) ∧
    (Experiment_updateClsDisplayAndTerminal s).1.length ≤ 1 ∧
    (Experiment_updateClsDisplayAndTerminal s).2.length ≤ 1 ∧
    (s.cnt_t_freerun < cnt_t_max →
      (s.cnt_t_freerun % (cnt_t_max / 15) = 0 ↔
        ∃ k, k < 15 ∧ s.cnt_t_freerun = 20 * k)) := by
  have h20 : cnt_t_max / 15 = 20 := rfl
  by_cases hc : s.cnt_t_freerun % (cnt_t_max / 15) = 0
  · have he : Experiment_updateClsDisplayAndTerminal s =
        ([(Experiment_generateTextLine1 s, Experiment_generateTextLine2 s)],
         [(Experiment_generateTextLine1 s, Experiment_generateTextLine2 s)]) := by
      unfold Experiment_updateClsDisplayAndTerminal
      simp [hc]
    refine ⟨fun _ => ⟨by rw [he]; rfl, by rw [he]; rfl⟩,
      fun hn => absurd hc hn, ?_, ?_, ?_⟩
    · rw [he]
      exact Nat.le_refl 1
    · rw [he]
      exact Nat.le_refl 1
    · intro hlt
      rw [h20] at hc
      rw [cnt_t_max_eq] at hlt
      constructor
      · intro _
        refine ⟨s.cnt_t_freerun / 20, by omega, by omega⟩
      · intro _
        rw [h20]
        exact hc
  · have he : Experiment_updateClsDisplayAndTerminal s = ([], []) := by
      unfold Experiment_updateClsDisplayAndTerminal
      simp [hc]
    refine ⟨fun h0 => absurd h0 hc, fun _ => ⟨by rw [he], by rw [he]⟩, ?_, ?_, ?_⟩
    · rw [he]
      exact Nat.zero_le 1
    · rw [he]
      exact Nat.zero_le 1
    · intro hlt
      rw [h20] at hc
      rw [cnt_t_max_eq] at hlt
      rw [h20]
      constructor
      · intro h0
        exact absurd h0 hc
      · rintro ⟨k, hk, hke⟩
        exact absurd (by omega : s.cnt_t_freerun % 20 = 0) hc

/-- Closed witness for C10: at free-run index 0 exactly one event of each
kind is emitted, and at index 1 nothing is emitted. -/
theorem C10_display_rate_limit_witness :
    (Experiment_updateClsDisplayAndTerminal (zeroData fun _ => 0)).1.length = 1 ∧
    (Experiment_updateClsDisplayAndTerminal
      { zeroData (fun _ => 0) with cnt_t_freerun := 1 }).1 = [] :=
  ⟨((C10_display_rate_limit (zeroData fun _ => 0)).1 (by decide)).1,
   (((C10_display_rate_limit
      { zeroData (fun _ => 0) with cnt_t_freerun := 1 }).2.1) (by decide)).1⟩

/-- C9: a failed flash device call during the erase phase is non-fatal
and does not alter sequencing.  In `ST_CMD_ERASE_START`, every tick
enqueues exactly one console message per failed call (`wenFail` for a
failed write-enable, `ersFail` at the subsector command address for a
failed sector erase) and nothing else, the sub-operation index is still
incremented by one, and — for EVERY input sequence `f`, failing or not —
the mode stays `ST_CMD_ERASE_START` for the first 255 ticks and reaches
`ST_CMD_ERASE_DONE` after exactly 256 ticks, the same schedule as the
failure-free run. -/
theorem C9_erase_failure_nonfatal (f : Nat → TickInput) (s : ExperimentData)
    (hm : s.operatingMode = ST_CMD_ERASE_START)
    (hprev : s.operatingModePrev = ST_CMD_ERASE_START)
    (hcnt : s.cnt_t = 0)
    (hi : s.sf3_i_val = 0) :
    (∀ (inp : TickInput) (s₁ : ExperimentData),
        s₁.operatingMode = ST_CMD_ERASE_START →
        tickMsgs inp s₁ =
          (if inp.wenFail then [ConsoleMsg.wenFail] else []) ++
          (if inp.opFail then
            [ConsoleMsg.ersFail
              ((s₁.sf3_addr_start_val + s₁.sf3_i_val * sf3_subsector_addr_incr) % U32)]
           else []) ∧
        (tick inp s₁).sf3_i_val = (s₁.sf3_i_val + 1) % U32) ∧
    (∀ k, k ≤ 256 →
      (run f k s).operatingMode =
        if k < 256 then ST_CMD_ERASE_START else ST_CMD_ERASE_DONE) := by
  constructor
  · intro inp s₁ hm1
    constructor
    · simp [tickMsgs, Experiment_operateFSM, Experiment_readUserInputs, eraseStep, hm1]
    · simp [tick, Experiment_operateFSM, Experiment_readUserInputs,
        Experiment_iterationTimer, eraseStep, hm1]
  · intro k hk
    have h := erase_phase f s hm hprev hcnt hi k hk
    have hh := congrArg Ctrl.operatingMode h
    simp only [ctrl_mode] at hh
    exact hh

/-- Closed witness for C9: with both device calls failing on every tick,
the first erase tick from a fresh erase state emits exactly the
write-enable failure message and the erase failure message for subsector
address 0, and the FSM still reaches `ST_CMD_ERASE_DONE` after exactly
256 ticks. -/
theorem C9_erase_failure_nonfatal_witness :
    tickMsgs ⟨0, 0, true, true⟩
      { zeroData (fun _ => 0) with
          operatingMode := ST_CMD_ERASE_START
          operatingModePrev := ST_CMD_ERASE_START } =
      [ConsoleMsg.wenFail, ConsoleMsg.ersFail 0] ∧
    (run (fun _ => ⟨0, 0, true, true⟩) 256
      { zeroData (fun _ => 0) with
          operatingMode := ST_CMD_ERASE_START
          operatingModePrev := ST_CMD_ERASE_START }).operatingMode =
      ST_CMD_ERASE_DONE := by
  have h := C9_erase_failure_nonfatal (fun _ => ⟨0, 0, true, true⟩)
    { zeroData (fun _ => 0) with
        operatingMode := ST_CMD_ERASE_START
        operatingModePrev := ST_CMD_ERASE_START } rfl rfl rfl rfl
  constructor
  · have h1 := (h.1 ⟨0, 0, true, true⟩
      { zeroData (fun _ => 0) with
          operatingMode := ST_CMD_ERASE_START
          operatingModePrev := ST_CMD_ERASE_START } rfl).1
    simpa using h1
  · have h2 := h.2 256 (by omega)
    simpa using h2

/-! ### Mode/index characterisations of single ticks (for the C8 invariant) -/

theorem tick_eraseStart_char (inp : TickInput) (s : ExperimentData)
    (hm : s.operatingMode = ST_CMD_ERASE_START)
    (hiU : s.sf3_i_val + 1 < U32) :
    (tick inp s).operatingMode =
      (if s.sf3_i_val + 1 < experi_subsector_cnt_per_iter then ST_CMD_ERASE_START
       else ST_CMD_ERASE_DONE) ∧
    (tick inp s).sf3_i_val = s.sf3_i_val + 1 := by
  have hmod : (s.sf3_i_val + 1) % U32 = s.sf3_i_val + 1 := Nat.mod_eq_of_lt hiU
  constructor
  · simp [tick, Experiment_operateFSM, Experiment_readUserInputs,
      Experiment_iterationTimer, eraseStep, hm, hmod]
  · simp [tick, Experiment_operateFSM, Experiment_readUserInputs,
      Experiment_iterationTimer, eraseStep, hm, hmod]

theorem tick_pageStart_char (inp : TickInput) (s : ExperimentData)
    (hm : s.operatingMode = ST_CMD_PAGE_START)
    (hi32 : s.sf3_i_val + 32 ≤ experi_page_cnt_per_iter) :
    (tick inp s).operatingMode =
      (if s.sf3_i_val + 32 < experi_page_cnt_per_iter then ST_CMD_PAGE_START
       else ST_CMD_PAGE_DONE) ∧
    (tick inp s).sf3_i_val = s.sf3_i_val + 32 := by
  have hr : (Experiment_operateFSM inp (Experiment_readUserInputs inp s)).1 =
      (batch pageIter inp 32 (Experiment_readUserInputs inp s)).1 := by
    simp [Experiment_operateFSM, Experiment_readUserInputs, hm]
  have hb := batch_pageIter_ctrl inp 32 (Experiment_readUserInputs inp s) hi32
  constructor
  · have hcm := congrArg Ctrl.operatingMode hb
    simp only [ctrl_mode] at hcm
    rw [if_neg (by omega : ¬(32 = 0))] at hcm
    exact (congrArg ExperimentData.operatingMode hr).trans hcm
  · have hci := congrArg Ctrl.sf3_i_val hb
    simp only [ctrl_i] at hci
    exact (congrArg ExperimentData.sf3_i_val hr).trans hci

theorem tick_readStart_char (inp : TickInput) (s : ExperimentData)
    (hm : s.operatingMode = ST_CMD_READ_START)
    (hi32 : s.sf3_i_val + 32 ≤ experi_page_cnt_per_iter) :
    (tick inp s).operatingMode =
      (if s.sf3_i_val + 32 < experi_page_cnt_per_iter then ST_CMD_READ_START
       else ST_CMD_READ_DONE) ∧
    (tick inp s).sf3_i_val = s.sf3_i_val + 32 := by
  have hr : (Experiment_operateFSM inp (Experiment_readUserInputs inp s)).1 =
      (batch readIter inp 32 (Experiment_readUserInputs inp s)).1 := by
    simp [Experiment_operateFSM, Experiment_readUserInputs, hm]
  obtain ⟨e, hb⟩ := batch_readIter_ctrl inp 32 (Experiment_readUserInputs inp s) hi32
  constructor
  · have hcm := congrArg Ctrl.operatingMode hb
    simp only [ctrl_mode] at hcm
    rw [if_neg (by omega : ¬(32 = 0))] at hcm
    exact (congrArg ExperimentData.operatingMode hr).trans hcm
  · have hci := congrArg Ctrl.sf3_i_val hb
    simp only [ctrl_i] at hci
    exact (congrArg ExperimentData.sf3_i_val hr).trans hci

/-- The sub-operation index bound `subOpInv` is preserved by every tick. -/
theorem subOpInv_tick (inp : TickInput) (s : ExperimentData)
    (h : subOpInv s) : subOpInv (tick inp s) := by
  obtain ⟨h1, h2, h3⟩ := h
  cases hmode : s.operatingMode
  case ST_WAIT_BUTTON_DEP =>
    have hmode' : (tick inp s).operatingMode = ST_WAIT_BUTTON_DEP ∨
        (tick inp s).operatingMode = ST_WAIT_BUTTON_REL := by
      simp only [tick, Experiment_operateFSM, Experiment_readUserInputs,
        Experiment_iterationTimer, hmode]
      split <;> (try split) <;> (try split) <;> (try split) <;> (try split) <;> simp
    refine ⟨fun hm' => ?_, fun hm' => ?_, fun hm' => ?_⟩
    · rcases hmode' with hx | hx <;> rw [hm'] at hx <;> exact absurd hx (by decide)
    · rcases hmode' with hx | hx <;> rw [hm'] at hx <;> exact absurd hx (by decide)
    · rcases hm' with hm' | hm' <;> rcases hmode' with hx | hx <;>
        rw [hm'] at hx <;> exact absurd hx (by decide)
  case ST_WAIT_BUTTON_REL =>
    have hmode' : (tick inp s).operatingMode = ST_SET_PATTERN ∨
        (tick inp s).operatingMode = ST_WAIT_BUTTON_REL := by
      simp only [tick, Experiment_operateFSM, Experiment_readUserInputs,
        Experiment_iterationTimer, hmode]
      split <;> simp
    refine ⟨fun hm' => ?_, fun hm' => ?_, fun hm' => ?_⟩
    · rcases hmode' with hx | hx <;> rw [hm'] at hx <;> exact absurd hx (by decide)
    · rcases hmode' with hx | hx <;> rw [hm'] at hx <;> exact absurd hx (by decide)
    · rcases hm' with hm' | hm' <;> rcases hmode' with hx | hx <;>
        rw [hm'] at hx <;> exact absurd hx (by decide)
  case ST_SET_PATTERN =>
    have hmode' : (tick inp s).operatingMode = ST_SET_START_ADDR := by
      simp only [tick, Experiment_operateFSM, Experiment_readUserInputs,
        Experiment_iterationTimer, hmode]
    refine ⟨fun hm' => ?_, fun hm' => ?_, fun hm' => ?_⟩
    · rw [hm'] at hmode'; exact absurd hmode' (by decide)
    · rw [hm'] at hmode'; exact absurd hmode' (by decide)
    · rcases hm' with hm' | hm' <;> rw [hm'] at hmode' <;> exact absurd hmode' (by decide)
  case ST_SET_START_ADDR =>
    have hi' : (tick inp s).sf3_i_val = 0 := by
      simp only [tick, Experiment_operateFSM, Experiment_readUserInputs,
        Experiment_iterationTimer, hmode]
    have hmode' : (tick inp s).operatingMode = ST_SET_START_WAIT ∨
        (tick inp s).operatingMode = ST_WAIT_BUTTON_DEP := by
      simp only [tick, Experiment_operateFSM, Experiment_readUserInputs,
        Experiment_iterationTimer, hmode]
      split <;> (try split) <;> simp
    refine ⟨fun _ => hi', fun hm' => ?_, fun hm' => ?_⟩
    · rcases hmode' with hx | hx <;> rw [hm'] at hx <;> exact absurd hx (by decide)
    · rcases hm' with hm' | hm' <;> rcases hmode' with hx | hx <;>
        rw [hm'] at hx <;> exact absurd hx (by decide)
  case ST_SET_START_WAIT =>
    have hi0 : s.sf3_i_val = 0 := h1 hmode
    have hi' : (tick inp s).sf3_i_val = s.sf3_i_val := by
      simp only [tick, Experiment_operateFSM, Experiment_readUserInputs,
        Experiment_iterationTimer, hmode]
      split <;> rfl
    have hmode' : (tick inp s).operatingMode = ST_CMD_ERASE_START ∨
        (tick inp s).operatingMode = ST_SET_START_WAIT := by
      simp only [tick, Experiment_operateFSM, Experiment_readUserInputs,
        Experiment_iterationTimer, hmode]
      split <;> simp
    refine ⟨fun _ => by rw [hi', hi0], fun _ => by rw [hi', hi0]; decide, fun hm' => ?_⟩
    · rcases hm' with hm' | hm' <;> rcases hmode' with hx | hx <;>
        rw [hm'] at hx <;> exact absurd hx (by decide)
  case ST_CMD_ERASE_START =>
    have hlt : s.sf3_i_val < experi_subsector_cnt_per_iter := h2 hmode
    have e1 : experi_subsector_cnt_per_iter = 256 := rfl
    have hiU : s.sf3_i_val + 1 < U32 := by
      rw [e1] at hlt
      rw [U32_eq]
      omega
    obtain ⟨hcm, hci⟩ := tick_eraseStart_char inp s hmode hiU
    by_cases hc : s.sf3_i_val + 1 < experi_subsector_cnt_per_iter
    · rw [if_pos hc] at hcm
      refine ⟨fun hm' => ?_, fun _ => by rw [hci]; exact hc, fun hm' => ?_⟩
      · rw [hm'] at hcm; exact absurd hcm (by decide)
      · rcases hm' with hm' | hm' <;> rw [hm'] at hcm <;> exact absurd hcm (by decide)
    · rw [if_neg hc] at hcm
      refine ⟨fun hm' => ?_, fun hm' => ?_, fun hm' => ?_⟩
      · rw [hm'] at hcm; exact absurd hcm (by decide)
      · rw [hm'] at hcm; exact absurd hcm (by decide)
      · rcases hm' with hm' | hm' <;> rw [hm'] at hcm <;> exact absurd hcm (by decide)
  case ST_CMD_ERASE_DONE =>
    have hi' : (tick inp s).sf3_i_val = 0 := by
      simp only [tick, Experiment_operateFSM, Experiment_readUserInputs,
        Experiment_iterationTimer, hmode]
      split <;> rfl
    have hmode' : (tick inp s).operatingMode = ST_CMD_PAGE_START ∨
        (tick inp s).operatingMode = ST_CMD_ERASE_DONE := by
      simp only [tick, Experiment_operateFSM, Experiment_readUserInputs,
        Experiment_iterationTimer, hmode]
      split <;> simp
    refine ⟨fun hm' => ?_, fun hm' => ?_, fun _ => ?_⟩
    · rcases hmode' with hx | hx <;> rw [hm'] at hx <;> exact absurd hx (by decide)
    · rcases hmode' with hx | hx <;> rw [hm'] at hx <;> exact absurd hx (by decide)
    · rw [hi']
      exact ⟨by decide, by decide⟩
  case ST_CMD_PAGE_START =>
    obtain ⟨hlt, hm32⟩ := h3 (Or.inl hmode)
    have e4 : experi_page_cnt_per_iter = 4096 := rfl
    have hi32 : s.sf3_i_val + 32 ≤ experi_page_cnt_per_iter := by
      rw [e4]
      rw [e4] at hlt
      omega
    obtain ⟨hcm, hci⟩ := tick_pageStart_char inp s hmode hi32
    by_cases hc : s.sf3_i_val + 32 < experi_page_cnt_per_iter
    · rw [if_pos hc] at hcm
      refine ⟨fun hm' => ?_, fun hm' => ?_, fun hm' => ?_⟩
      · rw [hm'] at hcm; exact absurd hcm (by decide)
      · rw [hm'] at hcm; exact absurd hcm (by decide)
      · rcases hm' with hm' | hm'
        · rw [hci]
          exact ⟨hc, by omega⟩
        · rw [hm'] at hcm; exact absurd hcm (by decide)
    · rw [if_neg hc] at hcm
      refine ⟨fun hm' => ?_, fun hm' => ?_, fun hm' => ?_⟩
      · rw [hm'] at hcm; exact absurd hcm (by decide)
      · rw [hm'] at hcm; exact absurd hcm (by decide)
      · rcases hm' with hm' | hm' <;> rw [hm'] at hcm <;> exact absurd hcm (by decide)
  case ST_CMD_PAGE_DONE =>
    have hi' : (tick inp s).sf3_i_val = 0 := by
      simp only [tick, Experiment_operateFSM, Experiment_readUserInputs,
        Experiment_iterationTimer, hmode]
      split <;> rfl
    have hmode' : (tick inp s).operatingMode = ST_CMD_READ_START ∨
        (tick inp s).operatingMode = ST_CMD_PAGE_DONE := by
      simp only [tick, Experiment_operateFSM, Experiment_readUserInputs,
        Experiment_iterationTimer, hmode]
      split <;> simp
    refine ⟨fun hm' => ?_, fun hm' => ?_, fun _ => ?_⟩
    · rcases hmode' with hx | hx <;> rw [hm'] at hx <;> exact absurd hx (by decide)
    · rcases hmode' with hx | hx <;> rw [hm'] at hx <;> exact absurd hx (by decide)
    · rw [hi']
      exact ⟨by decide, by decide⟩
  case ST_CMD_READ_START =>
    obtain ⟨hlt, hm32⟩ := h3 (Or.inr hmode)
    have e4 : experi_page_cnt_per_iter = 4096 := rfl
    have hi32 : s.sf3_i_val + 32 ≤ experi_page_cnt_per_iter := by
      rw [e4]
      rw [e4] at hlt
      omega
    obtain ⟨hcm, hci⟩ := tick_readStart_char inp s hmode hi32
    by_cases hc : s.sf3_i_val + 32 < experi_page_cnt_per_iter
    · rw [if_pos hc] at hcm
      refine ⟨fun hm' => ?_, fun hm' => ?_, fun hm' => ?_⟩
      · rw [hm'] at hcm; exact absurd hcm (by decide)
      · rw [hm'] at hcm; exact absurd hcm (by decide)
      · rcases hm' with hm' | hm'
        · rw [hm'] at hcm; exact absurd hcm (by decide)
        · rw [hci]
          exact ⟨hc, by omega⟩
    · rw [if_neg hc] at hcm
      refine ⟨fun hm' => ?_, fun hm' => ?_, fun hm' => ?_⟩
      · rw [hm'] at hcm; exact absurd hcm (by decide)
      · rw [hm'] at hcm; exact absurd hcm (by decide)
      · rcases hm' with hm' | hm' <;> rw [hm'] at hcm <;> exact absurd hcm (by decide)
  case ST_CMD_READ_DONE =>
    have hmode' : (tick inp s).operatingMode = ST_DISPLAY_FINAL ∨
        (tick inp s).operatingMode = ST_CMD_READ_DONE := by
      simp only [tick, Experiment_operateFSM, Experiment_readUserInputs,
        Experiment_iterationTimer, hmode]
      split <;> simp
    refine ⟨fun hm' => ?_, fun hm' => ?_, fun hm' => ?_⟩
    · rcases hmode' with hx | hx <;> rw [hm'] at hx <;> exact absurd hx (by decide)
    · rcases hmode' with hx | hx <;> rw [hm'] at hx <;> exact absurd hx (by decide)
    · rcases hm' with hm' | hm' <;> rcases hmode' with hx | hx <;>
        rw [hm'] at hx <;> exact absurd hx (by decide)
  case ST_DISPLAY_FINAL =>
    have hmode' : (tick inp s).operatingMode = ST_WAIT_BUTTON_DEP ∨
        (tick inp s).operatingMode = ST_DISPLAY_FINAL := by
      simp only [tick, Experiment_operateFSM, Experiment_readUserInputs,
        Experiment_iterationTimer, hmode]
      split <;> simp
    refine ⟨fun hm' => ?_, fun hm' => ?_, fun hm' => ?_⟩
    · rcases hmode' with hx | hx <;> rw [hm'] at hx <;> exact absurd hx (by decide)
    · rcases hmode' with hx | hx <;> rw [hm'] at hx <;> exact absurd hx (by decide)
    · rcases hm' with hm' | hm' <;> rcases hmode' with hx | hx <;>
        rw [hm'] at hx <;> exact absurd hx (by decide)
  case OPERATING_MODE_NONE =>
    have hmode' : (tick inp s).operatingMode = ST_WAIT_BUTTON_DEP := by
      simp only [tick, Experiment_operateFSM, Experiment_readUserInputs,
        Experiment_iterationTimer, hmode]
    refine ⟨fun hm' => ?_, fun hm' => ?_, fun hm' => ?_⟩
    · rw [hm'] at hmode'; exact absurd hmode' (by decide)
    · rw [hm'] at hmode'; exact absurd hmode' (by decide)
    · rcases hm' with hm' | hm' <;> rw [hm'] at hmode' <;> exact absurd hmode' (by decide)

/-- C8: the sub-operation index never exceeds the per-phase bound (256
subsectors for the erase phase, 4096 pages for the program and read
phases) in any reachable state; at the bound the mode transitions onward
to the corresponding DONE state; and the 32-command batches of
`ST_CMD_PAGE_START` / `ST_CMD_READ_START` advance the index by exactly
one per command and never push it past the bound mid-batch. -/
theorem C8_subop_bound (F0 : Nat → Nat) :
    subOpInv (initState F0) ∧
    (∀ (inp : TickInput) (s : ExperimentData), subOpInv s → subOpInv (tick inp s)) ∧
    (∀ (f : Nat → TickInput) (n : Nat), subOpInv (run f n (initState F0))) ∧
    (∀ (inp : TickInput) (s : ExperimentData),
        s.operatingMode = ST_CMD_ERASE_START →
        s.sf3_i_val + 1 = experi_subsector_cnt_per_iter →
        (tick inp s).operatingMode = ST_CMD_ERASE_DONE) ∧
    (∀ (inp : TickInput) (s : ExperimentData),
        s.operatingMode = ST_CMD_PAGE_START →
        s.sf3_i_val + 32 = experi_page_cnt_per_iter →
        (tick inp s).operatingMode = ST_CMD_PAGE_DONE) ∧
    (∀ (inp : TickInput) (s : ExperimentData),
        s.operatingMode = ST_CMD_READ_START →
        s.sf3_i_val + 32 = experi_page_cnt_per_iter →
        (tick inp s).operatingMode = ST_CMD_READ_DONE) ∧
    (∀ (inp : TickInput) (s : ExperimentData) (j : Nat), j ≤ 32 →
        s.sf3_i_val + 32 ≤ experi_page_cnt_per_iter →
        (batch pageIter inp j s).1.sf3_i_val = s.sf3_i_val + j ∧
        (batch readIter inp j s).1.sf3_i_val = s.sf3_i_val + j ∧
        (batch pageIter inp j s).1.sf3_i_val ≤ experi_page_cnt_per_iter ∧
        (batch readIter inp j s).1.sf3_i_val ≤ experi_page_cnt_per_iter) := by
  have hinit : subOpInv (initState F0) := by
    have hm0 : (initState F0).operatingMode = ST_WAIT_BUTTON_DEP := rfl
    refine ⟨fun hm' => ?_, fun hm' => ?_, fun hm' => ?_⟩
    · rw [hm0] at hm'; exact absurd hm' (by decide)
    · rw [hm0] at hm'; exact absurd hm' (by decide)
    · rcases hm' with hm' | hm' <;> (rw [hm0] at hm'; exact absurd hm' (by decide))
  refine ⟨hinit, subOpInv_tick, ?_, ?_, ?_, ?_, ?_⟩
  · intro f n
    induction n with
    | zero => exact hinit
    | succ n ih => exact subOpInv_tick (f n) _ ih
  · intro inp s hm hb
    have e1 : experi_subsector_cnt_per_iter = 256 := rfl
    have hiU : s.sf3_i_val + 1 < U32 := by
      rw [e1] at hb
      rw [U32_eq]
      omega
    obtain ⟨hcm, _⟩ := tick_eraseStart_char inp s hm hiU
    rw [hcm, if_neg (by omega)]
  · intro inp s hm hb
    have hi32 : s.sf3_i_val + 32 ≤ experi_page_cnt_per_iter := Nat.le_of_eq hb
    obtain ⟨hcm, _⟩ := tick_pageStart_char inp s hm hi32
    rw [hcm, if_neg (by omega)]
  · intro inp s hm hb
    have hi32 : s.sf3_i_val + 32 ≤ experi_page_cnt_per_iter := Nat.le_of_eq hb
    obtain ⟨hcm, _⟩ := tick_readStart_char inp s hm hi32
    rw [hcm, if_neg (by omega)]
  · intro inp s j hj hb
    have hpj : s.sf3_i_val + j ≤ experi_page_cnt_per_iter := by omega
    have hp := batch_pageIter_ctrl inp j s hpj
    obtain ⟨e, hrd⟩ := batch_readIter_ctrl inp j s hpj
    have hpi := congrArg Ctrl.sf3_i_val hp
    simp only [ctrl_i] at hpi
    have hri := congrArg Ctrl.sf3_i_val hrd
    simp only [ctrl_i] at hri
    exact ⟨hpi, hri, by rw [hpi]; omega, by rw [hri]; omega⟩

/-- Closed witness for C8: the invariant holds initially and after three
ticks, and an erase tick at the last subsector index transitions to
`ST_CMD_ERASE_DONE`. -/
theorem C8_subop_bound_witness :
    subOpInv (initState fun _ => 0) ∧
    subOpInv (run (fun _ => ⟨0, 0, false, false⟩) 3 (initState fun _ => 0)) ∧
    (tick ⟨0, 0, false, false⟩
      { zeroData (fun _ => 0) with
          operatingMode := ST_CMD_ERASE_START
          sf3_i_val := 255 }).operatingMode = ST_CMD_ERASE_DONE := by
  obtain ⟨h1, _, h3, h4, _, _, _⟩ := C8_subop_bound (fun _ => 0)
  exact ⟨h1, h3 (fun _ => ⟨0, 0, false, false⟩) 3,
    h4 ⟨0, 0, false, false⟩ _ rfl (by decide)⟩

/-- C4: the pattern generator is deterministic and page-local in both
phases.  In the program phase a page's byte at position `i` is filled
with `(c0 + i*stride) mod 256` for the cursor `c0` at page entry; after
every page body (program or verify) the cursor is reset to the pattern's
start value, regardless of its previous value, so every page starts at
the start byte.  In the verify phase the compare loop adds exactly the
count of positions whose read byte differs from
`(startByte + i*stride) mod 256`, and that count is zero precisely when
every byte matches.  For pattern A (start 0x00, stride 0x01) the page
byte at `i` is `i mod 256`; for pattern D (start 0x18, stride 0x17) it
is `(0x18 + i*0x17) mod 256`. -/
theorem C4_pattern_generator (inp : TickInput) (s : ExperimentData)
    (hc0 : s.sf3_pattern_track_val < U8)
    (hstart : s.sf3_pattern_start_val < U8) :
    (∀ i, i < SF3_PAGE_SIZE →
      (pageIter inp s).1.WriteBuffer (i + SF3_WRITE_EXTRA_BYTES) =
        patternByte s.sf3_pattern_track_val s.sf3_pattern_incr_val i) ∧
    (pageIter inp s).1.sf3_pattern_track_val = s.sf3_pattern_start_val ∧
    (readIter inp s).1.sf3_pattern_track_val = s.sf3_pattern_start_val ∧
    (∀ (buf : Nat → Nat) (err : Nat), err < U32 →
      (cmpLoop s.sf3_pattern_incr_val buf 0 SF3_PAGE_SIZE err s.sf3_pattern_start_val).1 =
        (err + misCountG (fun j => buf (j + SF3_READ_MIN_EXTRA_BYTES))
          s.sf3_pattern_incr_val 0 SF3_PAGE_SIZE s.sf3_pattern_start_val) % U32) ∧
    (∀ (g : Nat → Nat),
      misCountG g s.sf3_pattern_incr_val 0 SF3_PAGE_SIZE s.sf3_pattern_start_val = 0 ↔
        ∀ j, j < SF3_PAGE_SIZE →
          g j = patternByte s.sf3_pattern_start_val s.sf3_pattern_incr_val j) ∧
    sf3_test_pattern_startval_a = 0x00 ∧ sf3_test_pattern_incrval_a = 0x01 ∧
    sf3_test_pattern_startval_d = 0x18 ∧ sf3_test_pattern_incrval_d = 0x17 ∧
    (∀ i, patternByte sf3_test_pattern_startval_a sf3_test_pattern_incrval_a i = i % 256) ∧
    (∀ i, patternByte sf3_test_pattern_startval_d sf3_test_pattern_incrval_d i =
      (0x18 + i * 0x17) % 256) := by
  refine ⟨?_, rfl, rfl, ?_, ?_, rfl, rfl, rfl, rfl, ?_, ?_⟩
  · intro i hi
    have hWB : (pageIter inp s).1.WriteBuffer =
        (fillWB s.sf3_pattern_incr_val 0 SF3_PAGE_SIZE s.WriteBuffer
          s.sf3_pattern_track_val).1 := rfl
    rw [hWB]
    have h0 : i + SF3_WRITE_EXTRA_BYTES = 0 + i + SF3_WRITE_EXTRA_BYTES := by omega
    rw [h0, fillWB_get s.sf3_pattern_incr_val SF3_PAGE_SIZE 0 s.WriteBuffer
      s.sf3_pattern_track_val hc0 i hi]
    rfl
  · intro buf err herr
    exact cmpLoop_fst s.sf3_pattern_incr_val buf SF3_PAGE_SIZE 0 err
      s.sf3_pattern_start_val herr
  · intro g
    have h := misCountG_zero_iff g s.sf3_pattern_incr_val SF3_PAGE_SIZE 0
      s.sf3_pattern_start_val hstart
    simpa [patternByte] using h
  · intro i
    simp [patternByte, sf3_test_pattern_startval_a, sf3_test_pattern_incrval_a, U8]
  · intro i
    simp [patternByte, sf3_test_pattern_startval_d, sf3_test_pattern_incrval_d, U8]

/-- Closed witness for C4: with the zeroed state (cursor 0, stride 0),
the program-phase buffer byte at position 5 is the pattern byte for
position 5, and the verify-phase page body resets the cursor to the
start value. -/
theorem C4_pattern_generator_witness :
    (pageIter ⟨0, 0, false, false⟩ (zeroData fun _ => 0)).1.WriteBuffer
        (5 + SF3_WRITE_EXTRA_BYTES) = patternByte 0 0 5 ∧
    (readIter ⟨0, 0, false, false⟩ (zeroData fun _ => 0)).1.sf3_pattern_track_val = 0 := by
  have h := C4_pattern_generator ⟨0, 0, false, false⟩ (zeroData fun _ => 0)
    (by decide) (by decide)
  exact ⟨h.1 5 (by decide), h.2.2.1⟩

/-! ### Error-counter behaviour per tick (for claim C2) -/

theorem batch_pageIter_err (inp : TickInput) :
    ∀ (n : Nat) (s : ExperimentData),
      (batch pageIter inp n s).1.sf3_err_count_val = s.sf3_err_count_val := by
  intro n
  induction n with
  | zero => intro s; rfl
  | succ n ih =>
      intro s
      rw [batch_fst_succ, ih]
      rfl

theorem readIter_err (inp : TickInput) (s : ExperimentData)
    (herr : s.sf3_err_count_val < U32) :
    ∃ m, m ≤ SF3_PAGE_SIZE ∧
      (readIter inp s).1.sf3_err_count_val = (s.sf3_err_count_val + m) % U32 := by
  refine ⟨misCountG (fun j =>
      (if inp.opFail then clearRB 0 (SF3_PAGE_SIZE + SF3_READ_MIN_EXTRA_BYTES) s.ReadBuffer
       else SF3_FlashRead s.flash
         ((s.sf3_addr_start_val + s.sf3_i_val * sf3_page_addr_incr) % U32)
         (clearRB 0 (SF3_PAGE_SIZE + SF3_READ_MIN_EXTRA_BYTES) s.ReadBuffer))
        (j + SF3_READ_MIN_EXTRA_BYTES))
    s.sf3_pattern_incr_val 0 SF3_PAGE_SIZE s.sf3_pattern_start_val,
    misCountG_le _ _ _ _ _, ?_⟩
  simp only [readIter]
  rw [cmpLoop_fst _ _ SF3_PAGE_SIZE 0 _ _ herr]

theorem batch_readIter_err (inp : TickInput) :
    ∀ (n : Nat) (s : ExperimentData), s.sf3_err_count_val < U32 →
      ∃ d, d ≤ n * SF3_PAGE_SIZE ∧
        (batch readIter inp n s).1.sf3_err_count_val = (s.sf3_err_count_val + d) % U32 := by
  intro n
  induction n with
  | zero =>
      intro s herr
      refine ⟨0, Nat.zero_le _, ?_⟩
      show s.sf3_err_count_val = (s.sf3_err_count_val + 0) % U32
      rw [Nat.add_zero, Nat.mod_eq_of_lt herr]
  | succ n ih =>
      intro s herr
      obtain ⟨m, hmle, hmeq⟩ := readIter_err inp s herr
      have herr1 : (readIter inp s).1.sf3_err_count_val < U32 := by
        rw [hmeq]
        exact Nat.mod_lt _ U32_pos
      obtain ⟨d, hdle, hdeq⟩ := ih (readIter inp s).1 herr1
      have hps : SF3_PAGE_SIZE = 256 := rfl
      refine ⟨m + d, by rw [hps] at hmle hdle ⊢; omega, ?_⟩
      rw [batch_fst_succ, hdeq, hmeq, mod_U32_add_mod]
      congr 1
      omega

/-- Every tick taken in a mode other than `ST_CMD_READ_START` leaves the
error counter unchanged — in particular the `ST_SET_PATTERN` and
`ST_SET_START_ADDR` pass-start ticks do not reset it. -/
theorem tick_err_of_ne_readStart (inp : TickInput) (s : ExperimentData)
    (hm : s.operatingMode ≠ ST_CMD_READ_START) :
    (tick inp s).sf3_err_count_val = s.sf3_err_count_val := by
  cases hmode : s.operatingMode
  case ST_WAIT_BUTTON_DEP =>
    simp only [tick, Experiment_operateFSM, Experiment_readUserInputs,
      Experiment_iterationTimer, hmode]
    split <;> (try split) <;> (try split) <;> (try split) <;> (try split) <;> rfl
  case ST_WAIT_BUTTON_REL =>
    simp only [tick, Experiment_operateFSM, Experiment_readUserInputs,
      Experiment_iterationTimer, hmode]
    split <;> rfl
  case ST_SET_PATTERN =>
    simp only [tick, Experiment_operateFSM, Experiment_readUserInputs,
      Experiment_iterationTimer, hmode]
    cases s.sf3_test_pattern_selected <;> rfl
  case ST_SET_START_ADDR =>
    simp only [tick, Experiment_operateFSM, Experiment_readUserInputs,
      Experiment_iterationTimer, hmode]
    split <;> (try split) <;> rfl
  case ST_SET_START_WAIT =>
    simp only [tick, Experiment_operateFSM, Experiment_readUserInputs,
      Experiment_iterationTimer, hmode]
    split <;> rfl
  case ST_CMD_ERASE_START =>
    simp only [tick, Experiment_operateFSM, Experiment_readUserInputs,
      Experiment_iterationTimer, eraseStep, hmode]
  case ST_CMD_ERASE_DONE =>
    simp only [tick, Experiment_operateFSM, Experiment_readUserInputs,
      Experiment_iterationTimer, hmode]
    split <;> rfl
  case ST_CMD_PAGE_START =>
    have hT : (tick inp s).sf3_err_count_val =
        (Experiment_operateFSM inp (Experiment_readUserInputs inp s)).1.sf3_err_count_val :=
      rfl
    have hr : (Experiment_operateFSM inp (Experiment_readUserInputs inp s)).1 =
        (batch pageIter inp 32 (Experiment_readUserInputs inp s)).1 := by
      simp [Experiment_operateFSM, Experiment_readUserInputs, hmode]
    rw [hT, hr, batch_pageIter_err]
    rfl
  case ST_CMD_PAGE_DONE =>
    simp only [tick, Experiment_operateFSM, Experiment_readUserInputs,
      Experiment_iterationTimer, hmode]
    split <;> rfl
  case ST_CMD_READ_START => exact absurd hmode hm
  case ST_CMD_READ_DONE =>
    simp only [tick, Experiment_operateFSM, Experiment_readUserInputs,
      Experiment_iterationTimer, hmode]
    split <;> rfl
  case ST_DISPLAY_FINAL =>
    simp only [tick, Experiment_operateFSM, Experiment_readUserInputs,
      Experiment_iterationTimer, hmode]
    split <;> rfl
  case OPERATING_MODE_NONE =>
    simp only [tick, Experiment_operateFSM, Experiment_readUserInputs,
      Experiment_iterationTimer, hmode]

/-- C2 (amended): what the code actually guarantees about `errorCount`.
It is zeroed by `Experiment_InitData` (power-on initialisation) and by
nothing else: every tick taken in a mode other than `ST_CMD_READ_START`
— including the `ST_SET_PATTERN` and `ST_SET_START_ADDR` ticks that
begin a new pass — preserves it exactly, and a `ST_CMD_READ_START` tick
adds the batch's byte-mismatch count (at most 32 pages of 256 bytes)
modulo 2^32, so within a region test the counter only accumulates.  The
claimed reset at the start of each pass does not exist in the code. -/
theorem C2_errorCount_amended :
    (∀ s : ExperimentData, (Experiment_InitData s).sf3_err_count_val = 0) ∧
    (∀ (inp : TickInput) (s : ExperimentData),
      s.operatingMode ≠ ST_CMD_READ_START →
      (tick inp s).sf3_err_count_val = s.sf3_err_count_val) ∧
    (∀ (inp : TickInput) (s : ExperimentData),
      s.operatingMode = ST_CMD_READ_START →
      s.sf3_err_count_val < U32 →
      ∃ d, d ≤ 32 * SF3_PAGE_SIZE ∧
        (tick inp s).sf3_err_count_val = (s.sf3_err_count_val + d) % U32) := by
  refine ⟨fun s => rfl, tick_err_of_ne_readStart, ?_⟩
  intro inp s hm herr
  have hT : (tick inp s).sf3_err_count_val =
      (Experiment_operateFSM inp (Experiment_readUserInputs inp s)).1.sf3_err_count_val :=
    rfl
  have hr : (Experiment_operateFSM inp (Experiment_readUserInputs inp s)).1 =
      (batch readIter inp 32 (Experiment_readUserInputs inp s)).1 := by
    simp [Experiment_operateFSM, Experiment_readUserInputs, hm]
  obtain ⟨d, hdle, hdeq⟩ := batch_readIter_err inp 32 (Experiment_readUserInputs inp s) herr
  refine ⟨d, ?_, by rw [hT, hr]; exact hdeq⟩
  have hps : SF3_PAGE_SIZE = 256 := rfl
  rw [hps] at hdle ⊢
  omega

/-- Closed witness for the amended C2: initialisation zeroes the counter,
a pass-start tick (`ST_SET_PATTERN`) carries the value 7 through
unchanged, and a read tick adds a bounded amount modulo 2^32. -/
theorem C2_errorCount_amended_witness :
    (Experiment_InitData (zeroData fun _ => 0)).sf3_err_count_val = 0 ∧
    (tick ⟨0, 0, false, false⟩
      { zeroData (fun _ => 0) with
          operatingMode := ST_SET_PATTERN
          sf3_err_count_val := 7 }).sf3_err_count_val = 7 ∧
    ∃ d, d ≤ 32 * SF3_PAGE_SIZE ∧
      (tick ⟨0, 0, false, true⟩
        { zeroData (fun _ => 0) with
            operatingMode := ST_CMD_READ_START
            sf3_err_count_val := 7 }).sf3_err_count_val = (7 + d) % U32 := by
  obtain ⟨h1, h2, h3⟩ := C2_errorCount_amended
  exact ⟨h1 _, h2 ⟨0, 0, false, false⟩ _ (by decide), h3 ⟨0, 0, false, true⟩ _ rfl (by decide)⟩

theorem ctrl_fields_of (s : ExperimentData) (C : Ctrl) (h : ctrl s = C) :
    s.operatingMode = C.operatingMode ∧ s.operatingModePrev = C.operatingModePrev ∧
    s.sf3_start_at_zero = C.sf3_start_at_zero ∧
    s.sf3_addr_start_val = C.sf3_addr_start_val ∧
    s.sf3_test_pattern_selected = C.sf3_test_pattern_selected ∧
    s.sf3_pattern_start_val = C.sf3_pattern_start_val ∧
    s.sf3_pattern_incr_val = C.sf3_pattern_incr_val ∧
    s.sf3_pattern_track_val = C.sf3_pattern_track_val ∧
    s.sf3_test_pass = C.sf3_test_pass ∧
    s.sf3_test_done = C.sf3_test_done ∧
    s.sf3_err_count_val = C.sf3_err_count_val ∧
    s.cnt_t = C.cnt_t ∧
    s.sf3_i_val = C.sf3_i_val :=
  ⟨congrArg Ctrl.operatingMode h, congrArg Ctrl.operatingModePrev h,
   congrArg Ctrl.sf3_start_at_zero h, congrArg Ctrl.sf3_addr_start_val h,
   congrArg Ctrl.sf3_test_pattern_selected h, congrArg Ctrl.sf3_pattern_start_val h,
   congrArg Ctrl.sf3_pattern_incr_val h, congrArg Ctrl.sf3_pattern_track_val h,
   congrArg Ctrl.sf3_test_pass h, congrArg Ctrl.sf3_test_done h,
   congrArg Ctrl.sf3_err_count_val h, congrArg Ctrl.cnt_t h, congrArg Ctrl.sf3_i_val h⟩

set_option maxRecDepth 2000

/-! ### The C2 counterexample trace: checkpoints along `run c2Input` -/

theorem c2_at_1 : ctrl (run c2Input 1 (initState fun _ => 0)) =
    (⟨ST_WAIT_BUTTON_REL, ST_WAIT_BUTTON_REL, true, 0, TEST_PATTERN_A, 0, 1, 0,
      false, false, 0, 0, 0⟩ : Ctrl) := by
  show ctrl (tick (c2Input 0) (run c2Input 0 (initState fun _ => 0))) = _
  rw [run_zero,
    tick_waitDep_selectA (c2Input 0) (initState fun _ => 0) rfl rfl (by decide) (by decide)]
  rfl

theorem c2_at_2 : ctrl (run c2Input 2 (initState fun _ => 0)) =
    (⟨ST_SET_PATTERN, ST_SET_PATTERN, true, 0, TEST_PATTERN_A, 0, 1, 0,
      false, false, 0, 0, 0⟩ : Ctrl) := by
  obtain ⟨p1, p2, p3, p4, p5, p6, p7, p8, p9, p10, p11, p12, p13⟩ :=
    ctrl_fields_of _ _ c2_at_1
  show ctrl (tick (c2Input 1) (run c2Input 1 (initState fun _ => 0))) = _
  rw [tick_waitRel_release (c2Input 1) _ p1 p2 (by decide), c2_at_1] <;> rfl

theorem c2_at_3 : ctrl (run c2Input 3 (initState fun _ => 0)) =
    (⟨ST_SET_START_ADDR, ST_SET_START_ADDR, true, 0, TEST_PATTERN_A, 0, 1, 0,
      false, false, 0, 0, 0⟩ : Ctrl) := by
  obtain ⟨p1, p2, p3, p4, p5, p6, p7, p8, p9, p10, p11, p12, p13⟩ :=
    ctrl_fields_of _ _ c2_at_2
  show ctrl (tick (c2Input 2) (run c2Input 2 (initState fun _ => 0))) = _
  rw [tick_setPattern (c2Input 2) _ TEST_PATTERN_A p1 p2 p5 (by decide), c2_at_2] <;> rfl

theorem c2_at_4 : ctrl (run c2Input 4 (initState fun _ => 0)) =
    (⟨ST_SET_START_WAIT, ST_SET_START_WAIT, false, 0, TEST_PATTERN_A, 0, 1, 0,
      false, false, 0, 0, 0⟩ : Ctrl) := by
  obtain ⟨p1, p2, p3, p4, p5, p6, p7, p8, p9, p10, p11, p12, p13⟩ :=
    ctrl_fields_of _ _ c2_at_3
  show ctrl (tick (c2Input 3) (run c2Input 3 (initState fun _ => 0))) = _
  rw [tick_setStartAddr_zero (c2Input 3) _ p1 p2 p3, c2_at_3] <;> rfl

theorem c2_at_155 : ctrl (run c2Input 155 (initState fun _ => 0)) =
    (⟨ST_CMD_ERASE_START, ST_CMD_ERASE_START, false, 0, TEST_PATTERN_A, 0, 1, 0,
      false, false, 0, 0, 0⟩ : Ctrl) := by
  obtain ⟨p1, p2, p3, p4, p5, p6, p7, p8, p9, p10, p11, p12, p13⟩ :=
    ctrl_fields_of _ _ c2_at_4
  have e5 : run c2Input 155 (initState fun _ => 0) =
      run (fun k => c2Input (4 + k)) 151 (run c2Input 4 (initState fun _ => 0)) := by
    have h0 : (155 : Nat) = 4 + 151 := by norm_num
    rw [h0, run_add]
  rw [e5, wait_phase (fun k => c2Input (4 + k)) _ p1 p2 p12, c2_at_4] <;> rfl

theorem c2_at_411 : ctrl (run c2Input 411 (initState fun _ => 0)) =
    (⟨ST_CMD_ERASE_DONE, ST_CMD_ERASE_DONE, false, 0, TEST_PATTERN_A, 0, 1, 0,
      false, false, 0, 0, 256⟩ : Ctrl) := by
  obtain ⟨p1, p2, p3, p4, p5, p6, p7, p8, p9, p10, p11, p12, p13⟩ :=
    ctrl_fields_of _ _ c2_at_155
  have e6 : run c2Input 411 (initState fun _ => 0) =
      run (fun k => c2Input (155 + k)) 256 (run c2Input 155 (initState fun _ => 0)) := by
    have h0 : (411 : Nat) = 155 + 256 := by norm_num
    rw [h0, run_add]
  rw [e6, erase_phase (fun k => c2Input (155 + k)) _ p1 p2 p12 p13 256 (Nat.le_refl _),
    c2_at_155] <;> rfl

theorem c2_at_711 : ctrl (run c2Input 711 (initState fun _ => 0)) =
    (⟨ST_CMD_PAGE_START, ST_CMD_PAGE_START, false, 0, TEST_PATTERN_A, 0, 1, 0,
      false, false, 0, 0, 0⟩ : Ctrl) := by
  obtain ⟨p1, p2, p3, p4, p5, p6, p7, p8, p9, p10, p11, p12, p13⟩ :=
    ctrl_fields_of _ _ c2_at_411
  have e7 : run c2Input 711 (initState fun _ => 0) =
      run (fun k => c2Input (411 + k)) 300 (run c2Input 411 (initState fun _ => 0)) := by
    have h0 : (711 : Nat) = 411 + 300 := by norm_num
    rw [h0, run_add]
  obtain ⟨hB0, _⟩ := dwell_phase (fun k => c2Input (411 + k)) _
    (Or.inl p1) (by rw [p2, p1]) p12
  rw [e7, hB0, p1, p6, c2_at_411] <;> rfl

theorem c2_at_839 : ctrl (run c2Input 839 (initState fun _ => 0)) =
    (⟨ST_CMD_PAGE_DONE, ST_CMD_PAGE_DONE, false, 0, TEST_PATTERN_A, 0, 1, 0,
      false, false, 0, 0, 4096⟩ : Ctrl) := by
  obtain ⟨p1, p2, p3, p4, p5, p6, p7, p8, p9, p10, p11, p12, p13⟩ :=
    ctrl_fields_of _ _ c2_at_711
  have e8 : run c2Input 839 (initState fun _ => 0) =
      run (fun k => c2Input (711 + k)) 128 (run c2Input 711 (initState fun _ => 0)) := by
    have h0 : (839 : Nat) = 711 + 128 := by norm_num
    rw [h0, run_add]
  obtain ⟨hC0, _⟩ := page_phase (fun k => c2Input (711 + k)) _
    p1 p2 p12 p13 (by rw [p8, p6]) (by rw [p6]; decide) (by rw [p4]; decide)
    (fun t ht => decide_eq_false (by omega)) 128 (Nat.le_refl _)
  rw [e8, hC0, p6, c2_at_711] <;> rfl

theorem c2_at_1139 : ctrl (run c2Input 1139 (initState fun _ => 0)) =
    (⟨ST_CMD_READ_START, ST_CMD_READ_START, false, 0, TEST_PATTERN_A, 0, 1, 0,
      false, false, 0, 0, 0⟩ : Ctrl) := by
  obtain ⟨p1, p2, p3, p4, p5, p6, p7, p8, p9, p10, p11, p12, p13⟩ :=
    ctrl_fields_of _ _ c2_at_839
  have e9 : run c2Input 1139 (initState fun _ => 0) =
      run (fun k => c2Input (839 + k)) 300 (run c2Input 839 (initState fun _ => 0)) := by
    have h0 : (1139 : Nat) = 839 + 300 := by norm_num
    rw [h0, run_add]
  obtain ⟨hB0, _⟩ := dwell_phase (fun k => c2Input (839 + k)) _
    (Or.inr (Or.inl p1)) (by rw [p2, p1]) p12
  rw [e9, hB0, p1, p6, c2_at_839] <;> rfl

theorem c2_at_1267 : ctrl (run c2Input 1267 (initState fun _ => 0)) =
    (⟨ST_CMD_READ_DONE, ST_CMD_READ_DONE, false, 0, TEST_PATTERN_A, 0, 1, 0,
      false, false, 1044480, 0, 4096⟩ : Ctrl) := by
  obtain ⟨p1, p2, p3, p4, p5, p6, p7, p8, p9, p10, p11, p12, p13⟩ :=
    ctrl_fields_of _ _ c2_at_1139
  have e10 : run c2Input 1267 (initState fun _ => 0) =
      run (fun k => c2Input (1139 + k)) 128 (run c2Input 1139 (initState fun _ => 0)) := by
    have h0 : (1267 : Nat) = 1139 + 128 := by norm_num
    rw [h0, run_add]
  obtain ⟨hE0, _⟩ := read_phase (fun k => c2Input (1139 + k)) _
    (fun _ => 0) true p1 p2 p12 p13 (by rw [p8, p6]) (by rw [p11]; decide)
    (by rw [p4]; decide) (fun t ht => decide_eq_true (by omega))
    (fun k hk j hj => rfl) 128 (Nat.le_refl _)
  rw [e10, hE0, p6, p7, p11, c2_at_1139]
  decide

theorem c2_at_1567 : ctrl (run c2Input 1567 (initState fun _ => 0)) =
    (⟨ST_DISPLAY_FINAL, ST_DISPLAY_FINAL, false, 0, TEST_PATTERN_A, 0, 1, 0,
      false, false, 1044480, 0, 0⟩ : Ctrl) := by
  obtain ⟨p1, p2, p3, p4, p5, p6, p7, p8, p9, p10, p11, p12, p13⟩ :=
    ctrl_fields_of _ _ c2_at_1267
  have e11 : run c2Input 1567 (initState fun _ => 0) =
      run (fun k => c2Input (1267 + k)) 300 (run c2Input 1267 (initState fun _ => 0)) := by
    have h0 : (1567 : Nat) = 1267 + 300 := by norm_num
    rw [h0, run_add]
  obtain ⟨hB0, _⟩ := dwell_phase (fun k => c2Input (1267 + k)) _
    (Or.inr (Or.inr p1)) (by rw [p2, p1]) p12
  rw [e11, hB0, p1, p6, c2_at_1267] <;> rfl

theorem c2_at_1867 : ctrl (run c2Input 1867 (initState fun _ => 0)) =
    (⟨ST_WAIT_BUTTON_DEP, ST_WAIT_BUTTON_DEP, false, 0, TEST_PATTERN_A, 0, 1, 0,
      false, false, 1044480, 0, 0⟩ : Ctrl) := by
  obtain ⟨p1, p2, p3, p4, p5, p6, p7, p8, p9, p10, p11, p12, p13⟩ :=
    ctrl_fields_of _ _ c2_at_1567
  have e12 : run c2Input 1867 (initState fun _ => 0) =
      run (fun k => c2Input (1567 + k)) 300 (run c2Input 1567 (initState fun _ => 0)) := by
    have h0 : (1867 : Nat) = 1567 + 300 := by norm_num
    rw [h0, run_add]
  rw [e12, final_phase (fun k => c2Input (1567 + k)) _ p1 p2 p12, p11, c2_at_1567] <;> rfl

theorem c2_at_1868 : ctrl (run c2Input 1868 (initState fun _ => 0)) =
    (⟨ST_WAIT_BUTTON_REL, ST_WAIT_BUTTON_REL, false, 0, TEST_PATTERN_A, 0, 1, 0,
      false, false, 1044480, 0, 0⟩ : Ctrl) := by
  obtain ⟨p1, p2, p3, p4, p5, p6, p7, p8, p9, p10, p11, p12, p13⟩ :=
    ctrl_fields_of _ _ c2_at_1867
  show ctrl (tick (c2Input 1867) (run c2Input 1867 (initState fun _ => 0))) = _
  rw [tick_waitDep_selectA (c2Input 1867) _ p1 p2 (by rw [p4]; decide) (by decide),
    c2_at_1867] <;> rfl

theorem c2_at_1869 : ctrl (run c2Input 1869 (initState fun _ => 0)) =
    (⟨ST_SET_PATTERN, ST_SET_PATTERN, false, 0, TEST_PATTERN_A, 0, 1, 0,
      false, false, 1044480, 0, 0⟩ : Ctrl) := by
  obtain ⟨p1, p2, p3, p4, p5, p6, p7, p8, p9, p10, p11, p12, p13⟩ :=
    ctrl_fields_of _ _ c2_at_1868
  show ctrl (tick (c2Input 1868) (run c2Input 1868 (initState fun _ => 0))) = _
  rw [tick_waitRel_release (c2Input 1868) _ p1 p2 (by decide), c2_at_1868] <;> rfl

theorem c2_at_1870 : ctrl (run c2Input 1870 (initState fun _ => 0)) =
    (⟨ST_SET_START_ADDR, ST_SET_START_ADDR, false, 0, TEST_PATTERN_A, 0, 1, 0,
      false, false, 1044480, 0, 0⟩ : Ctrl) := by
  obtain ⟨p1, p2, p3, p4, p5, p6, p7, p8, p9, p10, p11, p12, p13⟩ :=
    ctrl_fields_of _ _ c2_at_1869
  show ctrl (tick (c2Input 1869) (run c2Input 1869 (initState fun _ => 0))) = _
  rw [tick_setPattern (c2Input 1869) _ TEST_PATTERN_A p1 p2 p5 (by decide), c2_at_1869] <;> rfl

theorem c2_at_1871 : ctrl (run c2Input 1871 (initState fun _ => 0)) =
    (⟨ST_SET_START_WAIT, ST_SET_START_WAIT, false, 1048576, TEST_PATTERN_A, 0, 1, 0,
      false, false, 1044480, 0, 0⟩ : Ctrl) := by
  obtain ⟨p1, p2, p3, p4, p5, p6, p7, p8, p9, p10, p11, p12, p13⟩ :=
    ctrl_fields_of _ _ c2_at_1870
  show ctrl (tick (c2Input 1870) (run c2Input 1870 (initState fun _ => 0))) = _
  have ha : (run c2Input 1870 (initState fun _ => 0)).sf3_addr_start_val <
      last_starting_byte_addr := by
    rw [p4]
    decide
  rw [tick_setStartAddr_advance (c2Input 1870) _ p1 p2 p3 ha, p4, c2_at_1870] <;> rfl

theorem c2_mode_1869 : (run c2Input 1869 (initState fun _ => 0)).operatingMode =
    ST_SET_PATTERN := by
  have hh := congrArg Ctrl.operatingMode c2_at_1869
  simp only [ctrl_mode] at hh
  exact hh

theorem c2_mode_1870 : (run c2Input 1870 (initState fun _ => 0)).operatingMode =
    ST_SET_START_ADDR := by
  have hh := congrArg Ctrl.operatingMode c2_at_1870
  simp only [ctrl_mode] at hh
  exact hh

theorem c2_mode_1871 : (run c2Input 1871 (initState fun _ => 0)).operatingMode =
    ST_SET_START_WAIT := by
  have hh := congrArg Ctrl.operatingMode c2_at_1871
  simp only [ctrl_mode] at hh
  exact hh

theorem c2_err_1871 : (run c2Input 1871 (initState fun _ => 0)).sf3_err_count_val =
    1044480 := by
  have hstep : (run c2Input 1871 (initState fun _ => 0)).sf3_err_count_val =
      (ctrl (run c2Input 1871 (initState fun _ => 0))).sf3_err_count_val := by
    rw [ctrl_err]
  rw [hstep, c2_at_1871]

/-- C2 counterexample: a reachable trace on which the pass-start
transition does NOT leave `errorCount == 0`.  Under the input schedule
`c2Input` (pattern-A pass whose read phase fails on every page, then a
second button press), the run from the initial state is in
`ST_SET_PATTERN` after 1869 ticks and in `ST_SET_START_ADDR` after 1870
ticks — the transition that begins the second pass — yet after 1871
ticks, entering `ST_SET_START_WAIT` with the erase phase about to
start, the error counter still holds 1044480 (= 4096 pages × 255
mismatches) from the previous pass: it was never reset. -/
theorem C2_err_not_reset_counterexample :
    (run c2Input 1869 (initState fun _ => 0)).operatingMode = ST_SET_PATTERN ∧
    (run c2Input 1870 (initState fun _ => 0)).operatingMode = ST_SET_START_ADDR ∧
    (run c2Input 1871 (initState fun _ => 0)).operatingMode = ST_SET_START_WAIT ∧
    (run c2Input 1871 (initState fun _ => 0)).sf3_err_count_val = 1044480 :=
  ⟨c2_mode_1869, c2_mode_1870, c2_mode_1871, c2_err_1871⟩


end SFT
